import Mathlib

/-!
# Tx-data memtable manager (`ObTxDataMemtableMgr`)

A shallow embedding of `src/storage/tx_table/ob_tx_data_memtable_mgr.{h,cpp}`.

Conventions of the embedding.

* `int64_t` positions (`memtable_head_`, `memtable_tail_`) are `Int`; they are counters
  that move by one per call, so the 64-bit range is not reached by the runs considered.
* Return codes are the named constants of the sources (`ObRet`); their numeric values
  are defined outside the files embedded here, only their identity matters.
* Calls into collaborators whose code lies outside the files embedded here (the tenant
  meta-memory manager, the memtable object, the array container) are resolved by an
  explicit environment record giving the outcome of each call.
* A slot of `tables_` holds the memtable object itself; every object sits in at most one
  slot (each slot is filled with a freshly acquired object), so a write through a pointer
  taken from a slot is a write to that slot.
-/

set_option autoImplicit false

namespace OceanBase

/-- Return codes used by the embedded functions. `CAPACITY_EXCEEDED` is the name the
specification gives to the slot-capacity failure; `other` stands for any further code a
collaborator may return. -/
inductive ObRet where
  | OB_SUCCESS
  | OB_NOT_INIT
  | OB_INIT_TWICE
  | OB_INVALID_ARGUMENT
  | OB_ERR_NULL_VALUE
  | OB_ERR_UNEXPECTED
  | OB_EAGAIN
  | OB_SIZE_OVERFLOW
  | OB_STATE_NOT_MATCH
  | OB_ENTRY_NOT_EXIST
  | OB_ENTRY_EXIST
  | OB_ALLOCATE_MEMORY_FAILED
  | OB_CANCELED
  | OB_NO_NEED_MERGE
  | OB_ITER_END
  | OB_TOO_MANY_TENANT_LS
  | OB_LS_NOT_EXIST
  | OB_ERR_SYS
  | CAPACITY_EXCEEDED
  | other (code : Int)
  deriving DecidableEq, Repr

/-- The `OB_FAIL(ret)` test: the code differs from `OB_SUCCESS`. -/
def OB_FAIL (r : ObRet) : Bool := r != ObRet.OB_SUCCESS

/-- The `OB_SUCC(ret)` test. -/
def OB_SUCC (r : ObRet) : Bool := r == ObRet.OB_SUCCESS

/-- The largest `int64_t`. -/
def INT64_MAX : Int := 9223372036854775807

namespace TxData

/-- The states of `ObTxDataMemtable::State` that the manager reads or writes. -/
inductive State where
  | UNKNOWN
  | ACTIVE
  | FREEZING
  | FROZEN
  | RELEASED
  | INVALID
  deriving DecidableEq, Repr

/-- The part of an `ObTxDataMemtable` object the manager reads or writes.
`addr` is the identity of the object (its address). -/
structure ObTxDataMemtable where
  addr : Nat
  state_ : State
  start_log_ts_ : Int
  end_log_ts_ : Int
  tx_data_count_ : Int
  rec_log_ts_ : Int
  deriving DecidableEq, Repr

/-- Constants declared outside the files embedded here: the number of memtable slots of a
memtable manager and the number of tx-data memtables `freeze_` tolerates. -/
structure Consts where
  MAX_MEMSTORE_CNT : Int
  MAX_TX_DATA_MEMTABLE_CNT : Int
  deriving DecidableEq, Repr

/-- The fields of `ObTxDataMemtableMgr` (with those of its base class that the embedded
functions use). Pointers whose target is never inspected are `Option Nat`
(`none` is `nullptr`). -/
structure ObTxDataMemtableMgr where
  is_inited_ : Bool
  memtable_head_ : Int
  memtable_tail_ : Int
  tables_ : Int → Option ObTxDataMemtable
  is_freezing_ : Bool
  slice_allocator_ : Option Nat
  freezer_ : Option Nat
  tx_data_table_ : Option Nat

/-- Modelled from the spec: `get_memtable_count_` of the base class `ObIMemtableMgr`
(defined outside the files embedded here); the spec gives `count = tail − head`. -/
def get_memtable_count_ (m : ObTxDataMemtableMgr) : Int :=
  m.memtable_tail_ - m.memtable_head_

/-- Modelled from the spec: `get_memtable_idx` of the base class (defined outside
the files embedded here); the spec describes `tables_` as a bounded circular array indexed by
`[head, tail)`, so a position is reduced modulo the number of slots. -/
def get_memtable_idx (c : Consts) (pos : Int) : Int :=
  pos % c.MAX_MEMSTORE_CNT

/-- The table stored for position `pos`. -/
def table_at (c : Consts) (m : ObTxDataMemtableMgr) (pos : Int) : Option ObTxDataMemtable :=
  m.tables_ (get_memtable_idx c pos)

/-- Modelled from the spec: `add_memtable_` of the base class `ObIMemtableMgr` (defined
outside the files embedded here). The spec: the new table is appended at the tail, and the call
fails with `CAPACITY_EXCEEDED`, leaving the state unchanged, if the count would exceed
the maximum number of memtable slots. -/
def add_memtable_ (c : Consts) (m : ObTxDataMemtableMgr) (t : ObTxDataMemtable) :
    ObRet × ObTxDataMemtableMgr :=
  if get_memtable_count_ m ≥ c.MAX_MEMSTORE_CNT then
    (ObRet.CAPACITY_EXCEEDED, m)
  else
    (ObRet.OB_SUCCESS,
      { m with
        tables_ := Function.update m.tables_ (get_memtable_idx c m.memtable_tail_) (some t)
        memtable_tail_ := m.memtable_tail_ + 1 })

/-- Modelled from the spec: `ObTxDataMemtable::init` (defined outside the files embedded here).
The spec: `create` allocates a new ACTIVE table; the log-ts range is the one of the table
key built by `create_memtable_`. -/
def ObTxDataMemtable.init (raw : ObTxDataMemtable) (start_log_ts end_log_ts : Int) :
    ObTxDataMemtable :=
  { raw with state_ := State.ACTIVE, start_log_ts_ := start_log_ts, end_log_ts_ := end_log_ts }

/-- Outcomes of the collaborator calls made by `create_memtable_`:
`t3m_->acquire_tx_data_memtable(handle)`, `handle.get_table()` (`none` is `nullptr`),
the `dynamic_cast` to `ObTxDataMemtable *`, `tx_data_memtable->init(...)` and
`tx_data_memtable->set_freezer(freezer_)`. -/
structure CreateEnv where
  acquire_ret : ObRet
  table : Option ObTxDataMemtable
  is_tx_data_memtable : Bool
  init_ret : ObRet
  set_freezer_ret : ObRet
  deriving DecidableEq, Repr

/-- `ObTxDataMemtableMgr::create_memtable_` (cpp 140-175). -/
def create_memtable_ (c : Consts) (env : CreateEnv) (m : ObTxDataMemtableMgr)
    (clog_checkpoint_ts : Int) (_schema_version : Int) : ObRet × ObTxDataMemtableMgr :=
  if OB_FAIL env.acquire_ret then (env.acquire_ret, m)
  else match env.table with
    | none => (ObRet.OB_ERR_UNEXPECTED, m)
    | some raw =>
      if !env.is_tx_data_memtable then (ObRet.OB_ERR_UNEXPECTED, m)
      else if OB_FAIL env.init_ret then (env.init_ret, m)
      else
        let r := add_memtable_ c m (ObTxDataMemtable.init raw clog_checkpoint_ts INT64_MAX)
        if OB_FAIL r.1 then r
        else if OB_FAIL env.set_freezer_ret then (env.set_freezer_ret, r.2)
        else (ObRet.OB_SUCCESS, r.2)

/-- `ObTxDataMemtableMgr::create_memtable` (cpp 113-138). -/
def create_memtable (c : Consts) (env : CreateEnv) (m : ObTxDataMemtableMgr)
    (clog_checkpoint_ts : Int) (schema_version : Int) (_for_replay : Bool) :
    ObRet × ObTxDataMemtableMgr :=
  if !m.is_inited_ then (ObRet.OB_NOT_INIT, m)
  else if schema_version < 0 then (ObRet.OB_INVALID_ARGUMENT, m)
  else if m.slice_allocator_.isNone then (ObRet.OB_ERR_NULL_VALUE, m)
  else create_memtable_ c env m clog_checkpoint_ts schema_version

/-- The loop `while (freeze_memtable->get_write_ref() > 0) PAUSE();` of `freeze_`.
`reads i` is the value the `i`-th call of `get_write_ref()` returns (the counter is
decremented by other threads). The result is `true` when the loop is left within `fuel`
polls. -/
def wait_write_ref (reads : Nat → Int) : Nat → Bool
  | 0 => false
  | fuel + 1 => if reads 0 > 0 then wait_write_ref (fun i => reads (i + 1)) fuel else true

/-- Outcomes of the collaborator calls made by `freeze_`: those of the nested
`create_memtable_`, the values polled from `get_write_ref()`, and the value
`set_end_log_ts()` stores in the end log ts of the freeze target. -/
structure FreezeEnv where
  create : CreateEnv
  write_ref : Nat → Int
  end_log_ts : Int

/-- The epilogue of `freeze_` (cpp 257-263): on failure a moved tail is restored. -/
def freeze_epilogue (ret : ObRet) (pre_memtable_tail : Int) (m : ObTxDataMemtableMgr) :
    ObRet × ObTxDataMemtableMgr :=
  if OB_FAIL ret then
    if m.memtable_tail_ != pre_memtable_tail then
      (ret, { m with memtable_tail_ := pre_memtable_tail })
    else (ret, m)
  else (ret, m)

/-- `ObTxDataMemtableMgr::freeze_` (cpp 203-266). The result is `none` when the wait loop
is not left within `fuel` polls, and in the branch where the source dereferences a null
`new_memtable`. -/
def freeze_ (c : Consts) (env : FreezeEnv) (fuel : Nat) (m : ObTxDataMemtableMgr) :
    Option (ObRet × ObTxDataMemtableMgr) :=
  let freeze_memtable := m.tables_ (get_memtable_idx c (m.memtable_tail_ - 1))
  let pre_memtable_tail := m.memtable_tail_
  let clog_checkpoint_ts : Int := 1
  let schema_version : Int := 1
  if get_memtable_count_ m ≥ c.MAX_TX_DATA_MEMTABLE_CNT then
    some (freeze_epilogue ObRet.OB_EAGAIN pre_memtable_tail m)
  else if get_memtable_count_ m ≥ c.MAX_MEMSTORE_CNT then
    some (freeze_epilogue ObRet.OB_SIZE_OVERFLOW pre_memtable_tail m)
  else match freeze_memtable with
    | none => some (freeze_epilogue ObRet.OB_ERR_UNEXPECTED pre_memtable_tail m)
    | some fm =>
      if fm.state_ ≠ State.ACTIVE then
        some (freeze_epilogue ObRet.OB_ERR_UNEXPECTED pre_memtable_tail m)
      else if fm.tx_data_count_ = 0 then
        some (freeze_epilogue ObRet.OB_STATE_NOT_MATCH pre_memtable_tail m)
      else
        let r := create_memtable_ c env.create m clog_checkpoint_ts schema_version
        if OB_FAIL r.1 then some (freeze_epilogue r.1 pre_memtable_tail r.2)
        else
          let m1 := r.2
          match m1.tables_ (get_memtable_idx c (m1.memtable_tail_ - 1)) with
          | none => none
          | some new_memtable =>
            if wait_write_ref env.write_ref fuel then
              let frozen : ObTxDataMemtable :=
                { fm with end_log_ts_ := env.end_log_ts, state_ := State.FREEZING }
              let fresh : ObTxDataMemtable :=
                { new_memtable with start_log_ts_ := frozen.end_log_ts_, state_ := State.ACTIVE }
              let tables1 :=
                Function.update m1.tables_ (get_memtable_idx c (pre_memtable_tail - 1)) (some frozen)
              let tables2 :=
                Function.update tables1 (get_memtable_idx c (m1.memtable_tail_ - 1)) (some fresh)
              some (freeze_epilogue ObRet.OB_SUCCESS pre_memtable_tail { m1 with tables_ := tables2 })
            else none

/-- `ObTxDataMemtableMgr::freeze` (cpp 177-201). -/
def freeze (c : Consts) (env : FreezeEnv) (fuel : Nat) (m : ObTxDataMemtableMgr) :
    Option (ObRet × ObTxDataMemtableMgr) :=
  if !m.is_inited_ then some (ObRet.OB_ERR_UNEXPECTED, m)
  else if get_memtable_count_ m ≤ 0 then some (ObRet.OB_ERR_UNEXPECTED, m)
  else if m.slice_allocator_.isNone then some (ObRet.OB_ERR_NULL_VALUE, m)
  else freeze_ c env fuel m

/-- Outcomes of the collaborator calls made on the read and flush paths:
the code `get_ith_memtable` returns for a slot holding no table, the code of the `i`-th
`handles.push_back`, the answers of `ready_for_flush()` and `flush()` of a memtable, and
the code of `tx_data_table_->update_memtables_cache()`. -/
structure TableEnv where
  null_slot_ret : ObRet
  push_back_ret : Nat → ObRet
  ready_for_flush : ObTxDataMemtable → Bool
  flush_ret : ObTxDataMemtable → ObRet
  update_memtables_cache_ret : ObRet

/-- Modelled from the spec: `get_ith_memtable` of the base class `ObIMemtableMgr` (defined
outside the files embedded here). The spec: `get_active` hands out the handle of the table in
the last slot; the handle of position `pos` is the table stored for it, and a slot
holding no table yields a failure and no handle. -/
def get_ith_memtable (c : Consts) (env : TableEnv) (m : ObTxDataMemtableMgr) (pos : Int) :
    ObRet × Option ObTxDataMemtable :=
  match table_at c m pos with
  | some t => (ObRet.OB_SUCCESS, some t)
  | none => (if OB_FAIL env.null_slot_ret then env.null_slot_ret else ObRet.OB_ERR_UNEXPECTED, none)

/-- `ObTxDataMemtableMgr::get_active_memtable` (cpp 268-290). The second component is the
content of `handle` after the call. -/
def get_active_memtable (c : Consts) (env : TableEnv) (m : ObTxDataMemtableMgr) :
    ObRet × Option ObTxDataMemtable :=
  if m.memtable_tail_ = 0 then (ObRet.OB_EAGAIN, none)
  else if get_memtable_count_ m = 0 then (ObRet.OB_ENTRY_NOT_EXIST, none)
  else
    let r := get_ith_memtable c env m (m.memtable_tail_ - 1)
    if OB_FAIL r.1 then r
    else match r.2 with
      | none => (ObRet.OB_ERR_UNEXPECTED, none)
      | some tx_data_memtable =>
        if tx_data_memtable.state_ ≠ State.ACTIVE then (ObRet.OB_ERR_UNEXPECTED, r.2)
        else (ObRet.OB_SUCCESS, r.2)

/-- The loop of `get_all_memtables_` (cpp 295-302): `n` positions remain, `i` is the
current position. -/
def get_all_memtables_loop (c : Consts) (env : TableEnv) (m : ObTxDataMemtableMgr) :
    Nat → Int → List ObTxDataMemtable → ObRet × List ObTxDataMemtable
  | 0, _, handles => (ObRet.OB_SUCCESS, handles)
  | n + 1, i, handles =>
    match get_ith_memtable c env m i with
    | (_, some t) =>
      if OB_FAIL (env.push_back_ret handles.length) then
        (env.push_back_ret handles.length, handles)
      else get_all_memtables_loop c env m n (i + 1) (handles ++ [t])
    | (r, none) => (r, handles)

/-- `ObTxDataMemtableMgr::get_all_memtables_` (cpp 292-304). -/
def get_all_memtables_ (c : Consts) (env : TableEnv) (m : ObTxDataMemtableMgr)
    (handles : List ObTxDataMemtable) : ObRet × List ObTxDataMemtable :=
  get_all_memtables_loop c env m (get_memtable_count_ m).toNat m.memtable_head_ handles

/-- `ObTxDataMemtableMgr::get_all_memtables` (cpp 306-315). -/
def get_all_memtables (c : Consts) (env : TableEnv) (m : ObTxDataMemtableMgr)
    (handles : List ObTxDataMemtable) : ObRet × List ObTxDataMemtable :=
  let r := get_all_memtables_ c env m handles
  if OB_FAIL r.1 then (r.1, []) else r

/-- `ObTxDataMemtableMgr::get_rec_log_ts` (cpp 355-376). -/
def get_rec_log_ts (c : Consts) (env : TableEnv) (m : ObTxDataMemtableMgr) : Int :=
  let r := get_all_memtables c env m []
  if OB_FAIL r.1 then INT64_MAX
  else match r.2 with
    | [] => INT64_MAX
    | oldest_memtable :: _ => oldest_memtable.rec_log_ts_

/-- The loop body of `flush_all_frozen_memtables_` (cpp 383-395) over the handles the loop
visits. The second component lists, in call order, the memtables whose `flush()` was
called. -/
def flush_all_frozen_loop (env : TableEnv) :
    List ObTxDataMemtable → ObRet × List ObTxDataMemtable
  | [] => (ObRet.OB_SUCCESS, [])
  | memtable :: rest =>
    if memtable.state_ ≠ State.FROZEN && !env.ready_for_flush memtable then
      flush_all_frozen_loop env rest
    else if OB_FAIL (env.flush_ret memtable) then (env.flush_ret memtable, [memtable])
    else
      let r := flush_all_frozen_loop env rest
      (r.1, memtable :: r.2)

/-- `ObTxDataMemtableMgr::flush_all_frozen_memtables_` (cpp 378-397): the loop runs over
the indices `0 ≤ i < memtable_handles.count() - 1`, that is over all handles but the
last. -/
def flush_all_frozen_memtables_ (env : TableEnv) (memtable_handles : List ObTxDataMemtable) :
    ObRet × List ObTxDataMemtable :=
  flush_all_frozen_loop env memtable_handles.dropLast

/-- The fields of `TxDataMemtableMgrFreezeGuard` (h 136-172). `memtable_mgr_` records
whether the pointer is set (it then points at the manager the guard was initialised
with). -/
structure TxDataMemtableMgrFreezeGuard where
  can_freeze_ : Bool
  memtable_mgr_ : Bool
  deriving DecidableEq, Repr

/-- The constructor `TxDataMemtableMgrFreezeGuard()`. -/
def TxDataMemtableMgrFreezeGuard.new : TxDataMemtableMgrFreezeGuard :=
  { can_freeze_ := false, memtable_mgr_ := false }

/-- `TxDataMemtableMgrFreezeGuard::reset` (h 158-165); it is also the destructor. -/
def TxDataMemtableMgrFreezeGuard.reset (g : TxDataMemtableMgrFreezeGuard)
    (m : ObTxDataMemtableMgr) : TxDataMemtableMgrFreezeGuard × ObTxDataMemtableMgr :=
  if g.memtable_mgr_ then
    ({ can_freeze_ := false, memtable_mgr_ := false }, { m with is_freezing_ := false })
  else ({ g with can_freeze_ := false }, m)

/-- `TxDataMemtableMgrFreezeGuard::init` (h 142-156). `is_null` tells whether the argument
is `nullptr`; otherwise it is the manager `m`. `ATOMIC_CAS(&is_freezing_, false, true)`
returns the old value of the flag and sets the flag when that value is `false`. -/
def TxDataMemtableMgrFreezeGuard.init (g : TxDataMemtableMgrFreezeGuard) (is_null : Bool)
    (m : ObTxDataMemtableMgr) :
    ObRet × TxDataMemtableMgrFreezeGuard × ObTxDataMemtableMgr :=
  let r := g.reset m
  if is_null then (ObRet.OB_INVALID_ARGUMENT, r.1, r.2)
  else
    let old := r.2.is_freezing_
    let m1 : ObTxDataMemtableMgr := if old = false then { r.2 with is_freezing_ := true } else r.2
    let can_freeze := (old == false)
    if can_freeze then (ObRet.OB_SUCCESS, { can_freeze_ := true, memtable_mgr_ := true }, m1)
    else (ObRet.OB_SUCCESS, { r.1 with can_freeze_ := false }, m1)

/-- `TxDataMemtableMgrFreezeGuard::can_freeze` (h 167). -/
def TxDataMemtableMgrFreezeGuard.can_freeze (g : TxDataMemtableMgrFreezeGuard) : Bool :=
  g.can_freeze_

/-- Outcomes of the collaborator calls made by `flush`. -/
structure FlushEnv where
  freeze : FreezeEnv
  table : TableEnv

/-- What a call of `flush` did: its return code, the manager after the call, whether
`freeze()` was called, the memtables whose `flush()` was called (in call order) and
whether `update_memtables_cache()` was called. -/
structure FlushResult where
  ret : ObRet
  mgr : ObTxDataMemtableMgr
  freeze_called : Bool
  flushed : List ObTxDataMemtable
  cache_updated : Bool

/-- The first block of `flush` (cpp 406-420), with the destructor of `freeze_guard` at its
end: the return code, the manager and whether `freeze()` was called. -/
def flush_freeze_step (c : Consts) (env : FlushEnv) (fuel : Nat) (m : ObTxDataMemtableMgr)
    (recycle_log_ts : Int) (need_freeze : Bool) :
    Option (ObRet × ObTxDataMemtableMgr × Bool) :=
  if need_freeze then
    let freeze_guard := TxDataMemtableMgrFreezeGuard.new
    let rec_log_ts := get_rec_log_ts c env.table m
    if rec_log_ts ≥ recycle_log_ts then
      some (ObRet.OB_SUCCESS, (freeze_guard.reset m).2, false)
    else
      let r := freeze_guard.init false m
      if OB_FAIL r.1 then some (r.1, (r.2.1.reset r.2.2).2, false)
      else if !r.2.1.can_freeze then some (ObRet.OB_SUCCESS, (r.2.1.reset r.2.2).2, false)
      else match freeze c env.freeze fuel r.2.2 with
        | none => none
        | some fr => some (fr.1, (r.2.1.reset fr.2).2, true)
  else some (ObRet.OB_SUCCESS, m, false)

/-- The second block of `flush` (cpp 422-432), entered with the code `ret` of the first. -/
def flush_tables_step (c : Consts) (env : FlushEnv) (ret : ObRet) (m : ObTxDataMemtableMgr)
    (freeze_called : Bool) : FlushResult :=
  if OB_FAIL ret then
    { ret := ret, mgr := m, freeze_called := freeze_called, flushed := [], cache_updated := false }
  else
    let r := get_all_memtables c env.table m []
    if OB_FAIL r.1 then
      { ret := r.1, mgr := m, freeze_called := freeze_called, flushed := [],
        cache_updated := false }
    else if r.2.length = 0 then
      { ret := ObRet.OB_SUCCESS, mgr := m, freeze_called := freeze_called, flushed := [],
        cache_updated := false }
    else
      let f := flush_all_frozen_memtables_ env.table r.2
      if OB_FAIL f.1 then
        { ret := f.1, mgr := m, freeze_called := freeze_called, flushed := f.2,
          cache_updated := false }
      else if m.tx_data_table_.isSome then
        { ret := env.table.update_memtables_cache_ret, mgr := m, freeze_called := freeze_called,
          flushed := f.2, cache_updated := true }
      else
        { ret := ObRet.OB_SUCCESS, mgr := m, freeze_called := freeze_called, flushed := f.2,
          cache_updated := false }

/-- `ObTxDataMemtableMgr::flush` (cpp 399-435). The result is `none` when the freeze it
calls does not return within `fuel` polls of its wait loop. -/
def flush (c : Consts) (env : FlushEnv) (fuel : Nat) (m : ObTxDataMemtableMgr)
    (recycle_log_ts : Int) (need_freeze : Bool) : Option FlushResult :=
  match flush_freeze_step c env fuel m recycle_log_ts need_freeze with
  | none => none
  | some (ret, m1, freeze_called) => some (flush_tables_step c env ret m1 freeze_called)

/-- A sequence of `create_memtable` calls, each with the outcomes of its collaborator
calls and its arguments `(clog_checkpoint_ts, schema_version, for_replay)`. -/
def run_creates (c : Consts) :
    List (CreateEnv × Int × Int × Bool) → ObTxDataMemtableMgr → ObTxDataMemtableMgr
  | [], m => m
  | (env, ts, sv, fr) :: rest, m => run_creates c rest (create_memtable c env m ts sv fr).2

/-- A sequence of `freeze` calls, each with the outcomes of its collaborator calls and the
number of polls its wait loop may take; `none` when one of the calls does not return. -/
def run_freezes (c : Consts) :
    List (FreezeEnv × Nat) → ObTxDataMemtableMgr → Option ObTxDataMemtableMgr
  | [], m => some m
  | (env, fuel) :: rest, m =>
    match freeze c env fuel m with
    | none => none
    | some r => run_freezes c rest r.2

/-- Exactly one table at the positions `[memtable_head_, memtable_tail_)` is ACTIVE, and it
is the one at position `memtable_tail_ - 1`. -/
def OneActiveAtTail (c : Consts) (m : ObTxDataMemtableMgr) : Prop :=
  m.memtable_head_ < m.memtable_tail_ ∧
  ∀ p : Int, m.memtable_head_ ≤ p → p < m.memtable_tail_ →
    ((∃ t, table_at c m p = some t ∧ t.state_ = State.ACTIVE) ↔ p = m.memtable_tail_ - 1)

/-- Every table at a position of `(memtable_head_, memtable_tail_)` starts at the end log
ts of the table before it. -/
def Chained (c : Consts) (m : ObTxDataMemtableMgr) : Prop :=
  ∀ p : Int, m.memtable_head_ < p → p < m.memtable_tail_ →
    ∃ a b, table_at c m (p - 1) = some a ∧ table_at c m p = some b ∧
      b.start_log_ts_ = a.end_log_ts_

/-- A manager right after a successful `init` followed by `set_slice_allocator`:
`reset_tables()` has emptied the slots, `is_freezing_` is still the `false` of the
constructor. -/
def fresh_mgr : ObTxDataMemtableMgr :=
  { is_inited_ := true, memtable_head_ := 0, memtable_tail_ := 0, tables_ := fun _ => none,
    is_freezing_ := false, slice_allocator_ := some 1, freezer_ := some 2,
    tx_data_table_ := some 3 }

/-- A memtable object as handed out by the meta-memory manager, before `init`. -/
def raw_table (addr : Nat) (tx_data_count : Int) : ObTxDataMemtable :=
  { addr := addr, state_ := State.UNKNOWN, start_log_ts_ := 0, end_log_ts_ := 0,
    tx_data_count_ := tx_data_count, rec_log_ts_ := 0 }

/-- Collaborator outcomes of a `create_memtable_` in which every call succeeds and the
object `raw` is handed out. -/
def ok_create (raw : ObTxDataMemtable) : CreateEnv :=
  { acquire_ret := ObRet.OB_SUCCESS, table := some raw, is_tx_data_memtable := true,
    init_ret := ObRet.OB_SUCCESS, set_freezer_ret := ObRet.OB_SUCCESS }

/-- Collaborator outcomes of a `freeze_` in which every call succeeds, no writer holds the
freeze target, and `set_end_log_ts()` stores `end_log_ts`. -/
def ok_freeze (raw : ObTxDataMemtable) (end_log_ts : Int) : FreezeEnv :=
  { create := ok_create raw, write_ref := fun _ => 0, end_log_ts := end_log_ts }

/-- Constants used for the concrete runs: sixteen slots, two tx-data memtables. -/
def sample_consts : Consts := { MAX_MEMSTORE_CNT := 16, MAX_TX_DATA_MEMTABLE_CNT := 2 }

/-- The manager `add_memtable_` produces when there is room. -/
def appended (c : Consts) (m : ObTxDataMemtableMgr) (t : ObTxDataMemtable) :
    ObTxDataMemtableMgr :=
  { m with
    tables_ := Function.update m.tables_ (get_memtable_idx c m.memtable_tail_) (some t)
    memtable_tail_ := m.memtable_tail_ + 1 }

/-- The manager a successful `freeze_` produces: `fm` is the freeze target found at
position `memtable_tail_ - 1`, `raw` the object handed out for the new table and `end_ts`
the value `set_end_log_ts()` stores. -/
def after_freeze (c : Consts) (m : ObTxDataMemtableMgr) (fm raw : ObTxDataMemtable)
    (end_ts : Int) : ObTxDataMemtableMgr :=
  { m with
    memtable_tail_ := m.memtable_tail_ + 1
    tables_ :=
      Function.update
        (Function.update
          (Function.update m.tables_ (get_memtable_idx c m.memtable_tail_)
            (some (ObTxDataMemtable.init raw 1 INT64_MAX)))
          (get_memtable_idx c (m.memtable_tail_ - 1))
          (some { fm with end_log_ts_ := end_ts, state_ := State.FREEZING }))
        (get_memtable_idx c (m.memtable_tail_ + 1 - 1))
        (some { ObTxDataMemtable.init raw 1 INT64_MAX with
                start_log_ts_ := end_ts, state_ := State.ACTIVE }) }

/-- The manager a failed `freeze_` leaves behind when its `create_memtable_` had already
appended the table `t`: the tail is restored, the slot keeps the table. -/
def after_failed_freeze (c : Consts) (m : ObTxDataMemtableMgr) (t : ObTxDataMemtable) :
    ObTxDataMemtableMgr :=
  { m with
    tables_ := Function.update m.tables_ (get_memtable_idx c m.memtable_tail_) (some t) }

/-- A manager holding one ACTIVE table with five tx data. -/
def one_table_mgr : ObTxDataMemtableMgr :=
  (create_memtable sample_consts (ok_create (raw_table 7 5)) fresh_mgr 1 1 false).2

/-- The manager `one_table_mgr` after one successful `freeze`. -/
def two_table_mgr : ObTxDataMemtableMgr :=
  match freeze sample_consts (ok_freeze (raw_table 8 3) 40) 1 one_table_mgr with
  | some r => r.2
  | none => one_table_mgr

/-- Collaborator outcomes on the read path in which every call succeeds and no memtable
reports `ready_for_flush()`. -/
def ok_tables : TableEnv :=
  { null_slot_ret := ObRet.OB_ERR_UNEXPECTED, push_back_ret := fun _ => ObRet.OB_SUCCESS,
    ready_for_flush := fun _ => false, flush_ret := fun _ => ObRet.OB_SUCCESS,
    update_memtables_cache_ret := ObRet.OB_SUCCESS }

/-- The statement that the freeze target of `m` (the table at position
`memtable_tail_ - 1` before the call) is in FROZEN state in `m'`. -/
def FreezeTargetFrozen (c : Consts) (m m' : ObTxDataMemtableMgr) : Prop :=
  ∃ t, table_at c m' (m.memtable_tail_ - 1) = some t ∧ t.state_ = State.FROZEN

/-- Constants that let `freeze_` keep up to three tables before it answers `OB_EAGAIN`. -/
def wide_consts : Consts := { MAX_MEMSTORE_CNT := 16, MAX_TX_DATA_MEMTABLE_CNT := 4 }

/-- The manager `two_table_mgr` after one more successful `freeze` under `wide_consts`. -/
def three_table_mgr : ObTxDataMemtableMgr :=
  match freeze wide_consts (ok_freeze (raw_table 9 0) 50) 1 two_table_mgr with
  | some r => r.2
  | none => two_table_mgr

/-- The manager `one_table_mgr` after a second successful `create_memtable`. -/
def two_creates_mgr : ObTxDataMemtableMgr :=
  (create_memtable sample_consts (ok_create (raw_table 8 0)) one_table_mgr 1 1 false).2

/-- The test `flush_all_frozen_memtables_` applies before it calls `flush()`: the skip
condition `state != FROZEN && !ready_for_flush()` is false. -/
def flush_eligible (env : TableEnv) (t : ObTxDataMemtable) : Bool :=
  t.state_ == State.FROZEN || env.ready_for_flush t

/-- The memtables a reading "not the tail, FROZEN and ready for flush" selects, in
head-to-tail order. -/
def frozen_and_ready (env : TableEnv) (handles : List ObTxDataMemtable) :
    List ObTxDataMemtable :=
  handles.dropLast.filter (fun t => t.state_ == State.FROZEN && env.ready_for_flush t)

/-- A memtable with the given identity and state. -/
def table_in_state (addr : Nat) (s : State) : ObTxDataMemtable :=
  { addr := addr, state_ := s, start_log_ts_ := 0, end_log_ts_ := 0, tx_data_count_ := 1,
    rec_log_ts_ := 0 }

/-- Collaborator outcomes in which every memtable reports `ready_for_flush()` and the
`flush()` of the memtable with identity 1 fails. -/
def first_flush_fails : TableEnv :=
  { null_slot_ret := ObRet.OB_ERR_UNEXPECTED, push_back_ret := fun _ => ObRet.OB_SUCCESS,
    ready_for_flush := fun _ => true,
    flush_ret := fun t => if t.addr = 1 then ObRet.OB_EAGAIN else ObRet.OB_SUCCESS,
    update_memtables_cache_ret := ObRet.OB_SUCCESS }

/-- One manager together with the freeze guards that exist for it (guard `i` is used by
one thread at a time; the manager's `is_freezing_` is the only state they share). -/
structure GuardSystem where
  mgr : ObTxDataMemtableMgr
  guards : Nat → TxDataMemtableMgrFreezeGuard

/-- A call on guard `i`: `init(memtable_mgr)` (`is_null` tells that the argument is
`nullptr`, otherwise it is the manager), or `reset()` (also the destructor). -/
inductive GuardCall where
  | init (i : Nat) (is_null : Bool)
  | reset (i : Nat)

/-- The effect of one guard call on the system. -/
def GuardCall.run_on : GuardCall → GuardSystem → GuardSystem
  | GuardCall.init i is_null, s =>
    { mgr := ((s.guards i).init is_null s.mgr).2.2
      guards := Function.update s.guards i ((s.guards i).init is_null s.mgr).2.1 }
  | GuardCall.reset i, s =>
    { mgr := ((s.guards i).reset s.mgr).2
      guards := Function.update s.guards i ((s.guards i).reset s.mgr).1 }

/-- Any interleaving of guard calls, one after the other. -/
def GuardSystem.run : List GuardCall → GuardSystem → GuardSystem
  | [], s => s
  | call :: rest, s => GuardSystem.run rest (call.run_on s)

/-- The system in which all guards are freshly constructed. -/
def GuardSystem.start (m : ObTxDataMemtableMgr) : GuardSystem :=
  { mgr := m, guards := fun _ => TxDataMemtableMgrFreezeGuard.new }

/-- The guards that have acquired the flag are known to the manager's flag, and there is
at most one of them. -/
def GuardSystem.Inv (s : GuardSystem) : Prop :=
  (∀ i, (s.guards i).can_freeze_ = true → (s.guards i).memtable_mgr_ = true) ∧
  (∀ i, (s.guards i).memtable_mgr_ = true → s.mgr.is_freezing_ = true) ∧
  (∀ i j, (s.guards i).memtable_mgr_ = true → (s.guards j).memtable_mgr_ = true → i = j)

/-- The field of `ObTenantFreezer` (tx_storage/ob_tenant_freezer.h) that its tx-data
freeze guard reads and writes. -/
structure ObTenantFreezer where
  is_freezing_tx_data_ : Bool
  deriving DecidableEq, Repr

/-- The fields of `ObTenantTxDataFreezeGuard` (ob_tenant_freezer.h 186-222).
`tenant_freezer_` records whether the pointer is set (it then points at the freezer the
guard was initialised with). -/
structure ObTenantTxDataFreezeGuard where
  can_freeze_ : Bool
  tenant_freezer_ : Bool
  deriving DecidableEq, Repr

/-- The constructor `ObTenantTxDataFreezeGuard()`. -/
def ObTenantTxDataFreezeGuard.new : ObTenantTxDataFreezeGuard :=
  { can_freeze_ := false, tenant_freezer_ := false }

/-- `ObTenantTxDataFreezeGuard::reset` (ob_tenant_freezer.h 208-215); it is also the
destructor. -/
def ObTenantTxDataFreezeGuard.reset (g : ObTenantTxDataFreezeGuard) (f : ObTenantFreezer) :
    ObTenantTxDataFreezeGuard × ObTenantFreezer :=
  if g.tenant_freezer_ then
    ({ can_freeze_ := false, tenant_freezer_ := false }, { f with is_freezing_tx_data_ := false })
  else ({ g with can_freeze_ := false }, f)

/-- `ObTenantTxDataFreezeGuard::init` (ob_tenant_freezer.h 192-206). `is_null` tells
whether the argument is `nullptr`; otherwise it is the freezer `f`. -/
def ObTenantTxDataFreezeGuard.init (g : ObTenantTxDataFreezeGuard) (is_null : Bool)
    (f : ObTenantFreezer) : ObRet × ObTenantTxDataFreezeGuard × ObTenantFreezer :=
  let r := g.reset f
  if is_null then (ObRet.OB_INVALID_ARGUMENT, r.1, r.2)
  else
    let old := r.2.is_freezing_tx_data_
    let f1 : ObTenantFreezer := if old = false then { r.2 with is_freezing_tx_data_ := true } else r.2
    let can_freeze := (old == false)
    if can_freeze then (ObRet.OB_SUCCESS, { can_freeze_ := true, tenant_freezer_ := true }, f1)
    else (ObRet.OB_SUCCESS, { r.1 with can_freeze_ := false }, f1)

/-- `ObTenantTxDataFreezeGuard::can_freeze` (ob_tenant_freezer.h 217). -/
def ObTenantTxDataFreezeGuard.can_freeze (g : ObTenantTxDataFreezeGuard) : Bool :=
  g.can_freeze_

/-- The manager `one_table_mgr` while some guard holds its freeze flag. -/
def busy_mgr : ObTxDataMemtableMgr :=
  { one_table_mgr with is_freezing_ := true }

/-- Collaborator outcomes of a `flush` in which every call succeeds. -/
def ok_flush (raw : ObTxDataMemtable) (end_log_ts : Int) : FlushEnv :=
  { freeze := ok_freeze raw end_log_ts, table := ok_tables }

/-- `ObTxDataMemtableMgr::is_flushing` (cpp 442-445). -/
def is_flushing (m : ObTxDataMemtableMgr) : Bool :=
  m.memtable_tail_ - 1 != m.memtable_head_

/-- Modelled from the spec: `release_head_memtable` of the base class `ObIMemtableMgr`
(defined outside the files embedded here). The spec: the set "shrinks by `release_head`";
the head slot is given up and the head moves on by one. -/
def release_head_memtable (c : Consts) (m : ObTxDataMemtableMgr) : ObTxDataMemtableMgr :=
  { m with
    tables_ := Function.update m.tables_ (get_memtable_idx c m.memtable_head_) none
    memtable_head_ := m.memtable_head_ + 1 }

/-- `ObTxDataMemtableMgr::release_head_memtable_` (cpp 89-111). `imemtable` is the
address passed (`none` is `nullptr`); the third component is the memtable object the call
wrote to, after `set_state`. -/
def release_head_memtable_ (c : Consts) (m : ObTxDataMemtableMgr) (imemtable : Option Nat) :
    ObRet × ObTxDataMemtableMgr × Option ObTxDataMemtable :=
  if get_memtable_count_ m > 0 then
    match m.tables_ (get_memtable_idx c m.memtable_head_) with
    | some t =>
      if imemtable = some t.addr then
        (ObRet.OB_SUCCESS, release_head_memtable c m, some { t with state_ := State.RELEASED })
      else (ObRet.OB_INVALID_ARGUMENT, m, none)
    | none => (ObRet.OB_INVALID_ARGUMENT, m, none)
  else (ObRet.OB_SUCCESS, m, none)

/-- Collaborator outcomes on the read path in which every call succeeds and every
memtable reports `ready_for_flush()`. -/
def ready_tables : TableEnv :=
  { null_slot_ret := ObRet.OB_ERR_UNEXPECTED, push_back_ret := fun _ => ObRet.OB_SUCCESS,
    ready_for_flush := fun _ => true, flush_ret := fun _ => ObRet.OB_SUCCESS,
    update_memtables_cache_ret := ObRet.OB_SUCCESS }

/-- Collaborator outcomes of a `flush` in which every call succeeds and every memtable
reports `ready_for_flush()`. -/
def ready_flush (raw : ObTxDataMemtable) (end_log_ts : Int) : FlushEnv :=
  { freeze := ok_freeze raw end_log_ts, table := ready_tables }

/-- A manager holding one ACTIVE table with no tx data. -/
def empty_active_mgr : ObTxDataMemtableMgr :=
  (create_memtable sample_consts (ok_create (raw_table 7 0)) fresh_mgr 1 1 false).2

end TxData

/-!
# Tablet merge tasks (`storage/compaction/ob_tablet_merge_task.cpp`)

The merge context `ObTabletMergeCtx`, the Dag and task base classes, the partition
mergers and the merge-type tests are declared outside the file embedded here. Their
state is kept as plain fields, the outcome of their calls comes from environment
records, and the merge-type tests are parameters (`MergeKinds`).
-/

namespace Compaction

/-- Modelled from the spec: the enum `ObMergeType`, declared outside the file embedded
here. The spec lists the merge types MINI, MINOR, MINI_MINOR, MAJOR and BUFFER_MINOR and
mentions backfill merges; the file itself names `INVALID_MERGE_TYPE`, `MINOR_MERGE`,
`MINI_MINOR_MERGE`, `MAJOR_MERGE` and the bound `MERGE_TYPE_MAX`. -/
inductive ObMergeType where
  | INVALID_MERGE_TYPE
  | MINOR_MERGE
  | MINI_MINOR_MERGE
  | MINI_MERGE
  | MAJOR_MERGE
  | BUF_MINOR_MERGE
  | BACKFILL_TX_MERGE
  | MERGE_TYPE_MAX
  deriving DecidableEq, Repr

/-- The merge-type tests used by the file (`is_major_merge`, `is_mini_merge`,
`is_buf_minor_merge`, `is_multi_version_minor_merge`, `is_mini_minor_merge`,
`is_backfill_tx_merge`); they are inline helpers declared outside the file embedded here
and are parameters of the embedding. -/
structure MergeKinds where
  is_major_merge : ObMergeType → Bool
  is_mini_merge : ObMergeType → Bool
  is_buf_minor_merge : ObMergeType → Bool
  is_multi_version_minor_merge : ObMergeType → Bool
  is_mini_minor_merge : ObMergeType → Bool
  is_backfill_tx_merge : ObMergeType → Bool

/-- Modelled from the spec: the merge-type tests read off the names of the merge types
the spec lists: a test named after one type holds for that type, and the multi-version
minor merges are the minor-class merges that keep all versions (MINOR, MINI_MINOR, MINI),
as opposed to BUFFER_MINOR ("no multi-version retention"). -/
def spec_kinds : MergeKinds :=
  { is_major_merge := fun t => t == ObMergeType.MAJOR_MERGE
    is_mini_merge := fun t => t == ObMergeType.MINI_MERGE
    is_buf_minor_merge := fun t => t == ObMergeType.BUF_MINOR_MERGE
    is_multi_version_minor_merge := fun t =>
      t == ObMergeType.MINOR_MERGE || t == ObMergeType.MINI_MINOR_MERGE ||
        t == ObMergeType.MINI_MERGE
    is_mini_minor_merge := fun t => t == ObMergeType.MINI_MINOR_MERGE
    is_backfill_tx_merge := fun t => t == ObMergeType.BACKFILL_TX_MERGE }

/-- The enum `ObMergeLevel`; the file names `MACRO_BLOCK_MERGE_LEVEL`. -/
inductive ObMergeLevel where
  | MACRO_BLOCK_MERGE_LEVEL
  | MICRO_BLOCK_MERGE_LEVEL
  deriving DecidableEq, Repr

/-- The fields of `ObVersionRange` the file reads and writes. -/
structure ObVersionRange where
  multi_version_start_ : Int
  base_version_ : Int
  snapshot_version_ : Int
  deriving DecidableEq, Repr

/-- The fields of `ObLogTsRange`. -/
structure ObLogTsRange where
  start_log_ts_ : Int
  end_log_ts_ : Int
  deriving DecidableEq, Repr

/-- A rowkey range (`ObDatumRange`); its content is not inspected by the file. -/
structure ObDatumRange where
  start_key_ : Int
  end_key_ : Int
  deriving DecidableEq, Repr

/-- A schema object (`ObTableSchema` or `ObMergeSchema`); `valid` is the answer of its
`is_valid()`. -/
structure ObSchema where
  valid : Bool
  deriving DecidableEq, Repr

/-- One physical row of a table: a row key, a version, and a value (`none` is a delete
marker). -/
structure Row where
  key : Int
  version : Int
  value : Option Nat
  deriving DecidableEq, Repr

/-- The fields of `ObTabletMergeDagParam` (cpp 156-172). -/
structure ObTabletMergeDagParam where
  merge_type_ : ObMergeType
  merge_version_ : Int
  ls_id_ : Int
  tablet_id_ : Int
  report_ : Option Nat
  for_diagnose_ : Bool
  deriving DecidableEq, Repr

/-- The part of `ObTabletMergeCtx` the file uses. `valid` is the answer of `is_valid()`,
`merge_schema` the pointer `get_merge_schema()` returns, `concurrent_cnt` the value of
`get_concurrent_cnt()`, `merge_range idx` the code and the range `get_merge_range(idx, ·)`
produces, `full_read_info` the address of the full read info of the tablet,
`tables_handle_` the tables to merge with their rows, `compaction_filter_` the pointer to
the compaction filter with its `is_full_merge_` flag, `schedule_major_` the flag read by
the finish task. -/
structure ObTabletMergeCtx where
  valid : Bool
  param_ : ObTabletMergeDagParam
  ls_handle_ : Option Nat
  tables_handle_ : List (List Row)
  merge_level_ : ObMergeLevel
  table_schema_ : Option ObSchema
  merge_schema : Option ObSchema
  sstable_version_range_ : ObVersionRange
  read_base_version_ : Int
  log_ts_range_ : ObLogTsRange
  is_full_merge_ : Bool
  full_read_info : Nat
  concurrent_cnt : Int
  merge_range : Int → ObRet × ObDatumRange
  rebuild_seq_ : Int
  merge_log_ts_ : Int
  compaction_filter_ : Option Bool
  schedule_major_ : Bool

/-- The fields of `ObMergeParameter` (cpp 51-67). Pointers are `Option`
(`none` is `nullptr`); `tables_handle_` points at the tables of the context. -/
structure ObMergeParameter where
  ls_id_ : Int
  tablet_id_ : Int
  ls_handle_ : Option Nat
  tables_handle_ : Option (List (List Row))
  merge_type_ : ObMergeType
  merge_level_ : ObMergeLevel
  table_schema_ : Option ObSchema
  merge_schema_ : Option ObSchema
  merge_range_ : ObDatumRange
  version_range_ : ObVersionRange
  log_ts_range_ : ObLogTsRange
  full_read_info_ : Option Nat
  is_full_merge_ : Bool
  is_sstable_cut_ : Bool
  deriving DecidableEq, Repr

/-- `ObMergeParameter::is_schema_valid` (cpp 80-92). -/
def ObMergeParameter.is_schema_valid (k : MergeKinds) (p : ObMergeParameter) : Bool :=
  match p.merge_schema_ with
  | none => false
  | some merge_schema =>
    if k.is_multi_version_minor_merge p.merge_type_ || k.is_backfill_tx_merge p.merge_type_ then
      merge_schema.valid
    else
      match p.table_schema_ with
      | none => false
      | some table_schema => table_schema.valid

/-- The version range `ObMergeParameter::init` stores (cpp 129-142): the range of the
context, adjusted by merge type. -/
def adjust_version_range (k : MergeKinds) (merge_type : ObMergeType)
    (read_base_version : Int) (range : ObVersionRange) : ObVersionRange :=
  if k.is_major_merge merge_type then
    { range with base_version_ := max read_base_version range.base_version_ }
  else if k.is_buf_minor_merge merge_type then
    { range with multi_version_start_ := range.snapshot_version_ }
  else if k.is_multi_version_minor_merge merge_type then
    { range with base_version_ := 0, snapshot_version_ := INT64_MAX - 2 }
  else range

/-- `ObMergeParameter::init` (cpp 111-150). The range `get_merge_range` produces is
stored in `merge_range_` whether or not the call succeeds (it is written through the
reference passed to it). -/
def ObMergeParameter.init (k : MergeKinds) (p : ObMergeParameter)
    (merge_ctx : ObTabletMergeCtx) (idx : Int) : ObRet × ObMergeParameter :=
  if !merge_ctx.valid || idx < 0 || idx ≥ merge_ctx.concurrent_cnt then
    (ObRet.OB_INVALID_ARGUMENT, p)
  else if OB_FAIL (merge_ctx.merge_range idx).1 then
    ((merge_ctx.merge_range idx).1, { p with merge_range_ := (merge_ctx.merge_range idx).2 })
  else
    (ObRet.OB_SUCCESS,
      { p with
        merge_range_ := (merge_ctx.merge_range idx).2
        ls_id_ := merge_ctx.param_.ls_id_
        tablet_id_ := merge_ctx.param_.tablet_id_
        ls_handle_ := merge_ctx.ls_handle_
        tables_handle_ := some merge_ctx.tables_handle_
        merge_type_ := merge_ctx.param_.merge_type_
        merge_level_ := merge_ctx.merge_level_
        table_schema_ := merge_ctx.table_schema_
        merge_schema_ := merge_ctx.merge_schema
        version_range_ :=
          adjust_version_range k merge_ctx.param_.merge_type_ merge_ctx.read_base_version_
            merge_ctx.sstable_version_range_
        log_ts_range_ := merge_ctx.log_ts_range_
        is_full_merge_ := merge_ctx.is_full_merge_
        full_read_info_ := some merge_ctx.full_read_info
        is_sstable_cut_ := false })

/-- A merge context for the concrete runs: tablet 200001 of log stream 1001, one table
with the rows `k1@v1 = A`, `k1@v3 = B`, `k1@v5 = deleted` (key 1, values 10 and 20), the
version range `[multi_version_start 3, base 2, snapshot 5]`, and `get_merge_range`
succeeding for every index. -/
def sample_ctx (merge_type : ObMergeType) (concurrent_cnt : Int) : ObTabletMergeCtx :=
  { valid := true
    param_ := { merge_type_ := merge_type, merge_version_ := 5, ls_id_ := 1001,
                tablet_id_ := 200001, report_ := none, for_diagnose_ := false }
    ls_handle_ := some 1
    tables_handle_ := [[{ key := 1, version := 5, value := none },
                        { key := 1, version := 3, value := some 20 },
                        { key := 1, version := 1, value := some 10 }]]
    merge_level_ := ObMergeLevel.MICRO_BLOCK_MERGE_LEVEL
    table_schema_ := some { valid := true }
    merge_schema := some { valid := true }
    sstable_version_range_ := { multi_version_start_ := 3, base_version_ := 2,
                                snapshot_version_ := 5 }
    read_base_version_ := 4
    log_ts_range_ := { start_log_ts_ := 10, end_log_ts_ := 20 }
    is_full_merge_ := false
    full_read_info := 77
    concurrent_cnt := concurrent_cnt
    merge_range := fun idx => (ObRet.OB_SUCCESS, { start_key_ := idx, end_key_ := idx + 1 })
    rebuild_seq_ := 0
    merge_log_ts_ := 0
    compaction_filter_ := none
    schedule_major_ := false }

/-- A merge parameter object with no pointer set and no merge type. -/
def blank_param : ObMergeParameter :=
  { ls_id_ := 0, tablet_id_ := 0, ls_handle_ := none, tables_handle_ := none,
    merge_type_ := ObMergeType.INVALID_MERGE_TYPE,
    merge_level_ := ObMergeLevel.MACRO_BLOCK_MERGE_LEVEL,
    table_schema_ := none, merge_schema_ := none,
    merge_range_ := { start_key_ := 0, end_key_ := 0 },
    version_range_ := { multi_version_start_ := 0, base_version_ := 0, snapshot_version_ := 0 },
    log_ts_range_ := { start_log_ts_ := 0, end_log_ts_ := 0 },
    full_read_info_ := none, is_full_merge_ := false, is_sstable_cut_ := false }

/-- A parameter object with the given merge type and schema pointers. -/
def param_with_schemas (merge_type : ObMergeType) (merge_schema table_schema : Option ObSchema) :
    ObMergeParameter :=
  { blank_param with
    merge_type_ := merge_type
    merge_schema_ := merge_schema
    table_schema_ := table_schema }

/-- The values of `ObDagType::ObDagTypeEnum` the file names, and any other. -/
inductive ObDagTypeEnum where
  | DAG_TYPE_MINI_MERGE
  | DAG_TYPE_MINOR_MERGE
  | DAG_TYPE_MAJOR_MERGE
  | DAG_TYPE_TX_TABLE_MERGE
  | DAG_TYPE_OTHER (n : Nat)
  deriving DecidableEq, Repr

/-- `is_merge_dag` (cpp 40-46). -/
def is_merge_dag (dag_type : ObDagTypeEnum) : Bool :=
  dag_type == ObDagTypeEnum.DAG_TYPE_MAJOR_MERGE
    || dag_type == ObDagTypeEnum.DAG_TYPE_MINOR_MERGE
    || dag_type == ObDagTypeEnum.DAG_TYPE_MINI_MERGE
    || dag_type == ObDagTypeEnum.DAG_TYPE_TX_TABLE_MERGE

/-- Modelled from the spec: the range test `merge_type_ > INVALID_MERGE_TYPE &&
merge_type_ < MERGE_TYPE_MAX` on the enum declared outside the file embedded here. The
spec: "merge-type must be in the closed enum range", of which `INVALID_MERGE_TYPE` and
`MERGE_TYPE_MAX` are the two bounds. -/
def ObMergeType.in_range (t : ObMergeType) : Bool :=
  t != ObMergeType.INVALID_MERGE_TYPE && t != ObMergeType.MERGE_TYPE_MAX

/-- What the Dag functions take from their surroundings: the validity tests of the ids
(`ObLSID::is_valid`, `ObTabletID::is_valid`) and the hash functions (`murmurhash` of a
merge type with a seed, `ObLSID::hash`, `ObTabletID::hash`), all declared outside the file
embedded here. -/
structure DagEnv where
  ls_id_valid : Int → Bool
  tablet_id_valid : Int → Bool
  murmurhash : ObMergeType → Int → Int
  ls_id_hash : Int → Int
  tablet_id_hash : Int → Int

/-- `ObTabletMergeDagParam::is_valid` (cpp 166-172). -/
def ObTabletMergeDagParam.is_valid (k : MergeKinds) (e : DagEnv) (p : ObTabletMergeDagParam) :
    Bool :=
  e.ls_id_valid p.ls_id_
    && e.tablet_id_valid p.tablet_id_
    && p.merge_type_.in_range
    && (!k.is_major_merge p.merge_type_ || decide (p.merge_version_ ≥ 0))

/-- The fields of a tablet merge Dag (`ObIDag`, `ObMergeDagHash`,
`ObBasicTabletMergeDag`) that equality, hash and initialisation use. `addr` is the
identity of the object, `type_` the value of `get_type()`. -/
structure ObTabletMergeDag where
  addr : Nat
  type_ : ObDagTypeEnum
  merge_type_ : ObMergeType
  ls_id_ : Int
  tablet_id_ : Int
  param_ : Option ObTabletMergeDagParam
  is_inited_ : Bool
  deriving DecidableEq, Repr

/-- The constructor `ObTabletMinorMergeDag()` (cpp 500-503) for the object at `addr`;
`ids` are the default-constructed `ls_id_` and `tablet_id_`. -/
def ObTabletMinorMergeDag.new (addr : Nat) (ids : Int) : ObTabletMergeDag :=
  { addr := addr, type_ := ObDagTypeEnum.DAG_TYPE_MINOR_MERGE,
    merge_type_ := ObMergeType.INVALID_MERGE_TYPE, ls_id_ := ids, tablet_id_ := ids,
    param_ := none, is_inited_ := false }

/-- `ObBasicTabletMergeDag::inner_init` (cpp 258-280). `compat_ret` is the code of
`get_tablet_and_compat_mode()`. -/
def ObBasicTabletMergeDag.inner_init (k : MergeKinds) (e : DagEnv) (compat_ret : ObRet)
    (dag : ObTabletMergeDag) (param : ObTabletMergeDagParam) : ObRet × ObTabletMergeDag :=
  if dag.is_inited_ then (ObRet.OB_INIT_TWICE, dag)
  else if !param.is_valid k e then (ObRet.OB_INVALID_ARGUMENT, dag)
  else
    let dag1 : ObTabletMergeDag :=
      { dag with
        param_ := some param
        merge_type_ := param.merge_type_
        ls_id_ := param.ls_id_
        tablet_id_ := param.tablet_id_ }
    if !param.for_diagnose_ && OB_FAIL compat_ret then (compat_ret, dag1)
    else (ObRet.OB_SUCCESS, { dag1 with is_inited_ := true })

/-- `ObTabletMinorMergeDag::init_by_param` (cpp 509-525); `param = none` is `nullptr`. -/
def ObTabletMinorMergeDag.init_by_param (k : MergeKinds) (e : DagEnv) (compat_ret : ObRet)
    (dag : ObTabletMergeDag) (param : Option ObTabletMergeDagParam) :
    ObRet × ObTabletMergeDag :=
  match param with
  | none => (ObRet.OB_INVALID_ARGUMENT, dag)
  | some merge_param =>
    if !k.is_multi_version_minor_merge merge_param.merge_type_
        && !k.is_buf_minor_merge merge_param.merge_type_ then
      (ObRet.OB_ERR_SYS, dag)
    else ObBasicTabletMergeDag.inner_init k e compat_ret dag merge_param

/-- `ObBasicTabletMergeDag::operator ==` (cpp 282-298); `this == &other` is the equality
of the identities. -/
def ObBasicTabletMergeDag.eq (this other : ObTabletMergeDag) : Bool :=
  if this.addr = other.addr then true
  else if this.type_ ≠ other.type_ then false
  else if this.merge_type_ ≠ other.merge_type_
      || this.ls_id_ ≠ other.ls_id_
      || this.tablet_id_ ≠ other.tablet_id_ then false
  else true

/-- `ObTabletMinorMergeDag::operator ==` (cpp 527-544). -/
def ObTabletMinorMergeDag.eq (k : MergeKinds) (this other : ObTabletMergeDag) : Bool :=
  if this.addr = other.addr then true
  else if this.type_ ≠ other.type_ then false
  else if !k.is_mini_minor_merge this.merge_type_
      || !k.is_mini_minor_merge other.merge_type_
      || this.ls_id_ ≠ other.ls_id_
      || this.tablet_id_ ≠ other.tablet_id_ then false
  else true

/-- Addition of `int64_t` values with wrap-around. -/
def wrap_int64 (x : Int) : Int :=
  (x + 2 ^ 63) % 2 ^ 64 - 2 ^ 63

/-- Collaborator functions for the concrete runs: every non-negative id is valid, the
hashes are simple injective functions. -/
def sample_dag_env : DagEnv :=
  { ls_id_valid := fun i => decide (0 ≤ i)
    tablet_id_valid := fun i => decide (0 ≤ i)
    murmurhash := fun t seed =>
      seed + (match t with
        | ObMergeType.INVALID_MERGE_TYPE => 1
        | ObMergeType.MINOR_MERGE => 2
        | ObMergeType.MINI_MINOR_MERGE => 3
        | ObMergeType.MINI_MERGE => 4
        | ObMergeType.MAJOR_MERGE => 5
        | ObMergeType.BUF_MINOR_MERGE => 6
        | ObMergeType.BACKFILL_TX_MERGE => 7
        | ObMergeType.MERGE_TYPE_MAX => 8)
    ls_id_hash := fun i => 31 * i
    tablet_id_hash := fun i => 17 * i }

/-- The Dag parameter of a merge of tablet 200001 of log stream 1001. -/
def sample_dag_param (merge_type : ObMergeType) : ObTabletMergeDagParam :=
  { merge_type_ := merge_type, merge_version_ := 5, ls_id_ := 1001, tablet_id_ := 200001,
    report_ := none, for_diagnose_ := false }

/-- The minor merge Dag at `addr` after `init_by_param` with `sample_dag_param`. -/
def sample_minor_dag (addr : Nat) (merge_type : ObMergeType) : ObTabletMergeDag :=
  (ObTabletMinorMergeDag.init_by_param spec_kinds sample_dag_env ObRet.OB_SUCCESS
    (ObTabletMinorMergeDag.new addr 0) (some (sample_dag_param merge_type))).2

/-- The merger object a merge task owns: an `ObPartitionMajorMerger` or an
`ObPartitionMinorMerger`. -/
inductive MergerKind where
  | major
  | minor
  deriving DecidableEq, Repr

/-- The fields of `ObTabletMergeTask` (cpp 1053-1061); `dag_type_` is the value of
`dag_->get_type()`. -/
structure ObTabletMergeTask where
  idx_ : Int
  ctx_ : Option ObTabletMergeCtx
  merger_ : Option MergerKind
  is_inited_ : Bool
  dag_type_ : ObDagTypeEnum

/-- The constructor `ObTabletMergeTask()` (cpp 1053-1061) for a task allocated by a Dag
of type `dag_type`. -/
def ObTabletMergeTask.new (dag_type : ObDagTypeEnum) : ObTabletMergeTask :=
  { idx_ := 0, ctx_ := none, merger_ := none, is_inited_ := false, dag_type_ := dag_type }

/-- `ObTabletMergeTask::init` (cpp 1071-1104). `alloc_ok` tells whether
`allocator_.alloc` returns memory for the merger. -/
def ObTabletMergeTask.init (k : MergeKinds) (alloc_ok : Bool) (t : ObTabletMergeTask)
    (idx : Int) (ctx : ObTabletMergeCtx) : ObRet × ObTabletMergeTask :=
  if t.is_inited_ then (ObRet.OB_INIT_TWICE, t)
  else if idx < 0 || !ctx.valid then (ObRet.OB_INVALID_ARGUMENT, t)
  else if k.is_major_merge ctx.param_.merge_type_ || k.is_buf_minor_merge ctx.param_.merge_type_ then
    if !alloc_ok then (ObRet.OB_ALLOCATE_MEMORY_FAILED, t)
    else
      (ObRet.OB_SUCCESS,
        { t with merger_ := some MergerKind.major, idx_ := idx, ctx_ := some ctx,
                 is_inited_ := true })
  else
    if !alloc_ok then (ObRet.OB_ALLOCATE_MEMORY_FAILED, t)
    else
      (ObRet.OB_SUCCESS,
        { t with merger_ := some MergerKind.minor, idx_ := idx, ctx_ := some ctx,
                 is_inited_ := true })

/-- Outcomes of the collaborator calls made by `generate_next_task`: the code of
`merge_dag->alloc_task(merge_task)` and whether the new task gets memory for its merger. -/
structure NextTaskEnv where
  alloc_task_ret : ObRet
  alloc_ok : Bool
  deriving DecidableEq, Repr

/-- `ObTabletMergeTask::generate_next_task` (cpp 1106-1131). The second component is
`next_task`. The result is `none` where the source dereferences a null `ctx_`. -/
def ObTabletMergeTask.generate_next_task (k : MergeKinds) (env : NextTaskEnv)
    (t : ObTabletMergeTask) : Option (ObRet × Option ObTabletMergeTask) :=
  if !t.is_inited_ then some (ObRet.OB_NOT_INIT, none)
  else match t.ctx_ with
    | none => none
    | some ctx =>
      if t.idx_ + 1 = ctx.concurrent_cnt then some (ObRet.OB_ITER_END, none)
      else if !is_merge_dag t.dag_type_ then some (ObRet.OB_ERR_SYS, none)
      else if OB_FAIL env.alloc_task_ret then some (env.alloc_task_ret, none)
      else if OB_FAIL ((ObTabletMergeTask.new t.dag_type_).init k env.alloc_ok (t.idx_ + 1) ctx).1
      then some (((ObTabletMergeTask.new t.dag_type_).init k env.alloc_ok (t.idx_ + 1) ctx).1, none)
      else
        some (ObRet.OB_SUCCESS,
          some ((ObTabletMergeTask.new t.dag_type_).init k env.alloc_ok (t.idx_ + 1) ctx).2)

/-- The chain of merge tasks: `generate_next_task` is called on a task, then on the task
it produced, and so on until a call produces no task. `env i` gives the collaborator
outcomes of the call made on the task with `idx_ = i`. The result lists the produced
tasks and the code of the last call; it is `none` when the chain is longer than `fuel`
calls. -/
def merge_task_chain (k : MergeKinds) (env : Int → NextTaskEnv) :
    Nat → ObTabletMergeTask → Option (List ObTabletMergeTask × ObRet)
  | 0, _ => none
  | fuel + 1, t =>
    match t.generate_next_task k (env t.idx_) with
    | none => none
    | some (ret, none) => some ([], ret)
    | some (_, some next_task) =>
      match merge_task_chain k env fuel next_task with
      | none => none
      | some r => some (next_task :: r.1, r.2)

/-- What a call of `ObTabletMergeTask::process` did: its return code, whether
`could_major_merge_start()` was called, whether `merge_partition` was called, and the
rows the merger wrote. -/
structure MergeTaskResult where
  ret : ObRet
  could_major_merge_start_called : Bool
  merge_partition_called : Bool
  output : List Row
  deriving DecidableEq, Repr

/-- The part of `ObTabletMergeTask::process` after the pause check (cpp 1149-1159). -/
def ObTabletMergeTask.run_merger
    (merge_partition : MergerKind → ObTabletMergeCtx → Int → ObRet × List Row)
    (t : ObTabletMergeTask) (ctx : ObTabletMergeCtx) (consulted : Bool) : MergeTaskResult :=
  match t.merger_ with
  | none =>
    { ret := ObRet.OB_ERR_SYS, could_major_merge_start_called := consulted,
      merge_partition_called := false, output := [] }
  | some merger =>
    { ret := (merge_partition merger ctx t.idx_).1, could_major_merge_start_called := consulted,
      merge_partition_called := true, output := (merge_partition merger ctx t.idx_).2 }

/-- `ObTabletMergeTask::process` (cpp 1133-1172). `could_major_merge_start` is the answer
of the tenant's `could_major_merge_start()`, `merge_partition` the virtual
`merger_->merge_partition(*ctx_, idx_)` of the two mergers. -/
def ObTabletMergeTask.process (k : MergeKinds) (could_major_merge_start : Bool)
    (merge_partition : MergerKind → ObTabletMergeCtx → Int → ObRet × List Row)
    (t : ObTabletMergeTask) : MergeTaskResult :=
  if !t.is_inited_ then
    { ret := ObRet.OB_NOT_INIT, could_major_merge_start_called := false,
      merge_partition_called := false, output := [] }
  else match t.ctx_ with
    | none =>
      { ret := ObRet.OB_ERR_UNEXPECTED, could_major_merge_start_called := false,
        merge_partition_called := false, output := [] }
    | some ctx =>
      if k.is_major_merge ctx.param_.merge_type_ then
        if !could_major_merge_start then
          { ret := ObRet.OB_CANCELED, could_major_merge_start_called := true,
            merge_partition_called := false, output := [] }
        else t.run_merger merge_partition ctx true
      else t.run_merger merge_partition ctx false

/-- A merger whose `merge_partition` succeeds and writes no row. -/
def idle_merge_partition : MergerKind → ObTabletMergeCtx → Int → ObRet × List Row :=
  fun _ _ _ => (ObRet.OB_SUCCESS, [])

/-- The merge task of split `idx` of `sample_ctx`, initialised in a Dag of type `dag_type`. -/
def sample_merge_task (dag_type : ObDagTypeEnum) (merge_type : ObMergeType)
    (concurrent_cnt idx : Int) : ObTabletMergeTask :=
  ((ObTabletMergeTask.new dag_type).init spec_kinds true idx
    (sample_ctx merge_type concurrent_cnt)).2

/-- Collaborator outcomes of `generate_next_task` in which every call succeeds. -/
def ok_next_task : Int → NextTaskEnv :=
  fun _ => { alloc_task_ret := ObRet.OB_SUCCESS, alloc_ok := true }

/-- Modelled from the spec: the row of `key` a major merge looks at, the one "visible at
`snapshot_version`": among the rows of the key with a version not above the snapshot, the
one with the largest version. -/
def newest_visible (snapshot : Int) (key : Int) : List Row → Option Row
  | [] => none
  | r :: rest =>
    match newest_visible snapshot key rest with
    | none => if r.key = key ∧ r.version ≤ snapshot then some r else none
    | some best =>
      if r.key = key ∧ r.version ≤ snapshot ∧ best.version < r.version then some r
      else some best

/-- Modelled from the spec: the rows a major merge writes for the keys of one split. The
spec: "MAJOR merge: emit exactly one physical row per row-key — the value visible at
`snapshot_version`, with older versions and delete markers physically dropped"; the
output is sorted by row key and a split covers the keys of its merge range. -/
def major_merge_rows (tables : List (List Row)) (snapshot : Int) (range : ObDatumRange) :
    List Row :=
  (((tables.flatten.map (fun r => r.key)).dedup.insertionSort (fun a b => a ≤ b)).filter
      (fun key => decide (range.start_key_ ≤ key ∧ key < range.end_key_))).filterMap
    (fun key =>
      match newest_visible snapshot key tables.flatten with
      | some r => if r.value.isSome then some r else none
      | none => none)

/-- Modelled from the spec: the rows a minor or mini merge writes for the keys of one
split. The spec: "concatenate contributing versions within `[base_version,
snapshot_version]`, preserving delete markers (tombstones) as real output rows", "in
descending-version order per key". -/
def minor_merge_rows (tables : List (List Row)) (version_range : ObVersionRange)
    (range : ObDatumRange) : List Row :=
  ((tables.flatten.filter (fun r =>
      decide (range.start_key_ ≤ r.key ∧ r.key < range.end_key_ ∧
        version_range.base_version_ ≤ r.version ∧
        r.version ≤ version_range.snapshot_version_))).insertionSort
    (fun a b => a.key < b.key ∨ (a.key = b.key ∧ b.version ≤ a.version)))

/-- Modelled from the spec: `merge_partition` of `ObPartitionMajorMerger` and of
`ObPartitionMinorMerger` (ob_partition_merger, defined outside the file embedded here).
The spec: the merger runs on the `MergeParameter` of the split, which
`ObMergeParameter::init` fills from the context (tables, row-key sub-range, version
range), and applies the version-collapse rule of its merge kind; a failing `init` is
returned. -/
def spec_merge_partition (k : MergeKinds) :
    MergerKind → ObTabletMergeCtx → Int → ObRet × List Row :=
  fun merger ctx idx =>
    if OB_FAIL (ObMergeParameter.init k blank_param ctx idx).1 then
      ((ObMergeParameter.init k blank_param ctx idx).1, [])
    else
      match (ObMergeParameter.init k blank_param ctx idx).2.tables_handle_ with
      | none => (ObRet.OB_ERR_UNEXPECTED, [])
      | some tables =>
        match merger with
        | MergerKind.major =>
          (ObRet.OB_SUCCESS,
            major_merge_rows tables
              (ObMergeParameter.init k blank_param ctx idx).2.version_range_.snapshot_version_
              (ObMergeParameter.init k blank_param ctx idx).2.merge_range_)
        | MergerKind.minor =>
          (ObRet.OB_SUCCESS,
            minor_merge_rows tables
              (ObMergeParameter.init k blank_param ctx idx).2.version_range_
              (ObMergeParameter.init k blank_param ctx idx).2.merge_range_)

/-- The kinds of task of a tablet merge Dag. -/
inductive TaskKind where
  | prepare
  | merge
  | finish
  deriving DecidableEq, Repr

/-- A task object of a Dag as far as the task graph goes: its kind, the `idx_` of a merge
task, whether it is initialised, and its child tasks (by identity). -/
structure TaskNode where
  kind : TaskKind
  idx_ : Int
  is_inited_ : Bool
  children : List Nat
  deriving DecidableEq, Repr

/-- The task graph of a Dag: the task objects allocated from the Dag's allocator (by
identity), the list of tasks added to the Dag, and the identity the next allocation
gets. -/
structure DagState where
  type_ : ObDagTypeEnum
  nodes : Nat → Option TaskNode
  task_list_ : List Nat
  next_id : Nat

/-- Modelled from the spec: `ObIDag::alloc_task` (the Dag base class is defined outside
the file embedded here). The spec: "`alloc_task<T>() → T*` (arena-allocated from a
Dag-owned allocator)"; the new task is not yet in the task list. -/
def DagState.alloc_task (d : DagState) (kind : TaskKind) : Nat × DagState :=
  (d.next_id,
    { d with
      nodes := Function.update d.nodes d.next_id
        (some { kind := kind, idx_ := 0, is_inited_ := false, children := [] })
      next_id := d.next_id + 1 })

/-- Modelled from the spec: `ObIDag::add_task`; the task joins the task list of the Dag. -/
def DagState.add_task (d : DagState) (id : Nat) : DagState :=
  { d with task_list_ := d.task_list_ ++ [id] }

/-- Modelled from the spec: `ObITask::add_child`. The spec: "Tasks form a graph via
`add_child`"; the child is recorded with its parent. -/
def DagState.add_child (d : DagState) (parent child : Nat) : DagState :=
  { d with
    nodes := Function.update d.nodes parent
      ((d.nodes parent).map (fun n => { n with children := n.children ++ [child] })) }

/-- Modelled from the spec: `ObIDag::remove_task`; the task leaves the task list and its
object is given back to the allocator. -/
def DagState.remove_task (d : DagState) (id : Nat) : DagState :=
  { d with
    task_list_ := d.task_list_.erase id
    nodes := Function.update d.nodes id none }

/-- The fact `init` records in a task object. -/
def DagState.set_inited (d : DagState) (id : Nat) (idx : Int) : DagState :=
  { d with
    nodes := Function.update d.nodes id
      ((d.nodes id).map (fun n => { n with idx_ := idx, is_inited_ := true })) }

/-- Outcomes of the collaborator calls made by `prepare_index_tree` (cpp 654-700), in
call order. -/
structure IndexTreeEnv where
  desc_init_ret : ObRet
  col_desc_array_init_ret : ObRet
  get_rowkey_column_ids_ret : ObRet
  add_extra_rowkey_cols_ret : ObRet
  push_back_ret : ObRet
  prepare_index_builder_ret : ObRet
  deriving DecidableEq, Repr

/-- `ObTabletMergePrepareTask::prepare_index_tree` (cpp 654-700), as far as its return
code goes. -/
def prepare_index_tree (env : IndexTreeEnv) (ctx : ObTabletMergeCtx) : ObRet :=
  let ret :=
    if !ctx.valid then ObRet.OB_INVALID_ARGUMENT
    else if OB_FAIL env.desc_init_ret then env.desc_init_ret
    else if OB_FAIL env.col_desc_array_init_ret then env.col_desc_array_init_ret
    else if OB_FAIL env.get_rowkey_column_ids_ret then env.get_rowkey_column_ids_ret
    else if OB_FAIL env.add_extra_rowkey_cols_ret then env.add_extra_rowkey_cols_ret
    else if OB_FAIL env.push_back_ret then env.push_back_ret
    else ObRet.OB_SUCCESS
  if OB_SUCC ret then env.prepare_index_builder_ret else ret

/-- `ObTabletMergeFinishTask::init` (cpp 812-835), as far as its return code goes, for a
task that has its Dag set. -/
def ObTabletMergeFinishTask.init_ret (is_inited : Bool) (dag_type : ObDagTypeEnum)
    (ctx : ObTabletMergeCtx) : ObRet :=
  if is_inited then ObRet.OB_INIT_TWICE
  else if !is_merge_dag dag_type then ObRet.OB_ERR_SYS
  else if !ctx.valid then ObRet.OB_ERR_SYS
  else ObRet.OB_SUCCESS

/-- Outcomes of the collaborator calls made by `generate_merge_task`. An `alloc_task`
that succeeds delivers a task. -/
structure GenTaskEnv where
  index_tree : IndexTreeEnv
  alloc_merge_ret : ObRet
  merge_alloc_ok : Bool
  add_child_merge_ret : ObRet
  add_task_merge_ret : ObRet
  alloc_finish_ret : ObRet
  add_child_finish_ret : ObRet
  add_task_finish_ret : ObRet
  deriving DecidableEq, Repr

/-- The first part of `generate_merge_task` (cpp 710-726): the code, the Dag and
`merge_task` (`none` is `NULL`). Since a successful `alloc_task` delivers a task, the
test `OB_ISNULL(merge_task)` of cpp 717 is never true and has no branch here. -/
def generate_merge_task_merge (k : MergeKinds) (env : GenTaskEnv) (this_id : Nat)
    (is_inited : Bool) (d : DagState) (ctx : ObTabletMergeCtx) :
    ObRet × DagState × Option Nat :=
  if !is_inited then (ObRet.OB_NOT_INIT, d, none)
  else if OB_FAIL (prepare_index_tree env.index_tree ctx) then
    (prepare_index_tree env.index_tree ctx, d, none)
  else if OB_FAIL env.alloc_merge_ret then (env.alloc_merge_ret, d, none)
  else
    let a := d.alloc_task TaskKind.merge
    let i := (ObTabletMergeTask.new d.type_).init k env.merge_alloc_ok 0 ctx
    if OB_FAIL i.1 then (i.1, a.2, some a.1)
    else
      let d1 := a.2.set_inited a.1 0
      if OB_FAIL env.add_child_merge_ret then (env.add_child_merge_ret, d1, some a.1)
      else
        let d2 := d1.add_child this_id a.1
        if OB_FAIL env.add_task_merge_ret then (env.add_task_merge_ret, d2, some a.1)
        else (ObRet.OB_SUCCESS, d2.add_task a.1, some a.1)

/-- The second part of `generate_merge_task` (cpp 728-740), entered with the code and
the `merge_task` of the first: the code, the Dag and `finish_task`. -/
def generate_merge_task_finish (env : GenTaskEnv) (this_id : Nat) (ret : ObRet)
    (d : DagState) (ctx : ObTabletMergeCtx) (merge_task : Option Nat) :
    ObRet × DagState × Option Nat :=
  if OB_FAIL ret then (ret, d, none)
  else if OB_FAIL env.alloc_finish_ret then (env.alloc_finish_ret, d, none)
  else
    let a := d.alloc_task TaskKind.finish
    if OB_FAIL (ObTabletMergeFinishTask.init_ret false d.type_ ctx) then
      (ObTabletMergeFinishTask.init_ret false d.type_ ctx, a.2, some a.1)
    else
      let d1 := a.2.set_inited a.1 0
      if OB_FAIL env.add_child_finish_ret then (env.add_child_finish_ret, d1, some a.1)
      else
        let d2 :=
          match merge_task with
          | some m => d1.add_child m a.1
          | none => d1.add_child this_id a.1
        if OB_FAIL env.add_task_finish_ret then (env.add_task_finish_ret, d2, some a.1)
        else (ObRet.OB_SUCCESS, d2.add_task a.1, some a.1)

/-- `ObTabletMergePrepareTask::generate_merge_task` (cpp 702-752) of the prepare task
`this_id`: the code and the Dag after the call. -/
def generate_merge_task (k : MergeKinds) (env : GenTaskEnv) (this_id : Nat)
    (is_inited : Bool) (d : DagState) (ctx : ObTabletMergeCtx) : ObRet × DagState :=
  let m := generate_merge_task_merge k env this_id is_inited d ctx
  let f := generate_merge_task_finish env this_id m.1 m.2.1 ctx m.2.2
  if OB_FAIL f.1 then
    let d1 :=
      match m.2.2 with
      | some merge_task => f.2.1.remove_task merge_task
      | none => f.2.1
    let d2 :=
      match f.2.2 with
      | some finish_task => d1.remove_task finish_task
      | none => d1
    (f.1, d2)
  else (f.1, f.2.1)

/-- Outcomes of the collaborator calls made by `ObTabletMergePrepareTask::process` and
`build_merge_ctx`: the tenant's `could_major_merge_start()`, the code of `get_tablet`,
the `ha_status_` test, `get_rebuild_seq()`, the context methods `inner_init_for_major`,
`inner_init_for_minor` (with its `skip_rest_operation`) and `init_merge_info` with the
context they leave, the test `ObLogTsRange::is_empty`, and the calls of
`generate_merge_task`. -/
structure PrepareEnv where
  could_major_merge_start : Bool
  get_tablet_ret : ObRet
  data_status_complete : Bool
  rebuild_seq : Int
  inner_init_for_major : ObTabletMergeCtx → ObRet × ObTabletMergeCtx
  inner_init_for_minor : ObTabletMergeCtx → ObRet × Bool × ObTabletMergeCtx
  init_merge_info : ObTabletMergeCtx → ObRet × ObTabletMergeCtx
  log_ts_range_is_empty : ObLogTsRange → Bool
  gen : GenTaskEnv

/-- The first part of `build_merge_ctx` (cpp 762-785): the code, `skip_rest_operation`
and the context. -/
def build_merge_ctx_init (k : MergeKinds) (e : DagEnv) (env : PrepareEnv) (is_inited : Bool)
    (ctx : ObTabletMergeCtx) : ObRet × Bool × ObTabletMergeCtx :=
  if !is_inited then (ObRet.OB_NOT_INIT, false, ctx)
  else if !ctx.param_.is_valid k e then (ObRet.OB_INVALID_ARGUMENT, false, ctx)
  else if ctx.param_.tablet_id_ ≠ ctx.param_.tablet_id_ then (ObRet.OB_ERR_SYS, false, ctx)
  else if k.is_major_merge ctx.param_.merge_type_ then
    if !env.data_status_complete then
      (ObRet.OB_STATE_NOT_MATCH, false, { ctx with rebuild_seq_ := env.rebuild_seq })
    else
      ((env.inner_init_for_major { ctx with rebuild_seq_ := env.rebuild_seq }).1, false,
        (env.inner_init_for_major { ctx with rebuild_seq_ := env.rebuild_seq }).2)
  else env.inner_init_for_minor { ctx with rebuild_seq_ := env.rebuild_seq }

/-- `ObTabletMergePrepareTask::build_merge_ctx` (cpp 754-795): the code,
`skip_rest_operation` and the context. -/
def build_merge_ctx (k : MergeKinds) (e : DagEnv) (env : PrepareEnv) (is_inited : Bool)
    (ctx : ObTabletMergeCtx) : ObRet × Bool × ObTabletMergeCtx :=
  let r := build_merge_ctx_init k e env is_inited ctx
  if OB_FAIL r.1 || r.2.1 then r
  else ((env.init_merge_info r.2.2).1, r.2.1, (env.init_merge_info r.2.2).2)

/-- What a call of `ObTabletMergePrepareTask::process` did: its code, whether
`generate_merge_task` was called, the Dag and the merge context after the call. -/
structure PrepareResult where
  ret : ObRet
  generate_merge_task_called : Bool
  dag : DagState
  ctx : ObTabletMergeCtx

/-- The first part of `ObTabletMergePrepareTask::process` (cpp 597-622): the code,
`skip_rest_operation` and the context. The address `&merge_dag_->get_ctx()` is never
null, so the test of cpp 600 has no branch here. -/
def prepare_process_build (k : MergeKinds) (e : DagEnv) (env : PrepareEnv) (is_inited : Bool)
    (ctx : ObTabletMergeCtx) : ObRet × Bool × ObTabletMergeCtx :=
  if !is_inited then (ObRet.OB_NOT_INIT, false, ctx)
  else if k.is_major_merge ctx.param_.merge_type_ && !env.could_major_merge_start then
    (ObRet.OB_CANCELED, false, ctx)
  else if OB_FAIL env.get_tablet_ret then (env.get_tablet_ret, false, ctx)
  else
    let b := build_merge_ctx k e env is_inited ctx
    if OB_FAIL b.1 then b
    else if !b.2.1 && k.is_multi_version_minor_merge b.2.2.param_.merge_type_ then
      if env.log_ts_range_is_empty b.2.2.log_ts_range_ then (ObRet.OB_ERR_UNEXPECTED, b.2.1, b.2.2)
      else (ObRet.OB_SUCCESS, b.2.1, { b.2.2 with merge_log_ts_ := b.2.2.log_ts_range_.end_log_ts_ })
    else (ObRet.OB_SUCCESS, b.2.1, b.2.2)

/-- `ObTabletMergePrepareTask::process` (cpp 587-652) of the prepare task `this_id` of the
Dag `d` with the merge context `ctx`. The initialisation of the merge progress
(cpp 632-643) changes neither the code nor the task graph and is left out. -/
def ObTabletMergePrepareTask.process (k : MergeKinds) (e : DagEnv) (env : PrepareEnv)
    (this_id : Nat) (is_inited : Bool) (d : DagState) (ctx : ObTabletMergeCtx) :
    PrepareResult :=
  let b := prepare_process_build k e env is_inited ctx
  if OB_FAIL b.1 || b.2.1 then
    { ret := b.1, generate_merge_task_called := false, dag := d, ctx := b.2.2 }
  else
    let ctx1 : ObTabletMergeCtx :=
      match b.2.2.compaction_filter_ with
      | some filter_is_full_merge =>
        { b.2.2 with is_full_merge_ := b.2.2.is_full_merge_ || filter_is_full_merge }
      | none => b.2.2
    let g := generate_merge_task k env.gen this_id is_inited d ctx1
    { ret := g.1, generate_merge_task_called := true, dag := g.2, ctx := ctx1 }

/-- Collaborator outcomes of `generate_merge_task` in which every call succeeds. -/
def ok_gen_task : GenTaskEnv :=
  { index_tree :=
      { desc_init_ret := ObRet.OB_SUCCESS, col_desc_array_init_ret := ObRet.OB_SUCCESS,
        get_rowkey_column_ids_ret := ObRet.OB_SUCCESS,
        add_extra_rowkey_cols_ret := ObRet.OB_SUCCESS, push_back_ret := ObRet.OB_SUCCESS,
        prepare_index_builder_ret := ObRet.OB_SUCCESS }
    alloc_merge_ret := ObRet.OB_SUCCESS, merge_alloc_ok := true,
    add_child_merge_ret := ObRet.OB_SUCCESS, add_task_merge_ret := ObRet.OB_SUCCESS,
    alloc_finish_ret := ObRet.OB_SUCCESS, add_child_finish_ret := ObRet.OB_SUCCESS,
    add_task_finish_ret := ObRet.OB_SUCCESS }

/-- Collaborator outcomes of a prepare task in which every call succeeds, except that
the context initialisation (`inner_init_for_major`, `inner_init_for_minor`) answers
`init_ret`. -/
def prepare_env (init_ret : ObRet) : PrepareEnv :=
  { could_major_merge_start := true, get_tablet_ret := ObRet.OB_SUCCESS,
    data_status_complete := true, rebuild_seq := 1,
    inner_init_for_major := fun ctx => (init_ret, ctx),
    inner_init_for_minor := fun ctx => (init_ret, false, ctx),
    init_merge_info := fun ctx => (ObRet.OB_SUCCESS, ctx),
    log_ts_range_is_empty := fun r => decide (r.end_log_ts_ ≤ r.start_log_ts_),
    gen := ok_gen_task }

/-- A Dag of the given type whose only task is its prepare task, with identity 0. -/
def dag_with_prepare (type_ : ObDagTypeEnum) : DagState :=
  { type_ := type_
    nodes := fun id =>
      if id = 0 then
        some { kind := TaskKind.prepare, idx_ := 0, is_inited_ := true, children := [] }
      else none
    task_list_ := [0]
    next_id := 1 }

/-- Collaborator outcomes of `generate_merge_task` in which only the last call, the
`add_task` of the finish task, fails. -/
def last_add_fails_gen_task : GenTaskEnv :=
  { ok_gen_task with add_task_finish_ret := ObRet.OB_ALLOCATE_MEMORY_FAILED }

/-- The collaborator calls of the finish task that change the tablet or schedule a
further compaction. -/
inductive FinishCall where
  | storage_schema_init
  | update_tablet_table_store
  | release_memtables
  | schedule_tablet_minor_merge
  | schedule_tablet_major_merge
  | schedule_tx_table_merge
  deriving DecidableEq, Repr

/-- Outcomes of the scheduler calls made by `try_schedule_compaction_after_mini`. -/
structure ScheduleEnv where
  schedule_tablet_minor_merge_ret : ObRet
  could_major_merge_start : Bool
  schedule_tablet_major_merge_ret : ObRet
  deriving DecidableEq, Repr

/-- `ObTabletMergeFinishTask::try_schedule_compaction_after_mini` (cpp 1014-1047): the
code returned and the scheduler calls made, in order. -/
def ObTabletMergeFinishTask.try_schedule_compaction_after_mini (env : ScheduleEnv)
    (ctx : ObTabletMergeCtx) : ObRet × List FinishCall :=
  let ret := env.schedule_tablet_minor_merge_ret
  if ctx.schedule_major_ && env.could_major_merge_start then
    (env.schedule_tablet_major_merge_ret,
      [FinishCall.schedule_tablet_minor_merge, FinishCall.schedule_tablet_major_merge])
  else (ret, [FinishCall.schedule_tablet_minor_merge])

/-- Outcomes of the collaborator calls made by `add_sstable_for_merge`: the schema
versions of the merge schema and of the storage schema, the code of
`ObStorageSchema::init`, the answer of `is_special_merge_tablet()`, the code of
`update_tablet_table_store` and whether the tablet handle it fills is valid, the code of
`release_memtables`, and the scheduler. -/
structure FinishEnv where
  merge_schema_version : Int
  storage_schema_version : Int
  storage_schema_init_ret : ObRet
  is_special_merge_tablet : Bool
  update_tablet_table_store_ret : ObRet
  new_tablet_handle_valid : Bool
  release_memtables_ret : ObRet
  schedule : ScheduleEnv
  schedule_tx_table_merge_ret : ObRet
  deriving DecidableEq, Repr

/-- The first part of `add_sstable_for_merge` (cpp 950-963): the choice of the storage
schema to store. -/
def add_sstable_for_merge_schema (k : MergeKinds) (env : FinishEnv) (ctx : ObTabletMergeCtx) :
    ObRet × List FinishCall :=
  if !ctx.valid then (ObRet.OB_ERR_UNEXPECTED, [])
  else if k.is_major_merge ctx.param_.merge_type_
      && decide (env.merge_schema_version > env.storage_schema_version) then
    (env.storage_schema_init_ret, [FinishCall.storage_schema_init])
  else (ObRet.OB_SUCCESS, [])

/-- The table-store update and memtable release of `add_sstable_for_merge`
(cpp 980-991), entered with `ret == OB_SUCCESS`. -/
def add_sstable_for_merge_update (k : MergeKinds) (env : FinishEnv) (ctx : ObTabletMergeCtx) :
    ObRet × List FinishCall :=
  if OB_FAIL env.update_tablet_table_store_ret then
    (env.update_tablet_table_store_ret, [FinishCall.update_tablet_table_store])
  else if k.is_mini_merge ctx.param_.merge_type_ then
    (env.release_memtables_ret,
      [FinishCall.update_tablet_table_store, FinishCall.release_memtables])
  else (ObRet.OB_SUCCESS, [FinishCall.update_tablet_table_store])

/-- The scheduling step of `add_sstable_for_merge` (cpp 992-1009), entered with the code
`ret` of the steps before; the codes of the scheduling calls go to `tmp_ret` and are
dropped. -/
def add_sstable_for_merge_schedule (k : MergeKinds) (env : FinishEnv) (ctx : ObTabletMergeCtx)
    (ret : ObRet) : List FinishCall :=
  if OB_SUCC ret && k.is_mini_merge ctx.param_.merge_type_ && env.new_tablet_handle_valid then
    if !env.is_special_merge_tablet then
      (ObTabletMergeFinishTask.try_schedule_compaction_after_mini env.schedule ctx).2
    else [FinishCall.schedule_tx_table_merge]
  else []

/-- `ObTabletMergeFinishTask::add_sstable_for_merge` (cpp 945-1012): the code returned
and the collaborator calls made, in order. -/
def ObTabletMergeFinishTask.add_sstable_for_merge (k : MergeKinds) (env : FinishEnv)
    (ctx : ObTabletMergeCtx) : ObRet × List FinishCall :=
  let s := add_sstable_for_merge_schema k env ctx
  if OB_SUCC s.1 then
    let u := add_sstable_for_merge_update k env ctx
    (u.1, s.2 ++ u.2 ++ add_sstable_for_merge_schedule k env ctx u.1)
  else s

/-- Whether a call schedules a follow-on compaction. -/
def FinishCall.is_schedule : FinishCall → Bool
  | FinishCall.schedule_tablet_minor_merge => true
  | FinishCall.schedule_tablet_major_merge => true
  | FinishCall.schedule_tx_table_merge => true
  | _ => false

/-- Collaborator outcomes of a finish task in which every call succeeds, for an ordinary
or a special tablet. -/
def ok_finish (is_special_merge_tablet : Bool) : FinishEnv :=
  { merge_schema_version := 1, storage_schema_version := 1,
    storage_schema_init_ret := ObRet.OB_SUCCESS,
    is_special_merge_tablet := is_special_merge_tablet,
    update_tablet_table_store_ret := ObRet.OB_SUCCESS, new_tablet_handle_valid := true,
    release_memtables_ret := ObRet.OB_SUCCESS,
    schedule := { schedule_tablet_minor_merge_ret := ObRet.OB_SUCCESS,
                  could_major_merge_start := true,
                  schedule_tablet_major_merge_ret := ObRet.OB_SUCCESS },
    schedule_tx_table_merge_ret := ObRet.OB_SUCCESS }

/-- Scheduler outcomes in which the minor scheduling fails with `OB_SIZE_OVERFLOW` and
the major scheduling answers `major_ret`. -/
def minor_overflow_schedule (could_major_merge_start : Bool) (major_ret : ObRet) :
    ScheduleEnv :=
  { schedule_tablet_minor_merge_ret := ObRet.OB_SIZE_OVERFLOW,
    could_major_merge_start := could_major_merge_start,
    schedule_tablet_major_merge_ret := major_ret }

/-- The sample context with `schedule_major_` set as given. -/
def sample_ctx_major (merge_type : ObMergeType) (schedule_major : Bool) : ObTabletMergeCtx :=
  { sample_ctx merge_type 4 with schedule_major_ := schedule_major }

/-- The values the member objects of `ObMergeParameter` have after their default
constructor (`ls_id_()`, `tablet_id_()`, `merge_range_()`, `version_range_()`,
`log_ts_range_()`); their classes are declared outside the file embedded here. Their
`reset()` is taken to restore the same values. -/
structure MemberDefaults where
  ls_id : Int
  tablet_id : Int
  merge_range : ObDatumRange
  version_range : ObVersionRange
  log_ts_range : ObLogTsRange
  deriving DecidableEq, Repr

/-- The constructor `ObMergeParameter::ObMergeParameter()` (cpp 51-67). -/
def ObMergeParameter.new (dflt : MemberDefaults) : ObMergeParameter :=
  { ls_id_ := dflt.ls_id
    tablet_id_ := dflt.tablet_id
    ls_handle_ := none
    tables_handle_ := none
    merge_type_ := ObMergeType.INVALID_MERGE_TYPE
    merge_level_ := ObMergeLevel.MACRO_BLOCK_MERGE_LEVEL
    table_schema_ := none
    merge_schema_ := none
    merge_range_ := dflt.merge_range
    version_range_ := dflt.version_range
    log_ts_range_ := dflt.log_ts_range
    full_read_info_ := none
    is_full_merge_ := false
    is_sstable_cut_ := false }

/-- `ObMergeParameter::reset` (cpp 94-109); it has no assignment to `full_read_info_`. -/
def ObMergeParameter.reset (dflt : MemberDefaults) (p : ObMergeParameter) : ObMergeParameter :=
  { p with
    ls_id_ := dflt.ls_id
    tablet_id_ := dflt.tablet_id
    ls_handle_ := none
    tables_handle_ := none
    merge_type_ := ObMergeType.INVALID_MERGE_TYPE
    merge_level_ := ObMergeLevel.MACRO_BLOCK_MERGE_LEVEL
    table_schema_ := none
    merge_schema_ := none
    merge_range_ := dflt.merge_range
    version_range_ := dflt.version_range
    log_ts_range_ := dflt.log_ts_range
    is_full_merge_ := false
    is_sstable_cut_ := false }

/-- `ObMergeParameter::is_valid` (cpp 69-78). -/
def ObMergeParameter.is_valid (k : MergeKinds) (e : DagEnv) (p : ObMergeParameter) : Bool :=
  (e.ls_id_valid p.ls_id_ && e.tablet_id_valid p.tablet_id_)
    && p.ls_handle_.isSome
    && (match p.tables_handle_ with
        | none => false
        | some tables => !tables.isEmpty)
    && p.is_schema_valid k
    && p.merge_type_.in_range

/-- Member defaults for the concrete runs: the ids are the invalid id `-1`, the ranges
are zero. -/
def sample_defaults : MemberDefaults :=
  { ls_id := -1, tablet_id := -1,
    merge_range := { start_key_ := 0, end_key_ := 0 },
    version_range := { multi_version_start_ := 0, base_version_ := 0, snapshot_version_ := 0 },
    log_ts_range := { start_log_ts_ := 0, end_log_ts_ := 0 } }

end Compaction

/-!
# IO utilities (`share/io/ob_io_struct.h`)

`DIO_READ_ALIGN_SIZE` and the helpers `lower_align` and `upper_align` are declared
outside the file embedded here: the constant is a parameter, the helpers are modelled.
-/

namespace IoStruct

/-- Modelled from the spec: the helper `lower_align`, declared outside the file embedded
here; the spec does not describe it. It is taken as what its name says: `input` rounded
down to a multiple of `align`. -/
def lower_align (input align : Int) : Int :=
  input - input % align

/-- Modelled from the spec: the helper `upper_align`, declared outside the file embedded
here; the spec does not describe it. It is taken as what its name says: `input` rounded
up to a multiple of `align`, computed in `int64_t` as the rounding down of
`input + align - 1`. -/
def upper_align (input align : Int) : Int :=
  lower_align (Compaction.wrap_int64 (input + align - 1)) align

/-- `is_io_aligned` (ob_io_struct.h 542-545); `%` of C++ truncates towards zero. -/
def is_io_aligned (DIO_READ_ALIGN_SIZE value : Int) : Bool :=
  0 == value.tmod DIO_READ_ALIGN_SIZE

/-- `align_offset_size` (ob_io_struct.h 547-555): the pair `(align_offset, align_size)`.
The sums are `int64_t` sums. -/
def align_offset_size (DIO_READ_ALIGN_SIZE offset size : Int) : Int × Int :=
  let align_offset := lower_align offset DIO_READ_ALIGN_SIZE
  let align_size :=
    upper_align
      (Compaction.wrap_int64 (Compaction.wrap_int64 (size + offset) - align_offset))
      DIO_READ_ALIGN_SIZE
  (align_offset, align_size)

end IoStruct


/-!
# Log-stream map (`storage/tx_storage/ob_ls_map.cpp`)

The map is embedded as it behaves for one caller at a time; the bucket locks and the
reference counts of the log streams are left out. The chain of `next_` pointers of a
bucket is the list of its log streams, head first.
-/

namespace LSMap

/-- The part of an `ObLS` object the map reads: its identity (address) and its id. -/
structure ObLS where
  addr : Nat
  ls_id_ : Int
  deriving DecidableEq, Repr

/-- What the map takes from declarations outside the file embedded here: the number of
buckets `BUCKETS_CNT`, the limit `OB_MAX_LS_NUM_PER_TENANT_PER_SERVER` and the hash
`ObLSID::hash`. -/
structure MapConsts where
  BUCKETS_CNT : Nat
  OB_MAX_LS_NUM_PER_TENANT_PER_SERVER : Int
  hash : Int → Nat

/-- The fields of `ObLSMap` the embedded functions use. -/
structure ObLSMap where
  is_inited_ : Bool
  ls_cnt_ : Int
  ls_buckets_ : Nat → List ObLS

/-- The map after `ObLSMap::reset` (cpp 105-129). -/
def ObLSMap.reset (m : ObLSMap) : ObLSMap :=
  { m with ls_buckets_ := fun _ => [], ls_cnt_ := 0, is_inited_ := false }

/-- `ObLSMap::init` (cpp 131-176). `allocator_is_null` tells whether `ls_allocator` is
`NULL`, `locks_alloc_ok` and `buckets_alloc_ok` whether the two `ob_malloc` calls
deliver memory, `lock_init_ret` is the code of the first failing lock initialisation
(`OB_SUCCESS` when none fails). -/
def ObLSMap.init (m : ObLSMap) (allocator_is_null locks_alloc_ok buckets_alloc_ok : Bool)
    (lock_init_ret : ObRet) : ObRet × ObLSMap :=
  if m.is_inited_ then (ObRet.OB_INIT_TWICE, m)
  else if allocator_is_null then (ObRet.OB_INVALID_ARGUMENT, m)
  else if !locks_alloc_ok then (ObRet.OB_ALLOCATE_MEMORY_FAILED, m)
  else if !buckets_alloc_ok then (ObRet.OB_ALLOCATE_MEMORY_FAILED, m)
  else if OB_FAIL lock_init_ret then (lock_init_ret, m)
  else (ObRet.OB_SUCCESS, { m with ls_buckets_ := fun _ => [], is_inited_ := true })

/-- The search loop of `add_ls`, `del_ls` and `get_ls`: the first log stream of the
bucket chain with the given id (`none` when the chain ends first). -/
def find_ls (ls_id : Int) (bucket : List ObLS) : Option ObLS :=
  bucket.find? (fun curr => curr.ls_id_ == ls_id)

/-- `ObLSMap::add_ls` (cpp 178-226). `inc_ret` is the code of
`ls.get_ref_mgr().inc(...)`. -/
def add_ls (c : MapConsts) (m : ObLSMap) (ls : ObLS) (inc_ret : ObRet) : ObRet × ObLSMap :=
  if !m.is_inited_ then (ObRet.OB_NOT_INIT, m)
  else
    let pos := c.hash ls.ls_id_ % c.BUCKETS_CNT
    match find_ls ls.ls_id_ (m.ls_buckets_ pos) with
    | none =>
      let cnt := m.ls_cnt_ + 1
      if cnt > c.OB_MAX_LS_NUM_PER_TENANT_PER_SERVER then
        (ObRet.OB_TOO_MANY_TENANT_LS, { m with ls_cnt_ := cnt - 1 })
      else if OB_FAIL inc_ret then (inc_ret, { m with ls_cnt_ := cnt - 1 })
      else
        (ObRet.OB_SUCCESS,
          { m with
            ls_cnt_ := cnt
            ls_buckets_ := Function.update m.ls_buckets_ pos (ls :: m.ls_buckets_ pos) })
    | some _ => (ObRet.OB_ENTRY_EXIST, m)

/-- `ObLSMap::del_ls` with `del_ls_impl` (cpp 228-280): the log stream found is unlinked
from its chain and `ls_cnt_` is decremented. -/
def del_ls (c : MapConsts) (m : ObLSMap) (ls_id : Int) : ObRet × ObLSMap :=
  if !m.is_inited_ then (ObRet.OB_NOT_INIT, m)
  else
    let pos := c.hash ls_id % c.BUCKETS_CNT
    match find_ls ls_id (m.ls_buckets_ pos) with
    | none => (ObRet.OB_LS_NOT_EXIST, m)
    | some _ =>
      (ObRet.OB_SUCCESS,
        { m with
          ls_buckets_ := Function.update m.ls_buckets_ pos
            ((m.ls_buckets_ pos).eraseP (fun curr => curr.ls_id_ == ls_id))
          ls_cnt_ := m.ls_cnt_ - 1 })

/-- A call on the map: `add_ls(ls)` with the code of its reference increment, or
`del_ls(ls_id)`. -/
inductive LSMapCall where
  | add (ls : ObLS) (inc_ret : ObRet)
  | del (ls_id : Int)
  deriving DecidableEq, Repr

/-- The map after one call. -/
def LSMapCall.run_on (c : MapConsts) (m : ObLSMap) : LSMapCall → ObLSMap
  | LSMapCall.add ls inc_ret => (add_ls c m ls inc_ret).2
  | LSMapCall.del ls_id => (del_ls c m ls_id).2

/-- The map after a sequence of calls. -/
def run_calls (c : MapConsts) : List LSMapCall → ObLSMap → ObLSMap
  | [], m => m
  | call :: rest, m => run_calls c rest (call.run_on c m)

/-- The log streams linked in the buckets, bucket by bucket. -/
def linked (c : MapConsts) (m : ObLSMap) : List ObLS :=
  (List.range c.BUCKETS_CNT).flatMap m.ls_buckets_

/-- The ids of the log streams linked in the buckets. -/
def linked_ids (c : MapConsts) (m : ObLSMap) : List Int :=
  (linked c m).map (fun ls => ls.ls_id_)

/-- The map after a successful `init` of a map that has been reset. -/
def inited_map : ObLSMap :=
  (ObLSMap.init (ObLSMap.reset { is_inited_ := false, ls_cnt_ := 0, ls_buckets_ := fun _ => [] })
    false true true ObRet.OB_SUCCESS).2

/-- The invariant of an initialised map: every linked log stream sits in the bucket of
its id, the ids within a bucket differ, and `ls_cnt_` counts the linked log streams. -/
def MapInv (c : MapConsts) (m : ObLSMap) : Prop :=
  m.is_inited_ = true ∧
  (∀ i, ∀ ls ∈ m.ls_buckets_ i, c.hash ls.ls_id_ % c.BUCKETS_CNT = i) ∧
  (∀ i, ((m.ls_buckets_ i).map (fun ls => ls.ls_id_)).Nodup) ∧
  m.ls_cnt_ = (linked c m).length

/-- Constants for the concrete runs: four buckets, at most three log streams, the hash
of an id is its absolute value. -/
def sample_map_consts : MapConsts :=
  { BUCKETS_CNT := 4, OB_MAX_LS_NUM_PER_TENANT_PER_SERVER := 3, hash := fun i => i.natAbs }

end LSMap


namespace LSMap

/-- A run for the concrete checks: the log streams 1, 5 and 2 are added (1 and 5 share
a bucket), a second log stream with id 1 is offered, and log stream 5 is deleted. -/
def sample_calls : List LSMapCall :=
  [LSMapCall.add { addr := 101, ls_id_ := 1 } ObRet.OB_SUCCESS,
   LSMapCall.add { addr := 105, ls_id_ := 5 } ObRet.OB_SUCCESS,
   LSMapCall.add { addr := 102, ls_id_ := 2 } ObRet.OB_SUCCESS,
   LSMapCall.add { addr := 201, ls_id_ := 1 } ObRet.OB_SUCCESS,
   LSMapCall.del 5]

/-- A run that fills the map up to the limit of `sample_map_consts`. -/
def filling_calls : List LSMapCall :=
  [LSMapCall.add { addr := 101, ls_id_ := 1 } ObRet.OB_SUCCESS,
   LSMapCall.add { addr := 105, ls_id_ := 5 } ObRet.OB_SUCCESS,
   LSMapCall.add { addr := 102, ls_id_ := 2 } ObRet.OB_SUCCESS]

end LSMap


/-!
# DAS context (`sql/das/ob_das_context.cpp`)

The table locations of a context are identified by their position in `table_locs_`, the
tablet locations by their address. The fields the rebuilding writes are kept by identity:
the flag `rebuild_reference_` of the table location at a position and the pointer
`next_` of the tablet location at an address.
-/

namespace Das

/-- The fields of an `ObDASTableLoc` (with its `loc_meta_`) that the rebuilding reads:
the two ids, the related table ids and the addresses of its tablet locations, in list
order. -/
structure ObDASTableLoc where
  table_loc_id_ : Nat
  ref_table_id_ : Nat
  related_table_ids_ : List Nat
  tablet_locs_ : List Nat
  deriving DecidableEq, Repr

/-- The part of `ObDASCtx` the rebuilding uses. -/
structure ObDASCtx where
  table_locs_ : List ObDASTableLoc
  rebuild_reference_ : Nat → Bool
  next_ : Nat → Option Nat

/-- One execution of the two assignments of cpp 422-423: the tablet location
`tablet_loc` of the table location at position `table` is linked to the tablet location
`related_tablet_loc` of the table location at position `related`. -/
structure Link where
  table : Nat
  related : Nat
  tablet_loc : Nat
  related_tablet_loc : Nat
  deriving DecidableEq, Repr

/-- `ObDASCtx::get_table_loc_by_id` (cpp 121-131): the loop runs to the end of the list,
so the last table location with both ids is returned, here with its position; `none` is
`nullptr`. -/
def get_table_loc_by_id (locs : List ObDASTableLoc) (table_loc_id ref_table_id : Nat) :
    Option (Nat × ObDASTableLoc) :=
  (locs.enum.filter
    (fun p => p.2.table_loc_id_ == table_loc_id && p.2.ref_table_id_ == ref_table_id)).getLast?

/-- The state of a run of `rebuild_tablet_loc_reference`: `ret`, the flags and pointers
written so far, the links made so far, in order, and the positions of the table
locations the loop found not yet rebuilt (the test of cpp 401 was false and the loop set
their flag at cpp 405), in order. -/
structure RebuildState where
  ret : ObRet
  rebuild_reference_ : Nat → Bool
  next_ : Nat → Option Nat
  links : List Link
  visited : List Nat

/-- The effect of the two assignments `related_tablet_loc->next_ = tablet_loc->next_;
tablet_loc->next_ = related_tablet_loc` (cpp 422-423) on the pointers. -/
def link_one (next_ : Nat → Option Nat) (tablet_loc related_tablet_loc : Nat) :
    Nat → Option Nat :=
  Function.update (Function.update next_ related_tablet_loc (next_ tablet_loc))
    tablet_loc (some related_tablet_loc)

/-- The inner loop over the two tablet lists (cpp 416-426), entered with
`ret == OB_SUCCESS`: the iterators move together. It is entered only after the size test
of cpp 411, so both lists end together. -/
def link_tablet_locs (table related : Nat) :
    List Nat → List Nat → RebuildState → RebuildState
  | tablet_loc :: ts, related_tablet_loc :: rs, s =>
    link_tablet_locs table related ts rs
      { s with
        next_ := link_one s.next_ tablet_loc related_tablet_loc
        links := s.links ++ [Link.mk table related tablet_loc related_tablet_loc] }
  | _, _, s => s

/-- The body of the loop over the related table ids (cpp 410-426) for the table location
`table_loc` at position `table` and the related table location found at position
`related`. -/
def link_related (table : Nat) (table_loc : ObDASTableLoc) (related : Nat)
    (related_table_loc : ObDASTableLoc) (s : RebuildState) : RebuildState :=
  let s1 : RebuildState :=
    { s with rebuild_reference_ := Function.update s.rebuild_reference_ related true }
  let s2 : RebuildState :=
    if table_loc.tablet_locs_.length ≠ related_table_loc.tablet_locs_.length then
      { s1 with ret := ObRet.OB_ERR_UNEXPECTED }
    else s1
  if OB_SUCC s2.ret then
    link_tablet_locs table related table_loc.tablet_locs_ related_table_loc.tablet_locs_ s2
  else s2

/-- The loop over the related table ids of one table location (cpp 407-427); it has no
test of `ret`. The result is `none` when `get_table_loc_by_id` returns `nullptr`, which
the source dereferences. -/
def rebuild_related_loop (locs : List ObDASTableLoc) (table : Nat) (table_loc : ObDASTableLoc) :
    List Nat → RebuildState → Option RebuildState
  | [], s => some s
  | related_table_id :: rest, s =>
    match get_table_loc_by_id locs table_loc.table_loc_id_ related_table_id with
    | none => none
    | some p =>
      rebuild_related_loop locs table table_loc rest (link_related table table_loc p.1 p.2 s)

/-- The body of the loop over the table locations (cpp 399-427). -/
def rebuild_table (locs : List ObDASTableLoc) (table : Nat) (table_loc : ObDASTableLoc)
    (s : RebuildState) : Option RebuildState :=
  if s.rebuild_reference_ table then some s
  else
    rebuild_related_loop locs table table_loc table_loc.related_table_ids_
      { s with
        rebuild_reference_ := Function.update s.rebuild_reference_ table true
        visited := s.visited ++ [table] }

/-- The loop `FOREACH_X(table_node, table_locs_, OB_SUCC(ret))` (cpp 398-428) over the
table locations not yet visited, each with its position. -/
def rebuild_loop (locs : List ObDASTableLoc) :
    List (Nat × ObDASTableLoc) → RebuildState → Option RebuildState
  | [], s => some s
  | p :: rest, s =>
    if OB_SUCC s.ret then
      match rebuild_table locs p.1 p.2 s with
      | none => none
      | some s1 => rebuild_loop locs rest s1
    else some s

/-- `ObDASCtx::rebuild_tablet_loc_reference` (cpp 395-430): the code returned, the flags
and pointers after the call and the links made. -/
def rebuild_tablet_loc_reference (c : ObDASCtx) : Option RebuildState :=
  rebuild_loop c.table_locs_ c.table_locs_.enum
    { ret := ObRet.OB_SUCCESS, rebuild_reference_ := c.rebuild_reference_, next_ := c.next_,
      links := [], visited := [] }

/-- The links the inner loop makes for two tablet lists. -/
def mk_links (table related : Nat) (ts rs : List Nat) : List Link :=
  (ts.zip rs).map (fun p => Link.mk table related p.1 p.2)

/-- The pointers after a sequence of links. -/
def apply_links (links : List Link) (next_ : Nat → Option Nat) : Nat → Option Nat :=
  links.foldl (fun n l => link_one n l.tablet_loc l.related_tablet_loc) next_

/-- Every related table id of every table location resolves to a table location. -/
def Resolves (locs : List ObDASTableLoc) : Prop :=
  ∀ t ∈ locs, ∀ rid ∈ t.related_table_ids_,
    (get_table_loc_by_id locs t.table_loc_id_ rid).isSome = true

/-- The table location at position `j` names the table location at position `table` as
related: when the loop rebuilds `j` it sets the flag of `table` (the related table
location is marked before the tablet counts are compared). -/
def NamesRelated (locs : List ObDASTableLoc) (j table : Nat) : Prop :=
  ∃ t rid p, locs[j]? = some t ∧ rid ∈ t.related_table_ids_ ∧
    get_table_loc_by_id locs t.table_loc_id_ rid = some p ∧ p.1 = table

/-- Every table location has as many tablet locations as each of its related table
locations. -/
def AllMatch (locs : List ObDASTableLoc) : Prop :=
  ∀ t ∈ locs, ∀ rid ∈ t.related_table_ids_, ∀ p,
    get_table_loc_by_id locs t.table_loc_id_ rid = some p →
      t.tablet_locs_.length = p.2.tablet_locs_.length

/-- The table location at position `table` has a related table location with a different
number of tablet locations. -/
def HasMismatch (locs : List ObDASTableLoc) (table : Nat) : Prop :=
  ∃ t rid p, locs[table]? = some t ∧ rid ∈ t.related_table_ids_ ∧
    get_table_loc_by_id locs t.table_loc_id_ rid = some p ∧
    t.tablet_locs_.length ≠ p.2.tablet_locs_.length

/-- Every tablet location of the table location at position `table` has been linked to
the tablet location at the same position of each of its related table locations. -/
def LinkedAll (locs : List ObDASTableLoc) (table : Nat) (links : List Link) : Prop :=
  ∀ t rid p, locs[table]? = some t → rid ∈ t.related_table_ids_ →
    get_table_loc_by_id locs t.table_loc_id_ rid = some p →
    ∀ (i a b : Nat), t.tablet_locs_[i]? = some a → p.2.tablet_locs_[i]? = some b →
      Link.mk table p.1 a b ∈ links

/-- A context with no flag and no pointer set, as after deserialisation. -/
def ctx_of (locs : List ObDASTableLoc) : ObDASCtx :=
  { table_locs_ := locs, rebuild_reference_ := fun _ => false, next_ := fun _ => none }

/-- A main table location: ref table 10 with the related table 11 and the tablet
locations 1 and 2. -/
def main_loc : ObDASTableLoc :=
  { table_loc_id_ := 10, ref_table_id_ := 10, related_table_ids_ := [11],
    tablet_locs_ := [1, 2] }

/-- A related table location: ref table 11 with the given tablet locations. -/
def related_loc (tablet_locs : List Nat) : ObDASTableLoc :=
  { table_loc_id_ := 10, ref_table_id_ := 11, related_table_ids_ := [],
    tablet_locs_ := tablet_locs }

/-- The main table with a related table of two tablet locations, 3 and 4. -/
def matched_locs : List ObDASTableLoc :=
  [main_loc, related_loc [3, 4]]

/-- The main table, which has two tablet locations, with a related table of one. -/
def mismatched_locs : List ObDASTableLoc :=
  [main_loc, related_loc [3]]

/-- A related table location that names the main table back: ref table 11 with the
related table 10 and the tablet location 3. -/
def back_loc : ObDASTableLoc :=
  { table_loc_id_ := 10, ref_table_id_ := 11, related_table_ids_ := [10],
    tablet_locs_ := [3] }

/-- Two table locations that name each other as related: the main table, which has two
tablet locations, and ref table 11 with one. -/
def mutual_locs : List ObDASTableLoc :=
  [main_loc, back_loc]

/-- Three table locations in a chain: the first names the second as related (one tablet
location each), the second names the third, which has two tablet locations. -/
def chained_locs : List ObDASTableLoc :=
  [{ table_loc_id_ := 10, ref_table_id_ := 10, related_table_ids_ := [11],
     tablet_locs_ := [1] },
   { table_loc_id_ := 10, ref_table_id_ := 11, related_table_ids_ := [12],
     tablet_locs_ := [2] },
   { table_loc_id_ := 10, ref_table_id_ := 12, related_table_ids_ := [],
     tablet_locs_ := [3, 4] }]

end Das


namespace Das

/-- A link joins the tablet locations at one position of a table location and of one of
its related table locations, the two having the same number of tablet locations. -/
def LinkSound (locs : List ObDASTableLoc) (l : Link) : Prop :=
  ∃ t rid r, locs[l.table]? = some t ∧ locs[l.related]? = some r ∧
    rid ∈ t.related_table_ids_ ∧
    get_table_loc_by_id locs t.table_loc_id_ rid = some (l.related, r) ∧
    t.tablet_locs_.length = r.tablet_locs_.length ∧
    ∃ i : Nat, t.tablet_locs_[i]? = some l.tablet_loc ∧
      r.tablet_locs_[i]? = some l.related_tablet_loc

end Das


namespace TxData

/-! ## Lemmas on the slot arithmetic and on `create_memtable_` -/

theorem get_memtable_idx_ne (c : Consts) {p q : Int} (hpq : p < q)
    (hlt : q - p < c.MAX_MEMSTORE_CNT) : get_memtable_idx c p ≠ get_memtable_idx c q := by
  unfold get_memtable_idx
  intro h
  have h2 : (q - p) % c.MAX_MEMSTORE_CNT = 0 :=
    (Int.emod_eq_emod_iff_emod_sub_eq_zero).1 h.symm
  have h3 : (q - p) % c.MAX_MEMSTORE_CNT = q - p :=
    Int.emod_eq_of_lt (by omega) hlt
  omega

theorem OB_FAIL_iff (r : ObRet) : OB_FAIL r = true ↔ r ≠ ObRet.OB_SUCCESS := by
  simp [OB_FAIL]

theorem OB_FAIL_false_iff (r : ObRet) : OB_FAIL r = false ↔ r = ObRet.OB_SUCCESS := by
  simp [OB_FAIL]

theorem create_memtable__cases (c : Consts) (env : CreateEnv) (m : ObTxDataMemtableMgr)
    (ts sv : Int) :
    (OB_FAIL (create_memtable_ c env m ts sv).1 = true ∧ (create_memtable_ c env m ts sv).2 = m) ∨
    (get_memtable_count_ m < c.MAX_MEMSTORE_CNT ∧
      ∃ raw, env.table = some raw ∧
        (create_memtable_ c env m ts sv).2 = appended c m (ObTxDataMemtable.init raw ts INT64_MAX) ∧
        (create_memtable_ c env m ts sv).1 = env.set_freezer_ret) := by
  unfold create_memtable_
  by_cases h1 : env.acquire_ret = ObRet.OB_SUCCESS
  · cases ht : env.table with
    | none => simp [h1, OB_FAIL]
    | some raw =>
      by_cases h2 : env.is_tx_data_memtable = true
      · by_cases h3 : env.init_ret = ObRet.OB_SUCCESS
        · by_cases h4 : get_memtable_count_ m ≥ c.MAX_MEMSTORE_CNT
          · simp [h1, h2, h3, add_memtable_, h4, OB_FAIL]
          · right
            refine ⟨by omega, raw, rfl, ?_, ?_⟩
            · by_cases h5 : env.set_freezer_ret = ObRet.OB_SUCCESS <;>
                simp [h1, h2, h3, add_memtable_, h4, h5, OB_FAIL, appended]
            · by_cases h5 : env.set_freezer_ret = ObRet.OB_SUCCESS <;>
                simp [h1, h2, h3, add_memtable_, h4, h5, OB_FAIL]
        · simp [h1, h2, h3, OB_FAIL]
      · simp [h1, h2, OB_FAIL]
  · simp [h1, OB_FAIL]

theorem create_memtable_count_le (c : Consts) (env : CreateEnv) (m : ObTxDataMemtableMgr)
    (ts sv : Int) (fr : Bool) (h : get_memtable_count_ m ≤ c.MAX_MEMSTORE_CNT) :
    get_memtable_count_ (create_memtable c env m ts sv fr).2 ≤ c.MAX_MEMSTORE_CNT := by
  unfold create_memtable
  split
  · exact h
  · split
    · exact h
    · split
      · exact h
      · rcases create_memtable__cases c env m ts sv with ⟨_, h2⟩ | ⟨hlt, raw, _, h2, _⟩
        · rw [h2]; exact h
        · rw [h2]
          simp only [get_memtable_count_, appended] at hlt ⊢
          omega

/-- A failing `create_memtable_` whose `set_freezer` call succeeded (or was not reached)
leaves the manager unchanged. -/
theorem create_memtable__error_unchanged (c : Consts) (env : CreateEnv)
    (m : ObTxDataMemtableMgr) (ts sv : Int)
    (hfail : OB_FAIL (create_memtable_ c env m ts sv).1 = true)
    (hsf : env.set_freezer_ret = ObRet.OB_SUCCESS) :
    (create_memtable_ c env m ts sv).2 = m := by
  rcases create_memtable__cases c env m ts sv with ⟨_, h2⟩ | ⟨_, raw, _, _, h3⟩
  · exact h2
  · rw [h3, hsf] at hfail
    simp [OB_FAIL] at hfail

/-- A `create_memtable_` on a manager that holds `MAX_MEMSTORE_CNT` tables or more fails
with the capacity error and changes nothing, whenever the collaborator calls before
`add_memtable_` succeed. -/
theorem create_memtable__at_capacity (c : Consts) (env : CreateEnv) (m : ObTxDataMemtableMgr)
    (ts sv : Int) (raw : ObTxDataMemtable)
    (hfull : get_memtable_count_ m ≥ c.MAX_MEMSTORE_CNT)
    (h1 : env.acquire_ret = ObRet.OB_SUCCESS) (h2 : env.table = some raw)
    (h3 : env.is_tx_data_memtable = true) (h4 : env.init_ret = ObRet.OB_SUCCESS) :
    create_memtable_ c env m ts sv = (ObRet.CAPACITY_EXCEEDED, m) := by
  simp [create_memtable_, h1, h2, h3, h4, add_memtable_, hfull, OB_FAIL]

/-! ## C2 -/

/-- C2: along every sequence of `create_memtable` calls the number of held tables
`memtable_tail_ - memtable_head_` stays at most the number of memtable slots
`MAX_MEMSTORE_CNT`, from every manager that respects the bound (a freshly initialised one
holds no table). -/
theorem run_creates_count_le_max (c : Consts) (calls : List (CreateEnv × Int × Int × Bool))
    (m : ObTxDataMemtableMgr) (h : get_memtable_count_ m ≤ c.MAX_MEMSTORE_CNT) :
    get_memtable_count_ (run_creates c calls m) ≤ c.MAX_MEMSTORE_CNT := by
  induction calls generalizing m with
  | nil => exact h
  | cons call rest ih =>
    obtain ⟨env, ts, sv, fr⟩ := call
    exact ih _ (create_memtable_count_le c env m ts sv fr h)

/-- Twenty successful-looking `create_memtable` calls on a fresh manager with sixteen slots. -/
theorem run_creates_count_le_max_witness :
    get_memtable_count_ fresh_mgr ≤ sample_consts.MAX_MEMSTORE_CNT ∧
    get_memtable_count_
        (run_creates sample_consts
          (List.replicate 20 (ok_create (raw_table 7 0), 1, 1, false)) fresh_mgr)
      ≤ sample_consts.MAX_MEMSTORE_CNT :=
  ⟨by decide,
   run_creates_count_le_max sample_consts
     (List.replicate 20 (ok_create (raw_table 7 0), 1, 1, false)) fresh_mgr (by decide)⟩

/-! ## C3 -/

/-- C3: a `create_memtable` call that returns an error can leave the manager changed. On a
freshly initialised manager, with a `set_freezer` that fails after `add_memtable_` has
appended the new table, the call returns the error of `set_freezer` while
`memtable_tail_` has moved from 0 to 1 and the slot of position 0 holds the new table. -/
theorem create_memtable_error_after_append :
    (create_memtable sample_consts
        { ok_create (raw_table 7 0) with set_freezer_ret := ObRet.OB_INVALID_ARGUMENT }
        fresh_mgr 1 1 false).1 = ObRet.OB_INVALID_ARGUMENT ∧
    fresh_mgr.memtable_tail_ = 0 ∧
    table_at sample_consts fresh_mgr 0 = none ∧
    (create_memtable sample_consts
        { ok_create (raw_table 7 0) with set_freezer_ret := ObRet.OB_INVALID_ARGUMENT }
        fresh_mgr 1 1 false).2.memtable_tail_ = 1 ∧
    table_at sample_consts
      (create_memtable sample_consts
        { ok_create (raw_table 7 0) with set_freezer_ret := ObRet.OB_INVALID_ARGUMENT }
        fresh_mgr 1 1 false).2 0
      = some (ObTxDataMemtable.init (raw_table 7 0) 1 INT64_MAX) := by
  refine ⟨by decide, by decide, by decide, by decide, by decide⟩

/-! ## C10 -/

/-- C10: on a manager that holds `MAX_TX_DATA_MEMTABLE_CNT` tables or more, `freeze_`
returns `OB_EAGAIN` with the manager unchanged (no table created, head, tail and every
slot as before), and so does `freeze` when the manager is initialised, holds a table and
has its slice allocator set. -/
theorem freeze_eagain_unchanged (c : Consts) (env : FreezeEnv) (fuel : Nat)
    (m : ObTxDataMemtableMgr) (hinit : m.is_inited_ = true)
    (hpos : 0 < get_memtable_count_ m) (halloc : m.slice_allocator_.isSome = true)
    (hcnt : get_memtable_count_ m ≥ c.MAX_TX_DATA_MEMTABLE_CNT) :
    freeze_ c env fuel m = some (ObRet.OB_EAGAIN, m) ∧
    freeze c env fuel m = some (ObRet.OB_EAGAIN, m) := by
  have h1 : freeze_ c env fuel m = some (ObRet.OB_EAGAIN, m) := by
    simp [freeze_, hcnt, freeze_epilogue, OB_FAIL]
  refine ⟨h1, ?_⟩
  have h2 : ¬ get_memtable_count_ m ≤ 0 := by omega
  have h3 : m.slice_allocator_.isNone = false := by
    cases hs : m.slice_allocator_ <;> simp_all
  simp [freeze, hinit, h2, h3, h1]

/-- A manager holding a FREEZING and an ACTIVE table, with `MAX_TX_DATA_MEMTABLE_CNT = 2`. -/
theorem freeze_eagain_unchanged_witness :
    two_table_mgr.is_inited_ = true ∧ 0 < get_memtable_count_ two_table_mgr ∧
    two_table_mgr.slice_allocator_.isSome = true ∧
    get_memtable_count_ two_table_mgr ≥ sample_consts.MAX_TX_DATA_MEMTABLE_CNT ∧
    freeze_ sample_consts (ok_freeze (raw_table 9 0) 50) 1 two_table_mgr
      = some (ObRet.OB_EAGAIN, two_table_mgr) ∧
    freeze sample_consts (ok_freeze (raw_table 9 0) 50) 1 two_table_mgr
      = some (ObRet.OB_EAGAIN, two_table_mgr) :=
  ⟨by decide, by decide, by decide, by decide,
   freeze_eagain_unchanged sample_consts (ok_freeze (raw_table 9 0) 50) 1 two_table_mgr
     (by decide) (by decide) (by decide) (by decide)⟩

/-! ## Case analysis of `freeze_` -/

theorem freeze__cases (c : Consts) (env : FreezeEnv) (fuel : Nat) (m : ObTxDataMemtableMgr)
    (r : ObRet × ObTxDataMemtableMgr) (h : freeze_ c env fuel m = some r) :
    (OB_FAIL r.1 = true ∧ r.2 = m) ∨
    (OB_FAIL r.1 = true ∧ get_memtable_count_ m < c.MAX_MEMSTORE_CNT ∧
      ∃ t, r.2 = after_failed_freeze c m t) ∨
    (r.1 = ObRet.OB_SUCCESS ∧ get_memtable_count_ m < c.MAX_TX_DATA_MEMTABLE_CNT ∧
      get_memtable_count_ m < c.MAX_MEMSTORE_CNT ∧
      ∃ fm raw, table_at c m (m.memtable_tail_ - 1) = some fm ∧ fm.state_ = State.ACTIVE ∧
        fm.tx_data_count_ ≠ 0 ∧ env.create.table = some raw ∧
        r.2 = after_freeze c m fm raw env.end_log_ts) := by
  unfold freeze_ at h
  simp only [] at h
  by_cases h1 : get_memtable_count_ m ≥ c.MAX_TX_DATA_MEMTABLE_CNT
  · simp [h1, freeze_epilogue, OB_FAIL] at h
    left; subst h; simp [OB_FAIL]
  · by_cases h2 : get_memtable_count_ m ≥ c.MAX_MEMSTORE_CNT
    · simp [h1, h2, freeze_epilogue, OB_FAIL] at h
      left; subst h; simp [OB_FAIL]
    · cases hfm : m.tables_ (get_memtable_idx c (m.memtable_tail_ - 1)) with
      | none =>
        simp [h1, h2, hfm, freeze_epilogue, OB_FAIL] at h
        left; subst h; simp [OB_FAIL]
      | some fm =>
        by_cases h3 : fm.state_ = State.ACTIVE
        · by_cases h4 : fm.tx_data_count_ = 0
          · simp [h1, h2, hfm, h3, h4, freeze_epilogue, OB_FAIL] at h
            left; subst h; simp [OB_FAIL]
          · rcases create_memtable__cases c env.create m 1 1 with ⟨hf, hm⟩ | ⟨hlt, raw, hraw, hm, hr⟩
            · simp [h1, h2, hfm, h3, h4, hf, hm, freeze_epilogue] at h
              left; subst h; exact ⟨hf, rfl⟩
            · by_cases h5 : (create_memtable_ c env.create m 1 1).1 = ObRet.OB_SUCCESS
              · right; right
                simp [h1, h2, hfm, h3, h4, h5, hm, freeze_epilogue, appended, OB_FAIL] at h
                by_cases hw : wait_write_ref env.write_ref fuel = true
                · simp [hw] at h
                  subst h
                  refine ⟨rfl, by omega, by omega, fm, raw, hfm, h3, h4, hraw, ?_⟩
                  simp [after_freeze]
                · simp [hw] at h
              · simp [h1, h2, hfm, h3, h4, h5, hm, freeze_epilogue, appended, OB_FAIL] at h
                right; left
                subst h
                exact ⟨by simpa [OB_FAIL] using h5, hlt, _, rfl⟩
        · simp [h1, h2, hfm, h3, freeze_epilogue, OB_FAIL] at h
          left; subst h; simp [OB_FAIL]

theorem freeze_cases (c : Consts) (env : FreezeEnv) (fuel : Nat) (m : ObTxDataMemtableMgr)
    (r : ObRet × ObTxDataMemtableMgr) (h : freeze c env fuel m = some r) :
    (OB_FAIL r.1 = true ∧ r.2 = m) ∨
    (OB_FAIL r.1 = true ∧ 0 < get_memtable_count_ m ∧
      get_memtable_count_ m < c.MAX_MEMSTORE_CNT ∧ ∃ t, r.2 = after_failed_freeze c m t) ∨
    (r.1 = ObRet.OB_SUCCESS ∧ 0 < get_memtable_count_ m ∧
      get_memtable_count_ m < c.MAX_TX_DATA_MEMTABLE_CNT ∧
      get_memtable_count_ m < c.MAX_MEMSTORE_CNT ∧
      ∃ fm raw, table_at c m (m.memtable_tail_ - 1) = some fm ∧ fm.state_ = State.ACTIVE ∧
        fm.tx_data_count_ ≠ 0 ∧ env.create.table = some raw ∧
        r.2 = after_freeze c m fm raw env.end_log_ts) := by
  unfold freeze at h
  by_cases h1 : m.is_inited_ = true
  · by_cases h2 : get_memtable_count_ m ≤ 0
    · simp [h1, h2] at h
      left; subst h; simp [OB_FAIL]
    · by_cases h3 : m.slice_allocator_.isNone = true
      · simp [h1, h2, h3] at h
        left; subst h; simp [OB_FAIL]
      · simp only [h1, h2, h3] at h
        simp at h
        rcases freeze__cases c env fuel m r h with hA | ⟨hf, hlt, ht⟩ | ⟨hs, hx, hlt, ht⟩
        · exact Or.inl hA
        · exact Or.inr (Or.inl ⟨hf, by omega, hlt, ht⟩)
        · exact Or.inr (Or.inr ⟨hs, by omega, hx, hlt, ht⟩)
  · simp [h1] at h
    left; subst h; simp [OB_FAIL]

theorem table_at_after_failed_freeze (c : Consts) (m : ObTxDataMemtableMgr)
    (t : ObTxDataMemtable) (p : Int) (hlt : get_memtable_count_ m < c.MAX_MEMSTORE_CNT)
    (hp1 : m.memtable_head_ ≤ p) (hp2 : p < m.memtable_tail_) :
    table_at c (after_failed_freeze c m t) p = table_at c m p := by
  have hne : get_memtable_idx c p ≠ get_memtable_idx c m.memtable_tail_ :=
    get_memtable_idx_ne c hp2 (by unfold get_memtable_count_ at hlt; omega)
  simp [table_at, after_failed_freeze, Function.update_noteq hne]

theorem table_at_after_freeze_new (c : Consts) (m : ObTxDataMemtableMgr)
    (fm raw : ObTxDataMemtable) (e : Int) :
    table_at c (after_freeze c m fm raw e) m.memtable_tail_ =
      some { ObTxDataMemtable.init raw 1 INT64_MAX with
             start_log_ts_ := e, state_ := State.ACTIVE } := by
  simp [table_at, after_freeze]

theorem table_at_after_freeze_target (c : Consts) (m : ObTxDataMemtableMgr)
    (fm raw : ObTxDataMemtable) (e : Int) (hpos : 0 < get_memtable_count_ m)
    (hlt : get_memtable_count_ m < c.MAX_MEMSTORE_CNT) :
    table_at c (after_freeze c m fm raw e) (m.memtable_tail_ - 1) =
      some { fm with end_log_ts_ := e, state_ := State.FREEZING } := by
  have hne : get_memtable_idx c (m.memtable_tail_ - 1) ≠ get_memtable_idx c m.memtable_tail_ :=
    get_memtable_idx_ne c (by omega) (by omega)
  have h1 : m.memtable_tail_ + 1 - 1 = m.memtable_tail_ := by omega
  simp [table_at, after_freeze, h1, Function.update_noteq hne]

theorem table_at_after_freeze_old (c : Consts) (m : ObTxDataMemtableMgr)
    (fm raw : ObTxDataMemtable) (e : Int) (p : Int)
    (hlt : get_memtable_count_ m < c.MAX_MEMSTORE_CNT)
    (hp1 : m.memtable_head_ ≤ p) (hp2 : p < m.memtable_tail_ - 1) :
    table_at c (after_freeze c m fm raw e) p = table_at c m p := by
  unfold get_memtable_count_ at hlt
  have hne1 : get_memtable_idx c p ≠ get_memtable_idx c m.memtable_tail_ :=
    get_memtable_idx_ne c (by omega) (by omega)
  have hne2 : get_memtable_idx c p ≠ get_memtable_idx c (m.memtable_tail_ - 1) :=
    get_memtable_idx_ne c (by omega) (by omega)
  have h1 : m.memtable_tail_ + 1 - 1 = m.memtable_tail_ := by omega
  simp [table_at, after_freeze, h1, Function.update_noteq hne1, Function.update_noteq hne2]

/-- A `freeze` that returns an error returns with `memtable_head_` and `memtable_tail_`
as before the call, whether or not its `create_memtable_` had appended a table. -/
theorem freeze_error_keeps_range (c : Consts) (env : FreezeEnv) (fuel : Nat)
    (m : ObTxDataMemtableMgr) (r : ObRet × ObTxDataMemtableMgr)
    (h : freeze c env fuel m = some r) (hfail : r.1 ≠ ObRet.OB_SUCCESS) :
    r.2.memtable_head_ = m.memtable_head_ ∧ r.2.memtable_tail_ = m.memtable_tail_ := by
  rcases freeze_cases c env fuel m r h with ⟨_, hm⟩ | ⟨_, _, _, t, hm⟩ | ⟨hs, _⟩
  · rw [hm]; exact ⟨rfl, rfl⟩
  · rw [hm]; exact ⟨rfl, rfl⟩
  · exact absurd hs hfail

/-! ## C4 -/

/-- C4 (as the code has it): when `freeze` returns success, the table that was at the tail
before the call is in FREEZING state after the call, with the end log ts stored by
`set_end_log_ts()` and otherwise as before; a newly created table stands at the new tail
in ACTIVE state; the head is unchanged and the table count has grown by exactly one. -/
theorem freeze_success_effect (c : Consts) (env : FreezeEnv) (fuel : Nat)
    (m m' : ObTxDataMemtableMgr)
    (h : freeze c env fuel m = some (ObRet.OB_SUCCESS, m')) :
    ∃ fm raw, table_at c m (m.memtable_tail_ - 1) = some fm ∧ fm.state_ = State.ACTIVE ∧
      env.create.table = some raw ∧
      table_at c m' (m.memtable_tail_ - 1) =
        some { fm with end_log_ts_ := env.end_log_ts, state_ := State.FREEZING } ∧
      table_at c m' (m'.memtable_tail_ - 1) =
        some { ObTxDataMemtable.init raw 1 INT64_MAX with
               start_log_ts_ := env.end_log_ts, state_ := State.ACTIVE } ∧
      m'.memtable_head_ = m.memtable_head_ ∧
      m'.memtable_tail_ = m.memtable_tail_ + 1 ∧
      get_memtable_count_ m' = get_memtable_count_ m + 1 := by
  rcases freeze_cases c env fuel m _ h with ⟨hf, _⟩ | ⟨hf, _⟩ | ⟨_, hpos, _, hlt, fm, raw, hfm, hst, _, hraw, hm⟩
  · simp [OB_FAIL] at hf
  · simp [OB_FAIL] at hf
  · simp only at hm
    subst hm
    refine ⟨fm, raw, hfm, hst, hraw, table_at_after_freeze_target c m fm raw _ hpos hlt, ?_, rfl, rfl, ?_⟩
    · have h1 : (after_freeze c m fm raw env.end_log_ts).memtable_tail_ - 1 = m.memtable_tail_ := by
        simp [after_freeze]
      rw [h1]
      exact table_at_after_freeze_new c m fm raw _
    · simp [get_memtable_count_, after_freeze]; omega

/-- The `freeze` of a manager holding one ACTIVE table with tx data. -/
theorem freeze_success_effect_witness :
    freeze sample_consts (ok_freeze (raw_table 8 3) 40) 1 one_table_mgr
      = some (ObRet.OB_SUCCESS, two_table_mgr) ∧
    ∃ fm raw, table_at sample_consts one_table_mgr (one_table_mgr.memtable_tail_ - 1) = some fm ∧
      fm.state_ = State.ACTIVE ∧
      (ok_freeze (raw_table 8 3) 40).create.table = some raw ∧
      table_at sample_consts two_table_mgr (one_table_mgr.memtable_tail_ - 1) =
        some { fm with end_log_ts_ := (ok_freeze (raw_table 8 3) 40).end_log_ts,
                       state_ := State.FREEZING } ∧
      table_at sample_consts two_table_mgr (two_table_mgr.memtable_tail_ - 1) =
        some { ObTxDataMemtable.init raw 1 INT64_MAX with
               start_log_ts_ := (ok_freeze (raw_table 8 3) 40).end_log_ts,
               state_ := State.ACTIVE } ∧
      two_table_mgr.memtable_head_ = one_table_mgr.memtable_head_ ∧
      two_table_mgr.memtable_tail_ = one_table_mgr.memtable_tail_ + 1 ∧
      get_memtable_count_ two_table_mgr = get_memtable_count_ one_table_mgr + 1 :=
  ⟨rfl, freeze_success_effect sample_consts (ok_freeze (raw_table 8 3) 40) 1 one_table_mgr
    two_table_mgr rfl⟩

/-- C4, as stated, fails: the `freeze` of a manager holding one ACTIVE table with tx data
returns success, and the freeze target (position 0) is then in FREEZING state, not in
FROZEN state. -/
theorem freeze_target_is_freezing_not_frozen :
    freeze sample_consts (ok_freeze (raw_table 8 3) 40) 1 one_table_mgr
      = some (ObRet.OB_SUCCESS, two_table_mgr) ∧
    (table_at sample_consts two_table_mgr (one_table_mgr.memtable_tail_ - 1)).map
      (fun t => t.state_) = some State.FREEZING ∧
    ¬ FreezeTargetFrozen sample_consts one_table_mgr two_table_mgr := by
  have h : (table_at sample_consts two_table_mgr (one_table_mgr.memtable_tail_ - 1)).map
      (fun t => t.state_) = some State.FREEZING := by decide
  refine ⟨rfl, h, ?_⟩
  rintro ⟨t, ht, hs⟩
  rw [ht] at h
  simp [hs] at h

/-! ## C5 -/

theorem Chained_after_freeze (c : Consts) (env : FreezeEnv) (fuel : Nat)
    (m : ObTxDataMemtableMgr) (r : ObRet × ObTxDataMemtableMgr)
    (h : freeze c env fuel m = some r) (hch : Chained c m) : Chained c r.2 := by
  rcases freeze_cases c env fuel m r h with ⟨_, hm⟩ | ⟨_, _, hlt, t, hm⟩ |
    ⟨_, hpos, _, hlt, fm, raw, hfm, _, _, _, hm⟩
  · rw [hm]; exact hch
  · rw [hm]
    intro p hp1 hp2
    have hp1' : m.memtable_head_ < p := hp1
    have hp2' : p < m.memtable_tail_ := hp2
    obtain ⟨a, b, ha, hb, hab⟩ := hch p hp1' hp2'
    refine ⟨a, b, ?_, ?_, hab⟩
    · rw [table_at_after_failed_freeze c m t (p - 1) hlt (by omega) (by omega)]; exact ha
    · rw [table_at_after_failed_freeze c m t p hlt (by omega) (by omega)]; exact hb
  · rw [hm]
    intro p hp1 hp2
    have hp1' : m.memtable_head_ < p := hp1
    have hp2' : p < m.memtable_tail_ + 1 := hp2
    unfold get_memtable_count_ at hpos
    by_cases hpt : p = m.memtable_tail_
    · subst hpt
      refine ⟨_, _, table_at_after_freeze_target c m fm raw _ (by unfold get_memtable_count_; omega) hlt,
        table_at_after_freeze_new c m fm raw _, rfl⟩
    · by_cases hpt2 : p = m.memtable_tail_ - 1
      · subst hpt2
        obtain ⟨a, b, ha, hb, hab⟩ := hch (m.memtable_tail_ - 1) hp1' (by omega)
        rw [hfm] at hb
        cases hb
        refine ⟨a, _, ?_, table_at_after_freeze_target c m fm raw _
          (by unfold get_memtable_count_; omega) hlt, hab⟩
        rw [table_at_after_freeze_old c m fm raw _ _ hlt (by omega) (by omega)]; exact ha
      · obtain ⟨a, b, ha, hb, hab⟩ := hch p hp1' (by omega)
        refine ⟨a, b, ?_, ?_, hab⟩
        · rw [table_at_after_freeze_old c m fm raw _ _ hlt (by omega) (by omega)]; exact ha
        · rw [table_at_after_freeze_old c m fm raw _ _ hlt (by omega) (by omega)]; exact hb

/-- C5: after every successful `freeze` the new ACTIVE table at the tail starts at the end
log ts of the table that was the tail before the call; and along every sequence of
`freeze` calls that return, a manager whose tables in `[head, tail)` are chained (each
starts at the end log ts of its predecessor) stays chained. -/
theorem freeze_chains_log_ts (c : Consts) :
    (∀ (env : FreezeEnv) (fuel : Nat) (m m' : ObTxDataMemtableMgr),
      freeze c env fuel m = some (ObRet.OB_SUCCESS, m') →
      ∃ prev fresh, table_at c m' (m.memtable_tail_ - 1) = some prev ∧
        table_at c m' (m'.memtable_tail_ - 1) = some fresh ∧
        fresh.state_ = State.ACTIVE ∧ fresh.start_log_ts_ = prev.end_log_ts_) ∧
    (∀ (calls : List (FreezeEnv × Nat)) (m m' : ObTxDataMemtableMgr),
      Chained c m → run_freezes c calls m = some m' → Chained c m') := by
  constructor
  · intro env fuel m m' h
    rcases freeze_cases c env fuel m _ h with ⟨hf, _⟩ | ⟨hf, _⟩ |
      ⟨_, hpos, _, hlt, fm, raw, _, _, _, _, hm⟩
    · simp [OB_FAIL] at hf
    · simp [OB_FAIL] at hf
    · simp only at hm
      subst hm
      have h1 : (after_freeze c m fm raw env.end_log_ts).memtable_tail_ - 1
          = m.memtable_tail_ := by simp [after_freeze]
      rw [h1]
      exact ⟨_, _, table_at_after_freeze_target c m fm raw _ hpos hlt,
        table_at_after_freeze_new c m fm raw _, rfl, rfl⟩
  · intro calls
    induction calls with
    | nil =>
      intro m m' hch hrun
      simp [run_freezes] at hrun
      subst hrun; exact hch
    | cons call rest ih =>
      intro m m' hch hrun
      obtain ⟨env, fuel⟩ := call
      simp only [run_freezes] at hrun
      cases hf : freeze c env fuel m with
      | none => simp [hf] at hrun
      | some r =>
        simp only [hf] at hrun
        exact ih r.2 m' (Chained_after_freeze c env fuel m r hf hch) hrun

/-- One `freeze` from one table, and a further `freeze` from two chained tables. -/
theorem freeze_chains_log_ts_witness :
    (∃ prev fresh,
      table_at sample_consts two_table_mgr (one_table_mgr.memtable_tail_ - 1) = some prev ∧
      table_at sample_consts two_table_mgr (two_table_mgr.memtable_tail_ - 1) = some fresh ∧
      fresh.state_ = State.ACTIVE ∧ fresh.start_log_ts_ = prev.end_log_ts_) ∧
    Chained wide_consts two_table_mgr ∧
    run_freezes wide_consts [(ok_freeze (raw_table 9 0) 50, 1)] two_table_mgr
      = some three_table_mgr ∧
    Chained wide_consts three_table_mgr := by
  have hch : Chained wide_consts two_table_mgr := by
    intro p h1 h2
    have hh : two_table_mgr.memtable_head_ = 0 := by decide
    have ht : two_table_mgr.memtable_tail_ = 2 := by decide
    have hp : p = 1 := by omega
    subst hp
    exact ⟨_, _, rfl, rfl, by decide⟩
  exact ⟨(freeze_chains_log_ts sample_consts).1 (ok_freeze (raw_table 8 3) 40) 1 one_table_mgr
      two_table_mgr rfl,
    hch, rfl,
    (freeze_chains_log_ts wide_consts).2 [(ok_freeze (raw_table 9 0) 50, 1)] two_table_mgr
      three_table_mgr hch rfl⟩

/-! ## C1 -/

theorem OneActiveAtTail_after_freeze (c : Consts) (env : FreezeEnv) (fuel : Nat)
    (m : ObTxDataMemtableMgr) (r : ObRet × ObTxDataMemtableMgr)
    (h : freeze c env fuel m = some r) (hinv : OneActiveAtTail c m) :
    OneActiveAtTail c r.2 := by
  obtain ⟨hne, hall⟩ := hinv
  rcases freeze_cases c env fuel m r h with ⟨_, hm⟩ | ⟨_, _, hlt, t, hm⟩ |
    ⟨_, hpos, _, hlt, fm, raw, hfm, _, _, _, hm⟩
  · rw [hm]; exact ⟨hne, hall⟩
  · rw [hm]
    refine ⟨hne, ?_⟩
    intro p hp1 hp2
    have hp1' : m.memtable_head_ ≤ p := hp1
    have hp2' : p < m.memtable_tail_ := hp2
    rw [table_at_after_failed_freeze c m t p hlt hp1' hp2']
    exact hall p hp1' hp2'
  · rw [hm]
    refine ⟨?_, ?_⟩
    · show m.memtable_head_ < m.memtable_tail_ + 1
      omega
    · intro p hp1 hp2
      have hp1' : m.memtable_head_ ≤ p := hp1
      have hp2' : p < m.memtable_tail_ + 1 := hp2
      have htail : (after_freeze c m fm raw env.end_log_ts).memtable_tail_ - 1
          = m.memtable_tail_ := by simp [after_freeze]
      rw [htail]
      by_cases hpt : p = m.memtable_tail_
      · subst hpt
        rw [table_at_after_freeze_new]
        simp
      · by_cases hpt2 : p = m.memtable_tail_ - 1
        · subst hpt2
          rw [table_at_after_freeze_target c m fm raw _ hpos hlt]
          simp
        · rw [table_at_after_freeze_old c m fm raw _ _ hlt hp1' (by omega)]
          have := hall p hp1' (by omega)
          constructor
          · intro hex
            have := this.1 hex
            omega
          · intro hex
            exact absurd hex hpt

theorem OneActiveAtTail_after_first_create (c : Consts) (env : CreateEnv)
    (ts sv : Int) (fr : Bool) (m0 m1 : ObTxDataMemtableMgr)
    (hempty : m0.memtable_head_ = m0.memtable_tail_)
    (hcreate : create_memtable c env m0 ts sv fr = (ObRet.OB_SUCCESS, m1)) :
    OneActiveAtTail c m1 := by
  unfold create_memtable at hcreate
  by_cases h1 : m0.is_inited_ = true
  · by_cases h2 : sv < 0
    · simp [h1, h2] at hcreate
    · by_cases h3 : m0.slice_allocator_.isNone = true
      · simp [h1, h2, h3] at hcreate
      · simp only [h1, h2, h3] at hcreate
        simp at hcreate
        rcases create_memtable__cases c env m0 ts sv with ⟨hf, _⟩ | ⟨_, raw, _, hm, _⟩
        · rw [hcreate] at hf
          simp [OB_FAIL] at hf
        · rw [hcreate] at hm
          simp only at hm
          subst hm
          refine ⟨?_, ?_⟩
          · show m0.memtable_head_ < m0.memtable_tail_ + 1
            omega
          · intro p hp1 hp2
            have hp1' : m0.memtable_head_ ≤ p := hp1
            have hp2' : p < m0.memtable_tail_ + 1 := hp2
            have hp : p = m0.memtable_tail_ := by omega
            subst hp
            simp [table_at, appended, ObTxDataMemtable.init]
  · simp [h1] at hcreate

/-- C1 (as the code has it): after the first successful `create_memtable` on an empty
manager, and after each `freeze` call of any sequence of `freeze` calls that follows it,
exactly one table at the positions `[memtable_head_, memtable_tail_)` is ACTIVE and it is
the one at `memtable_tail_ - 1`. -/
theorem one_active_after_create_then_freezes (c : Consts) (env : CreateEnv)
    (ts sv : Int) (fr : Bool) (m0 m1 : ObTxDataMemtableMgr)
    (hempty : m0.memtable_head_ = m0.memtable_tail_)
    (hcreate : create_memtable c env m0 ts sv fr = (ObRet.OB_SUCCESS, m1))
    (calls : List (FreezeEnv × Nat)) (m' : ObTxDataMemtableMgr)
    (hrun : run_freezes c calls m1 = some m') : OneActiveAtTail c m' := by
  have h1 := OneActiveAtTail_after_first_create c env ts sv fr m0 m1 hempty hcreate
  clear hcreate hempty
  induction calls generalizing m1 with
  | nil =>
    simp [run_freezes] at hrun
    subst hrun; exact h1
  | cons call rest ih =>
    obtain ⟨fenv, fuel⟩ := call
    simp only [run_freezes] at hrun
    cases hf : freeze c fenv fuel m1 with
    | none => simp [hf] at hrun
    | some r =>
      simp only [hf] at hrun
      exact ih r.2 hrun (OneActiveAtTail_after_freeze c fenv fuel m1 r hf h1)

/-- The first `create_memtable` on a fresh manager followed by one `freeze`. -/
theorem one_active_after_create_then_freezes_witness :
    fresh_mgr.memtable_head_ = fresh_mgr.memtable_tail_ ∧
    create_memtable sample_consts (ok_create (raw_table 7 5)) fresh_mgr 1 1 false
      = (ObRet.OB_SUCCESS, one_table_mgr) ∧
    run_freezes sample_consts [(ok_freeze (raw_table 8 3) 40, 1)] one_table_mgr
      = some two_table_mgr ∧
    OneActiveAtTail sample_consts two_table_mgr :=
  ⟨rfl, rfl, rfl,
   one_active_after_create_then_freezes sample_consts (ok_create (raw_table 7 5)) 1 1 false
     fresh_mgr one_table_mgr rfl rfl [(ok_freeze (raw_table 8 3) 40, 1)] two_table_mgr rfl⟩

/-- C1, as stated, fails: two `create_memtable` calls on a freshly initialised manager both
return success, and afterwards the table at position 0 is ACTIVE although it is not the
one at `memtable_tail_ - 1 = 1`; two tables are ACTIVE. -/
theorem two_creates_two_active :
    (create_memtable sample_consts (ok_create (raw_table 7 5)) fresh_mgr 1 1 false).1
      = ObRet.OB_SUCCESS ∧
    (create_memtable sample_consts (ok_create (raw_table 8 0)) one_table_mgr 1 1 false).1
      = ObRet.OB_SUCCESS ∧
    (table_at sample_consts two_creates_mgr 0).map (fun t => t.state_) = some State.ACTIVE ∧
    (table_at sample_consts two_creates_mgr 1).map (fun t => t.state_) = some State.ACTIVE ∧
    ¬ OneActiveAtTail sample_consts two_creates_mgr := by
  refine ⟨by decide, by decide, by decide, by decide, ?_⟩
  rintro ⟨_, h⟩
  have h0 := (h 0 (by decide) (by decide)).1 ⟨_, rfl, by decide⟩
  have ht : two_creates_mgr.memtable_tail_ = 2 := by decide
  omega

/-! ## C6 -/

/-- C6: on a non-empty manager (`0 ≤ memtable_head_ < memtable_tail_`) whose slot of
position `memtable_tail_ - 1` holds the table `t`, `get_active_memtable` returns success
exactly when `t` is ACTIVE, the handle is then `t`, and when `t` is in any other state
the call returns `OB_ERR_UNEXPECTED`. -/
theorem get_active_memtable_spec (c : Consts) (env : TableEnv) (m : ObTxDataMemtableMgr)
    (t : ObTxDataMemtable) (hhead : 0 ≤ m.memtable_head_)
    (hne : m.memtable_head_ < m.memtable_tail_)
    (ht : table_at c m (m.memtable_tail_ - 1) = some t) :
    ((get_active_memtable c env m).1 = ObRet.OB_SUCCESS ↔ t.state_ = State.ACTIVE) ∧
    (t.state_ = State.ACTIVE → get_active_memtable c env m = (ObRet.OB_SUCCESS, some t)) ∧
    (t.state_ ≠ State.ACTIVE → (get_active_memtable c env m).1 = ObRet.OB_ERR_UNEXPECTED) := by
  have h1 : ¬ m.memtable_tail_ = 0 := by omega
  have h2 : ¬ get_memtable_count_ m = 0 := by unfold get_memtable_count_; omega
  by_cases hs : t.state_ = State.ACTIVE
  · simp [get_active_memtable, h1, h2, get_ith_memtable, ht, hs, OB_FAIL]
  · simp [get_active_memtable, h1, h2, get_ith_memtable, ht, hs, OB_FAIL]

/-- The active table of a manager holding a FREEZING and an ACTIVE table. -/
theorem get_active_memtable_spec_witness :
    (0 ≤ two_table_mgr.memtable_head_ ∧
     two_table_mgr.memtable_head_ < two_table_mgr.memtable_tail_ ∧
     table_at sample_consts two_table_mgr (two_table_mgr.memtable_tail_ - 1)
       = some { ObTxDataMemtable.init (raw_table 8 3) 1 INT64_MAX with
                start_log_ts_ := 40, state_ := State.ACTIVE }) ∧
    (((get_active_memtable sample_consts ok_tables two_table_mgr).1 = ObRet.OB_SUCCESS ↔
        ({ ObTxDataMemtable.init (raw_table 8 3) 1 INT64_MAX with
           start_log_ts_ := 40, state_ := State.ACTIVE } : ObTxDataMemtable).state_
          = State.ACTIVE) ∧
     (({ ObTxDataMemtable.init (raw_table 8 3) 1 INT64_MAX with
           start_log_ts_ := 40, state_ := State.ACTIVE } : ObTxDataMemtable).state_
          = State.ACTIVE →
        get_active_memtable sample_consts ok_tables two_table_mgr
          = (ObRet.OB_SUCCESS,
             some { ObTxDataMemtable.init (raw_table 8 3) 1 INT64_MAX with
                    start_log_ts_ := 40, state_ := State.ACTIVE })) ∧
     (({ ObTxDataMemtable.init (raw_table 8 3) 1 INT64_MAX with
           start_log_ts_ := 40, state_ := State.ACTIVE } : ObTxDataMemtable).state_
          ≠ State.ACTIVE →
        (get_active_memtable sample_consts ok_tables two_table_mgr).1
          = ObRet.OB_ERR_UNEXPECTED)) :=
  ⟨⟨by decide, by decide, by decide⟩,
   get_active_memtable_spec sample_consts ok_tables two_table_mgr _ (by decide) (by decide)
     (by decide)⟩

/-! ## C7 -/

theorem flush_all_frozen_loop_skip (env : TableEnv) (t : ObTxDataMemtable)
    (rest : List ObTxDataMemtable) (h : flush_eligible env t = false) :
    flush_all_frozen_loop env (t :: rest) = flush_all_frozen_loop env rest := by
  simp only [flush_eligible, Bool.or_eq_false_iff, beq_eq_false_iff_ne] at h
  simp [flush_all_frozen_loop, h.1, h.2]

theorem flush_all_frozen_loop_fail (env : TableEnv) (t : ObTxDataMemtable)
    (rest : List ObTxDataMemtable) (h : flush_eligible env t = true)
    (hf : env.flush_ret t ≠ ObRet.OB_SUCCESS) :
    flush_all_frozen_loop env (t :: rest) = (env.flush_ret t, [t]) := by
  simp only [flush_eligible, Bool.or_eq_true, beq_iff_eq] at h
  rcases h with h | h <;> simp [flush_all_frozen_loop, h, hf, OB_FAIL]

theorem flush_all_frozen_loop_ok (env : TableEnv) (t : ObTxDataMemtable)
    (rest : List ObTxDataMemtable) (h : flush_eligible env t = true)
    (hf : env.flush_ret t = ObRet.OB_SUCCESS) :
    flush_all_frozen_loop env (t :: rest) =
      ((flush_all_frozen_loop env rest).1, t :: (flush_all_frozen_loop env rest).2) := by
  simp only [flush_eligible, Bool.or_eq_true, beq_iff_eq] at h
  rcases h with h | h <;> simp [flush_all_frozen_loop, h, hf, OB_FAIL]

theorem flush_all_frozen_loop_spec (env : TableEnv) (l : List ObTxDataMemtable) :
    ∃ rest, l.filter (flush_eligible env) = (flush_all_frozen_loop env l).2 ++ rest ∧
      ((flush_all_frozen_loop env l).1 = ObRet.OB_SUCCESS →
        rest = [] ∧ ∀ t ∈ (flush_all_frozen_loop env l).2, env.flush_ret t = ObRet.OB_SUCCESS) ∧
      ((flush_all_frozen_loop env l).1 ≠ ObRet.OB_SUCCESS →
        ∃ pre t, (flush_all_frozen_loop env l).2 = pre ++ [t] ∧
          env.flush_ret t = (flush_all_frozen_loop env l).1 ∧
          ∀ u ∈ pre, env.flush_ret u = ObRet.OB_SUCCESS) := by
  induction l with
  | nil => exact ⟨[], by simp [flush_all_frozen_loop]⟩
  | cons t rest ih =>
    obtain ⟨tl, h1, h2, h3⟩ := ih
    by_cases hel : flush_eligible env t = true
    · by_cases hfl : env.flush_ret t = ObRet.OB_SUCCESS
      · rw [flush_all_frozen_loop_ok env t rest hel hfl]
        refine ⟨tl, ?_, ?_, ?_⟩
        · simp [hel, h1]
        · intro hs
          have hs' : (flush_all_frozen_loop env rest).1 = ObRet.OB_SUCCESS := hs
          refine ⟨(h2 hs').1, ?_⟩
          intro v hv
          rcases List.mem_cons.1 hv with hv | hv
          · rw [hv]; exact hfl
          · exact (h2 hs').2 v hv
        · intro hs
          have hs' : (flush_all_frozen_loop env rest).1 ≠ ObRet.OB_SUCCESS := hs
          obtain ⟨pre, u, hp1, hp2, hp3⟩ := h3 hs'
          refine ⟨t :: pre, u, ?_, hp2, ?_⟩
          · show t :: (flush_all_frozen_loop env rest).2 = t :: pre ++ [u]
            rw [hp1]; rfl
          · intro v hv
            rcases List.mem_cons.1 hv with hv | hv
            · rw [hv]; exact hfl
            · exact hp3 v hv
      · rw [flush_all_frozen_loop_fail env t rest hel hfl]
        refine ⟨rest.filter (flush_eligible env), ?_, ?_, ?_⟩
        · simp [hel]
        · intro hs
          exact absurd hs hfl
        · intro _
          exact ⟨[], t, rfl, rfl, by simp⟩
    · have hel' : flush_eligible env t = false := by simpa using hel
      rw [flush_all_frozen_loop_skip env t rest hel']
      exact ⟨tl, by simp [hel', h1], h2, h3⟩

/-- C7 (as the code has it): `flush_all_frozen_memtables_` goes through the handles other
than the last (the current tail) in head-to-tail order and stops at the first `flush()`
that fails, returning its error. The memtables whose `flush()` it calls are, in that
order, an initial part of those that are in FROZEN state or report `ready_for_flush()`;
memtables that are neither are skipped without error. When it returns success it has
called `flush()` on all of them. -/
theorem flush_all_frozen_memtables__spec (env : TableEnv)
    (memtable_handles : List ObTxDataMemtable) :
    (flush_all_frozen_memtables_ env memtable_handles).2
        <+: memtable_handles.dropLast.filter (flush_eligible env) ∧
    ((flush_all_frozen_memtables_ env memtable_handles).1 = ObRet.OB_SUCCESS →
      (flush_all_frozen_memtables_ env memtable_handles).2
          = memtable_handles.dropLast.filter (flush_eligible env) ∧
      ∀ t ∈ (flush_all_frozen_memtables_ env memtable_handles).2,
        env.flush_ret t = ObRet.OB_SUCCESS) ∧
    ((flush_all_frozen_memtables_ env memtable_handles).1 ≠ ObRet.OB_SUCCESS →
      ∃ pre t, (flush_all_frozen_memtables_ env memtable_handles).2 = pre ++ [t] ∧
        env.flush_ret t = (flush_all_frozen_memtables_ env memtable_handles).1 ∧
        ∀ u ∈ pre, env.flush_ret u = ObRet.OB_SUCCESS) := by
  obtain ⟨rest, h1, h2, h3⟩ := flush_all_frozen_loop_spec env memtable_handles.dropLast
  refine ⟨⟨rest, h1.symm⟩, ?_, h3⟩
  intro hs
  obtain ⟨hr, hall⟩ := h2 hs
  refine ⟨?_, hall⟩
  rw [hr, List.append_nil] at h1
  exact h1.symm

/-- A run in which every `flush()` succeeds and a run in which the first one fails. -/
theorem flush_all_frozen_memtables__spec_witness :
    ((flush_all_frozen_memtables_ ok_tables
        [table_in_state 1 State.FROZEN, table_in_state 2 State.FREEZING,
         table_in_state 3 State.ACTIVE]).2
      = [table_in_state 1 State.FROZEN, table_in_state 2 State.FREEZING,
         table_in_state 3 State.ACTIVE].dropLast.filter (flush_eligible ok_tables) ∧
     ∀ t ∈ (flush_all_frozen_memtables_ ok_tables
        [table_in_state 1 State.FROZEN, table_in_state 2 State.FREEZING,
         table_in_state 3 State.ACTIVE]).2, ok_tables.flush_ret t = ObRet.OB_SUCCESS) ∧
    (∃ pre t, (flush_all_frozen_memtables_ first_flush_fails
        [table_in_state 1 State.FROZEN, table_in_state 2 State.FROZEN,
         table_in_state 3 State.ACTIVE]).2 = pre ++ [t] ∧
      first_flush_fails.flush_ret t = (flush_all_frozen_memtables_ first_flush_fails
        [table_in_state 1 State.FROZEN, table_in_state 2 State.FROZEN,
         table_in_state 3 State.ACTIVE]).1 ∧
      ∀ u ∈ pre, first_flush_fails.flush_ret u = ObRet.OB_SUCCESS) :=
  ⟨(flush_all_frozen_memtables__spec ok_tables
      [table_in_state 1 State.FROZEN, table_in_state 2 State.FREEZING,
       table_in_state 3 State.ACTIVE]).2.1 (by decide),
   (flush_all_frozen_memtables__spec first_flush_fails
      [table_in_state 1 State.FROZEN, table_in_state 2 State.FROZEN,
       table_in_state 3 State.ACTIVE]).2.2 (by decide)⟩

/-- C7, as stated, fails in both directions. With no memtable ready for flush, the
`flush()` of a FROZEN memtable that is not the tail is still called; and with all
memtables FROZEN and ready, a failing `flush()` of the first one ends the loop, so the
`flush()` of the second one (not the tail, FROZEN, ready) is not called. -/
theorem flush_set_differs_from_frozen_and_ready :
    (flush_all_frozen_memtables_ ok_tables
        [table_in_state 1 State.FROZEN, table_in_state 2 State.ACTIVE]
      = (ObRet.OB_SUCCESS, [table_in_state 1 State.FROZEN]) ∧
     frozen_and_ready ok_tables
        [table_in_state 1 State.FROZEN, table_in_state 2 State.ACTIVE] = []) ∧
    (flush_all_frozen_memtables_ first_flush_fails
        [table_in_state 1 State.FROZEN, table_in_state 2 State.FROZEN,
         table_in_state 3 State.ACTIVE]
      = (ObRet.OB_EAGAIN, [table_in_state 1 State.FROZEN]) ∧
     frozen_and_ready first_flush_fails
        [table_in_state 1 State.FROZEN, table_in_state 2 State.FROZEN,
         table_in_state 3 State.ACTIVE]
      = [table_in_state 1 State.FROZEN, table_in_state 2 State.FROZEN]) := by
  refine ⟨⟨by decide, by decide⟩, by decide, by decide⟩

/-! ## C8 -/

theorem get_all_memtables_loop_extends (c : Consts) (env : TableEnv) (m : ObTxDataMemtableMgr)
    (n : Nat) (i : Int) (handles : List ObTxDataMemtable)
    (h : (get_all_memtables_loop c env m n i handles).1 = ObRet.OB_SUCCESS) :
    ∃ tl, (get_all_memtables_loop c env m n i handles).2 = handles ++ tl := by
  induction n generalizing i handles with
  | zero => exact ⟨[], by simp [get_all_memtables_loop]⟩
  | succ n ih =>
    unfold get_all_memtables_loop at h ⊢
    cases ht : table_at c m i with
    | none =>
      simp only [get_ith_memtable, ht] at h ⊢
      exact ⟨[], by simp⟩
    | some t =>
      simp only [get_ith_memtable, ht] at h ⊢
      by_cases hp : OB_FAIL (env.push_back_ret handles.length) = true
      · simp only [hp, if_true] at h ⊢
        exact ⟨[], by simp⟩
      · simp only [hp] at h ⊢
        obtain ⟨tl, htl⟩ := ih (i + 1) (handles ++ [t]) h
        exact ⟨t :: tl, by simp [htl]⟩

theorem get_rec_log_ts_empty (c : Consts) (env : TableEnv) (m : ObTxDataMemtableMgr)
    (h : get_memtable_count_ m ≤ 0) : get_rec_log_ts c env m = INT64_MAX := by
  have h0 : (get_memtable_count_ m).toNat = 0 := by omega
  simp [get_rec_log_ts, get_all_memtables, get_all_memtables_, h0, get_all_memtables_loop,
    OB_FAIL]

theorem get_rec_log_ts_oldest (c : Consts) (env : TableEnv) (m : ObTxDataMemtableMgr) :
    get_rec_log_ts c env m = INT64_MAX ∨
      ∃ t, table_at c m m.memtable_head_ = some t ∧ 0 < get_memtable_count_ m ∧
        get_rec_log_ts c env m = t.rec_log_ts_ := by
  by_cases hc : get_memtable_count_ m ≤ 0
  · exact Or.inl (get_rec_log_ts_empty c env m hc)
  · obtain ⟨n, hn⟩ : ∃ n, (get_memtable_count_ m).toNat = n + 1 := ⟨(get_memtable_count_ m).toNat - 1, by omega⟩
    by_cases hs : (get_all_memtables_ c env m []).1 = ObRet.OB_SUCCESS
    · right
      have hs' := hs
      unfold get_all_memtables_ at hs'
      rw [hn] at hs'
      unfold get_all_memtables_loop at hs'
      cases ht : table_at c m m.memtable_head_ with
      | none =>
        simp only [get_ith_memtable, ht] at hs'
        split_ifs at hs' with h1
        · simp [OB_FAIL] at h1
          exact absurd hs' h1
      | some t =>
        simp only [get_ith_memtable, ht] at hs'
        by_cases hp : OB_FAIL (env.push_back_ret ([] : List ObTxDataMemtable).length) = true
        · simp only [hp, if_true] at hs'
          simp [OB_FAIL] at hp
          exact absurd hs' hp
        · simp only [hp] at hs'
          obtain ⟨tl, htl⟩ := get_all_memtables_loop_extends c env m n _ _ hs'
          refine ⟨t, rfl, by omega, ?_⟩
          have hall : (get_all_memtables_ c env m []).2 = t :: tl := by
            unfold get_all_memtables_
            rw [hn]
            unfold get_all_memtables_loop
            simp only [get_ith_memtable, ht, hp]
            simpa using htl
          simp [get_rec_log_ts, get_all_memtables, hs, OB_FAIL, hall]
    · left
      simp [get_rec_log_ts, get_all_memtables, hs, OB_FAIL]

theorem new_guard_reset (m : ObTxDataMemtableMgr) :
    (TxDataMemtableMgrFreezeGuard.new.reset m).2 = m := by
  simp [TxDataMemtableMgrFreezeGuard.new, TxDataMemtableMgrFreezeGuard.reset]

/-- C8: `flush` calls `freeze()` only if `need_freeze` is true and the manager's
`get_rec_log_ts()` is strictly less than `recycle_log_ts`; when `need_freeze` is false or
`get_rec_log_ts() >= recycle_log_ts`, `flush` returns without calling `freeze()` and
leaves the manager as it was (no table is created). -/
theorem flush_freezes_only_when_behind (c : Consts) (env : FlushEnv) (fuel : Nat)
    (m : ObTxDataMemtableMgr) (recycle_log_ts : Int) (need_freeze : Bool) :
    (∀ r, flush c env fuel m recycle_log_ts need_freeze = some r → r.freeze_called = true →
      need_freeze = true ∧ get_rec_log_ts c env.table m < recycle_log_ts) ∧
    ((need_freeze = false ∨ get_rec_log_ts c env.table m ≥ recycle_log_ts) →
      ∃ r, flush c env fuel m recycle_log_ts need_freeze = some r ∧
        r.freeze_called = false ∧ r.mgr = m) ∧
    (get_memtable_count_ m ≤ 0 → get_rec_log_ts c env.table m = INT64_MAX) ∧
    (get_rec_log_ts c env.table m = INT64_MAX ∨
      ∃ t, table_at c m m.memtable_head_ = some t ∧ 0 < get_memtable_count_ m ∧
        get_rec_log_ts c env.table m = t.rec_log_ts_) := by
  have hstep : ∀ (ret : ObRet) (m1 : ObTxDataMemtableMgr) (b : Bool),
      (flush_tables_step c env ret m1 b).freeze_called = b ∧
      (flush_tables_step c env ret m1 b).mgr = m1 := by
    intro ret m1 b
    unfold flush_tables_step
    dsimp only
    split_ifs <;> exact ⟨rfl, rfl⟩
  refine ⟨?_, ?_, get_rec_log_ts_empty c env.table m, get_rec_log_ts_oldest c env.table m⟩
  · intro r hr hcalled
    unfold flush at hr
    cases hnf : need_freeze with
    | false =>
      simp [flush_freeze_step, hnf] at hr
      rw [← hr, (hstep _ _ _).1] at hcalled
      exact absurd hcalled (by simp)
    | true =>
      refine ⟨rfl, ?_⟩
      by_contra hge
      have hge' : get_rec_log_ts c env.table m ≥ recycle_log_ts := by omega
      simp [flush_freeze_step, hnf, hge'] at hr
      rw [← hr, (hstep _ _ _).1] at hcalled
      exact absurd hcalled (by simp)
  · intro h
    cases hnf : need_freeze with
    | false =>
      refine ⟨flush_tables_step c env ObRet.OB_SUCCESS m false, ?_, (hstep _ _ _).1, (hstep _ _ _).2⟩
      simp [flush, flush_freeze_step]
    | true =>
      have hge : get_rec_log_ts c env.table m ≥ recycle_log_ts := by
        rcases h with h | h
        · rw [hnf] at h; exact absurd h (by simp)
        · exact h
      refine ⟨flush_tables_step c env ObRet.OB_SUCCESS m false, ?_, (hstep _ _ _).1, (hstep _ _ _).2⟩
      simp [flush, flush_freeze_step, hge, new_guard_reset]

/-- A `flush` that freezes (`rec_log_ts = 0 < 100`) and one that does not (`0 ≥ 0`). -/
theorem flush_freezes_only_when_behind_witness :
    (true = true ∧ get_rec_log_ts sample_consts (ok_flush (raw_table 8 3) 40).table one_table_mgr
        < 100) ∧
    (∃ r, flush sample_consts (ok_flush (raw_table 8 3) 40) 1 one_table_mgr 0 true = some r ∧
      r.freeze_called = false ∧ r.mgr = one_table_mgr) :=
  ⟨(flush_freezes_only_when_behind sample_consts (ok_flush (raw_table 8 3) 40) 1 one_table_mgr
      100 true).1 _ rfl rfl,
   (flush_freezes_only_when_behind sample_consts (ok_flush (raw_table 8 3) 40) 1 one_table_mgr
      0 true).2.1 (Or.inr (by decide))⟩

/-! ## C9 -/

theorem GuardSystem.Inv_start (m : ObTxDataMemtableMgr) : (GuardSystem.start m).Inv := by
  refine ⟨?_, ?_, ?_⟩ <;> intro i <;>
    simp [GuardSystem.start, TxDataMemtableMgrFreezeGuard.new]

theorem GuardSystem.Inv_reset (s : GuardSystem) (i : Nat) (h : s.Inv) :
    ((GuardCall.reset i).run_on s).Inv := by
  obtain ⟨h1, h2, h3⟩ := h
  by_cases hg : (s.guards i).memtable_mgr_ = true
  · refine ⟨?_, ?_, ?_⟩
    · intro k hk
      by_cases hki : k = i
      · subst hki
        simp [GuardCall.run_on, TxDataMemtableMgrFreezeGuard.reset, hg] at hk
      · simp only [GuardCall.run_on, Function.update_noteq hki] at hk ⊢
        exact h1 k hk
    · intro k hk
      by_cases hki : k = i
      · subst hki
        simp [GuardCall.run_on, TxDataMemtableMgrFreezeGuard.reset, hg] at hk
      · simp only [GuardCall.run_on, Function.update_noteq hki] at hk
        exact absurd (h3 k i hk hg) hki
    · intro k l hk hl
      by_cases hki : k = i
      · subst hki
        simp [GuardCall.run_on, TxDataMemtableMgrFreezeGuard.reset, hg] at hk
      · by_cases hli : l = i
        · subst hli
          simp [GuardCall.run_on, TxDataMemtableMgrFreezeGuard.reset, hg] at hl
        · simp only [GuardCall.run_on, Function.update_noteq hki] at hk
          simp only [GuardCall.run_on, Function.update_noteq hli] at hl
          exact h3 k l hk hl
  · have hg' : (s.guards i).memtable_mgr_ = false := by simpa using hg
    refine ⟨?_, ?_, ?_⟩
    · intro k hk
      by_cases hki : k = i
      · subst hki
        simp [GuardCall.run_on, TxDataMemtableMgrFreezeGuard.reset, hg'] at hk
      · simp only [GuardCall.run_on, Function.update_noteq hki] at hk ⊢
        exact h1 k hk
    · intro k hk
      by_cases hki : k = i
      · subst hki
        simp [GuardCall.run_on, TxDataMemtableMgrFreezeGuard.reset, hg'] at hk
      · simp only [GuardCall.run_on, Function.update_noteq hki] at hk
        simp only [GuardCall.run_on, TxDataMemtableMgrFreezeGuard.reset, hg']
        exact h2 k hk
    · intro k l hk hl
      by_cases hki : k = i
      · subst hki
        simp [GuardCall.run_on, TxDataMemtableMgrFreezeGuard.reset, hg'] at hk
      · by_cases hli : l = i
        · subst hli
          simp [GuardCall.run_on, TxDataMemtableMgrFreezeGuard.reset, hg'] at hl
        · simp only [GuardCall.run_on, Function.update_noteq hki] at hk
          simp only [GuardCall.run_on, Function.update_noteq hli] at hl
          exact h3 k l hk hl

theorem reset_guard_fields (g : TxDataMemtableMgrFreezeGuard) (m : ObTxDataMemtableMgr) :
    (g.reset m).1.can_freeze_ = false ∧ (g.reset m).1.memtable_mgr_ = false := by
  unfold TxDataMemtableMgrFreezeGuard.reset
  cases hg : g.memtable_mgr_ <;> simp [hg]

theorem guard_with_can_freeze_false (g : TxDataMemtableMgrFreezeGuard)
    (h : g.can_freeze_ = false) :
    ({ g with can_freeze_ := false } : TxDataMemtableMgrFreezeGuard) = g := by
  cases g
  simp_all

theorem GuardSystem.Inv_init (s : GuardSystem) (i : Nat) (is_null : Bool) (h : s.Inv) :
    ((GuardCall.init i is_null).run_on s).Inv := by
  have hr := GuardSystem.Inv_reset s i h
  obtain ⟨r1, r2, r3⟩ := hr
  have hf := reset_guard_fields (s.guards i) s.mgr
  simp only [GuardCall.run_on] at r1 r2 r3
  cases hn : is_null with
  | true =>
    have e1 : ((s.guards i).init true s.mgr).2.1 = ((s.guards i).reset s.mgr).1 := by
      simp [TxDataMemtableMgrFreezeGuard.init]
    have e2 : ((s.guards i).init true s.mgr).2.2 = ((s.guards i).reset s.mgr).2 := by
      simp [TxDataMemtableMgrFreezeGuard.init]
    simp only [GuardCall.run_on, GuardSystem.Inv, e1, e2]
    exact ⟨r1, r2, r3⟩
  | false =>
    cases hflag : ((s.guards i).reset s.mgr).2.is_freezing_ with
    | true =>
      have e1 : ((s.guards i).init false s.mgr).2.1 = ((s.guards i).reset s.mgr).1 := by
        simp only [TxDataMemtableMgrFreezeGuard.init, hflag]
        exact guard_with_can_freeze_false _ hf.1
      have e2 : ((s.guards i).init false s.mgr).2.2 = ((s.guards i).reset s.mgr).2 := by
        simp [TxDataMemtableMgrFreezeGuard.init, hflag]
      simp only [GuardCall.run_on, GuardSystem.Inv, e1, e2]
      exact ⟨r1, r2, r3⟩
    | false =>
      have e1 : ((s.guards i).init false s.mgr).2.1
          = { can_freeze_ := true, memtable_mgr_ := true } := by
        simp [TxDataMemtableMgrFreezeGuard.init, hflag]
      have e2 : ((s.guards i).init false s.mgr).2.2.is_freezing_ = true := by
        simp [TxDataMemtableMgrFreezeGuard.init, hflag]
      have hnone : ∀ k, k ≠ i → (s.guards k).memtable_mgr_ = true → False := by
        intro k hki hk
        have := r2 k (by simpa [Function.update_noteq hki] using hk)
        rw [hflag] at this
        exact absurd this (by simp)
      simp only [GuardCall.run_on, GuardSystem.Inv, e1, e2]
      refine ⟨?_, ?_, ?_⟩
      · intro k hk
        by_cases hki : k = i
        · subst hki; simp
        · simp only [Function.update_noteq hki] at hk ⊢
          exact h.1 k hk
      · intro k _
        trivial
      · intro k l hk hl
        by_cases hki : k = i
        · by_cases hli : l = i
          · rw [hki, hli]
          · simp only [Function.update_noteq hli] at hl
            exact (hnone l hli hl).elim
        · simp only [Function.update_noteq hki] at hk
          exact (hnone k hki hk).elim

theorem GuardSystem.Inv_run (calls : List GuardCall) (s : GuardSystem) (h : s.Inv) :
    (GuardSystem.run calls s).Inv := by
  induction calls generalizing s with
  | nil => exact h
  | cons call rest ih =>
    cases call with
    | init i is_null => exact ih _ (GuardSystem.Inv_init s i is_null h)
    | reset i => exact ih _ (GuardSystem.Inv_reset s i h)

theorem flush_skips_freeze_when_freezing (c : Consts) (env : FlushEnv) (fuel : Nat)
    (m : ObTxDataMemtableMgr) (recycle_log_ts : Int) (need_freeze : Bool)
    (hflag : m.is_freezing_ = true) :
    ∃ r, flush c env fuel m recycle_log_ts need_freeze = some r ∧ r.freeze_called = false := by
  have hstep : ∀ (ret : ObRet) (m1 : ObTxDataMemtableMgr) (b : Bool),
      (flush_tables_step c env ret m1 b).freeze_called = b := by
    intro ret m1 b
    unfold flush_tables_step
    dsimp only
    split_ifs <;> rfl
  cases hnf : need_freeze with
  | false =>
    exact ⟨flush_tables_step c env ObRet.OB_SUCCESS m false,
      by simp [flush, flush_freeze_step], hstep _ _ _⟩
  | true =>
    by_cases hge : get_rec_log_ts c env.table m ≥ recycle_log_ts
    · exact ⟨flush_tables_step c env ObRet.OB_SUCCESS m false,
        by simp [flush, flush_freeze_step, hge, new_guard_reset], hstep _ _ _⟩
    · refine ⟨flush_tables_step c env ObRet.OB_SUCCESS m false, ?_, hstep _ _ _⟩
      simp [flush, flush_freeze_step, hge, TxDataMemtableMgrFreezeGuard.init,
        TxDataMemtableMgrFreezeGuard.reset, TxDataMemtableMgrFreezeGuard.new,
        TxDataMemtableMgrFreezeGuard.can_freeze, hflag, OB_FAIL]

/-- C9: starting from freshly constructed guards, after any interleaving of `init` and `reset` calls on the guards of that manager
(each call taken as one atomic step on the flag): at most one guard reports
`can_freeze() == true`; while a guard reports it, `init` of any other guard returns
`OB_SUCCESS` with `can_freeze() == false`; and `flush` on the manager then returns
without calling `freeze()`. -/
theorem freeze_guard_single_flight (m : ObTxDataMemtableMgr) (calls : List GuardCall) :
    (∀ i j, ((GuardSystem.run calls (GuardSystem.start m)).guards i).can_freeze = true →
        ((GuardSystem.run calls (GuardSystem.start m)).guards j).can_freeze = true → i = j) ∧
    (∀ j, ((GuardSystem.run calls (GuardSystem.start m)).guards j).can_freeze = true →
      ∀ i, i ≠ j →
        (((GuardSystem.run calls (GuardSystem.start m)).guards i).init false
            (GuardSystem.run calls (GuardSystem.start m)).mgr).1 = ObRet.OB_SUCCESS ∧
        (((GuardSystem.run calls (GuardSystem.start m)).guards i).init false
            (GuardSystem.run calls (GuardSystem.start m)).mgr).2.1.can_freeze = false) ∧
    (∀ j, ((GuardSystem.run calls (GuardSystem.start m)).guards j).can_freeze = true →
      ∀ (c : Consts) (env : FlushEnv) (fuel : Nat) (recycle_log_ts : Int) (need_freeze : Bool),
        ∃ r, flush c env fuel (GuardSystem.run calls (GuardSystem.start m)).mgr
            recycle_log_ts need_freeze = some r ∧ r.freeze_called = false) := by
  have hinv := GuardSystem.Inv_run calls (GuardSystem.start m) (GuardSystem.Inv_start m)
  generalize GuardSystem.run calls (GuardSystem.start m) = s at hinv
  obtain ⟨h1, h2, h3⟩ := hinv
  refine ⟨?_, ?_, ?_⟩
  · intro i j hi hj
    exact h3 i j (h1 i hi) (h1 j hj)
  · intro j hj i hij
    have hjm := h1 j hj
    have hfl := h2 j hjm
    have him : (s.guards i).memtable_mgr_ = false := by
      by_contra hcon
      have : (s.guards i).memtable_mgr_ = true := by simpa using hcon
      exact hij (h3 i j this hjm)
    simp [TxDataMemtableMgrFreezeGuard.init, TxDataMemtableMgrFreezeGuard.reset, him, hfl,
      TxDataMemtableMgrFreezeGuard.can_freeze]
  · intro j hj c env fuel recycle_log_ts need_freeze
    exact flush_skips_freeze_when_freezing c env fuel s.mgr recycle_log_ts need_freeze
      (h2 j (h1 j hj))

/-- Two guards initialised one after the other on the same manager. -/
theorem freeze_guard_single_flight_witness :
    ((GuardSystem.run [GuardCall.init 0 false, GuardCall.init 1 false]
        (GuardSystem.start fresh_mgr)).guards 0).can_freeze = true ∧
    ((GuardSystem.run [GuardCall.init 0 false, GuardCall.init 1 false]
        (GuardSystem.start fresh_mgr)).guards 1).can_freeze = false ∧
    ((((GuardSystem.run [GuardCall.init 0 false, GuardCall.init 1 false]
          (GuardSystem.start fresh_mgr)).guards 1).init false
        (GuardSystem.run [GuardCall.init 0 false, GuardCall.init 1 false]
          (GuardSystem.start fresh_mgr)).mgr).1 = ObRet.OB_SUCCESS ∧
     (((GuardSystem.run [GuardCall.init 0 false, GuardCall.init 1 false]
          (GuardSystem.start fresh_mgr)).guards 1).init false
        (GuardSystem.run [GuardCall.init 0 false, GuardCall.init 1 false]
          (GuardSystem.start fresh_mgr)).mgr).2.1.can_freeze = false) ∧
    (∃ r, flush sample_consts (ok_flush (raw_table 8 3) 40) 1
        (GuardSystem.run [GuardCall.init 0 false, GuardCall.init 1 false]
          (GuardSystem.start fresh_mgr)).mgr 100 true = some r ∧ r.freeze_called = false) :=
  ⟨by decide, by decide,
   (freeze_guard_single_flight fresh_mgr [GuardCall.init 0 false, GuardCall.init 1 false]).2.1
     0 (by decide) 1 (by decide),
   (freeze_guard_single_flight fresh_mgr [GuardCall.init 0 false, GuardCall.init 1 false]).2.2
     0 (by decide) sample_consts (ok_flush (raw_table 8 3) 40) 1 100 true⟩

/-! ## C18 -/

/-- A `freeze` that returns leaves `is_freezing_` as it was. -/
theorem freeze_keeps_is_freezing (c : Consts) (env : FreezeEnv) (fuel : Nat)
    (m : ObTxDataMemtableMgr) (r : ObRet × ObTxDataMemtableMgr)
    (h : freeze c env fuel m = some r) : r.2.is_freezing_ = m.is_freezing_ := by
  rcases freeze_cases c env fuel m r h with ⟨_, hm⟩ | ⟨_, _, _, t, hm⟩ |
    ⟨_, _, _, _, fm, raw, _, _, _, _, hm⟩
  · rw [hm]
  · rw [hm]; rfl
  · rw [hm]; rfl

theorem new_guard_init_free (m : ObTxDataMemtableMgr) (h : m.is_freezing_ = false) :
    TxDataMemtableMgrFreezeGuard.new.init false m =
      (ObRet.OB_SUCCESS, { can_freeze_ := true, memtable_mgr_ := true },
        { m with is_freezing_ := true }) := by
  simp [TxDataMemtableMgrFreezeGuard.init, TxDataMemtableMgrFreezeGuard.reset,
    TxDataMemtableMgrFreezeGuard.new, h]

theorem new_guard_init_busy (m : ObTxDataMemtableMgr) (h : m.is_freezing_ = true) :
    TxDataMemtableMgrFreezeGuard.new.init false m =
      (ObRet.OB_SUCCESS, { can_freeze_ := false, memtable_mgr_ := false }, m) := by
  simp [TxDataMemtableMgrFreezeGuard.init, TxDataMemtableMgrFreezeGuard.reset,
    TxDataMemtableMgrFreezeGuard.new, h]

/-- The first block of `flush`, with its guard, leaves `is_freezing_` as it was. -/
theorem flush_freeze_step_keeps_is_freezing (c : Consts) (env : FlushEnv) (fuel : Nat)
    (m : ObTxDataMemtableMgr) (recycle_log_ts : Int) (need_freeze : Bool)
    (r : ObRet × ObTxDataMemtableMgr × Bool)
    (h : flush_freeze_step c env fuel m recycle_log_ts need_freeze = some r) :
    r.2.1.is_freezing_ = m.is_freezing_ := by
  unfold flush_freeze_step at h
  cases hnf : need_freeze with
  | false =>
    simp [hnf] at h
    rw [← h]
  | true =>
    simp only [hnf, if_true] at h
    by_cases hge : get_rec_log_ts c env.table m ≥ recycle_log_ts
    · simp only [hge, if_true, new_guard_reset] at h
      simp at h
      rw [← h]
    · simp only [hge, if_false] at h
      cases hflag : m.is_freezing_ with
      | true =>
        rw [new_guard_init_busy m hflag] at h
        simp [TxDataMemtableMgrFreezeGuard.reset, TxDataMemtableMgrFreezeGuard.can_freeze,
          OB_FAIL] at h
        rw [← h]
        exact hflag
      | false =>
        rw [new_guard_init_free m hflag] at h
        simp only [TxDataMemtableMgrFreezeGuard.can_freeze, OB_FAIL] at h
        cases hf : freeze c env.freeze fuel { m with is_freezing_ := true } with
        | none => simp [hf] at h
        | some fr =>
          simp [hf, TxDataMemtableMgrFreezeGuard.reset] at h
          rw [← h]

theorem flush_tables_step_fields (c : Consts) (env : FlushEnv) (ret : ObRet)
    (m1 : ObTxDataMemtableMgr) (b : Bool) :
    (flush_tables_step c env ret m1 b).freeze_called = b ∧
    (flush_tables_step c env ret m1 b).mgr = m1 := by
  unfold flush_tables_step
  dsimp only
  split_ifs <;> exact ⟨rfl, rfl⟩

theorem guard_reset_of_unset (g : TxDataMemtableMgrFreezeGuard) (m2 : ObTxDataMemtableMgr)
    (h : g.memtable_mgr_ = false) : (g.reset m2).2 = m2 := by
  simp [TxDataMemtableMgrFreezeGuard.reset, h]

theorem guard_reset_of_set (g : TxDataMemtableMgrFreezeGuard) (m2 : ObTxDataMemtableMgr)
    (h : g.memtable_mgr_ = true) : (g.reset m2).2.is_freezing_ = false := by
  simp [TxDataMemtableMgrFreezeGuard.reset, h]

/-- After `init` a guard either reports `can_freeze()`, holds the pointer and has set the
flag, or does not report it and holds no pointer. -/
theorem guard_init_outcome (g : TxDataMemtableMgrFreezeGuard) (is_null : Bool)
    (m : ObTxDataMemtableMgr) :
    ((g.init is_null m).2.1.can_freeze_ = true ∧ (g.init is_null m).2.1.memtable_mgr_ = true ∧
      (g.init is_null m).2.2.is_freezing_ = true) ∨
    ((g.init is_null m).2.1.can_freeze_ = false ∧
      (g.init is_null m).2.1.memtable_mgr_ = false) := by
  have hf := reset_guard_fields g m
  unfold TxDataMemtableMgrFreezeGuard.init
  generalize g.reset m = r at hf
  obtain ⟨g1, m1⟩ := r
  simp only at hf
  cases is_null with
  | true => right; simpa using hf
  | false =>
    cases hflag : m1.is_freezing_ with
    | true => right; simp [hflag, hf.2]
    | false => left; simp [hflag]

theorem tenant_guard_reset_of_unset (g : ObTenantTxDataFreezeGuard) (f2 : ObTenantFreezer)
    (h : g.tenant_freezer_ = false) : (g.reset f2).2 = f2 := by
  simp [ObTenantTxDataFreezeGuard.reset, h]

theorem tenant_guard_reset_of_set (g : ObTenantTxDataFreezeGuard) (f2 : ObTenantFreezer)
    (h : g.tenant_freezer_ = true) : (g.reset f2).2.is_freezing_tx_data_ = false := by
  simp [ObTenantTxDataFreezeGuard.reset, h]

theorem tenant_guard_init_outcome (g : ObTenantTxDataFreezeGuard) (is_null : Bool)
    (f : ObTenantFreezer) :
    ((g.init is_null f).2.1.can_freeze_ = true ∧ (g.init is_null f).2.1.tenant_freezer_ = true ∧
      (g.init is_null f).2.2.is_freezing_tx_data_ = true) ∨
    ((g.init is_null f).2.1.can_freeze_ = false ∧
      (g.init is_null f).2.1.tenant_freezer_ = false) := by
  have hf : (g.reset f).1.can_freeze_ = false ∧ (g.reset f).1.tenant_freezer_ = false := by
    unfold ObTenantTxDataFreezeGuard.reset
    cases hg : g.tenant_freezer_ <;> simp [hg]
  unfold ObTenantTxDataFreezeGuard.init
  generalize g.reset f = r at hf
  obtain ⟨g1, f1⟩ := r
  simp only at hf
  cases is_null with
  | true => right; simpa using hf
  | false =>
    cases hflag : f1.is_freezing_tx_data_ with
    | true => right; simp [hflag, hf.2]
    | false => left; simp [hflag]

/-- C18: a freeze guard whose `init` acquired the flag (`can_freeze()` is true, the flag is
then set) sets the flag back to false on `reset` or destruction, whatever state the
freeze attempt left behind; a guard whose `init` did not acquire the flag leaves the
object untouched on `reset` or destruction. This holds for
`TxDataMemtableMgrFreezeGuard` and for `ObTenantTxDataFreezeGuard`; and a `flush` that
returns, with a successful or a failed freeze, leaves `is_freezing_` as it found it. -/
theorem freeze_guard_releases_flag :
    (∀ (g : TxDataMemtableMgrFreezeGuard) (is_null : Bool) (m m2 : ObTxDataMemtableMgr),
      ((g.init is_null m).2.1.can_freeze = true →
        (g.init is_null m).2.2.is_freezing_ = true ∧
        ((g.init is_null m).2.1.reset m2).2.is_freezing_ = false) ∧
      ((g.init is_null m).2.1.can_freeze = false →
        ((g.init is_null m).2.1.reset m2).2 = m2)) ∧
    (∀ (g : ObTenantTxDataFreezeGuard) (is_null : Bool) (f f2 : ObTenantFreezer),
      ((g.init is_null f).2.1.can_freeze = true →
        (g.init is_null f).2.2.is_freezing_tx_data_ = true ∧
        ((g.init is_null f).2.1.reset f2).2.is_freezing_tx_data_ = false) ∧
      ((g.init is_null f).2.1.can_freeze = false →
        ((g.init is_null f).2.1.reset f2).2 = f2)) ∧
    (∀ (c : Consts) (env : FlushEnv) (fuel : Nat) (m : ObTxDataMemtableMgr)
      (recycle_log_ts : Int) (need_freeze : Bool) (r : FlushResult),
      flush c env fuel m recycle_log_ts need_freeze = some r →
      r.mgr.is_freezing_ = m.is_freezing_) := by
  refine ⟨?_, ?_, ?_⟩
  · intro g is_null m m2
    simp only [TxDataMemtableMgrFreezeGuard.can_freeze]
    rcases guard_init_outcome g is_null m with ⟨h1, h2, h3⟩ | ⟨h1, h2⟩
    · exact ⟨fun _ => ⟨h3, guard_reset_of_set _ m2 h2⟩, fun h => (by rw [h1] at h; cases h)⟩
    · exact ⟨fun h => (by rw [h1] at h; cases h), fun _ => guard_reset_of_unset _ m2 h2⟩
  · intro g is_null f f2
    simp only [ObTenantTxDataFreezeGuard.can_freeze]
    rcases tenant_guard_init_outcome g is_null f with ⟨h1, h2, h3⟩ | ⟨h1, h2⟩
    · exact ⟨fun _ => ⟨h3, tenant_guard_reset_of_set _ f2 h2⟩, fun h => (by rw [h1] at h; cases h)⟩
    · exact ⟨fun h => (by rw [h1] at h; cases h), fun _ => tenant_guard_reset_of_unset _ f2 h2⟩
  · intro c env fuel m recycle_log_ts need_freeze r h
    unfold flush at h
    cases hs : flush_freeze_step c env fuel m recycle_log_ts need_freeze with
    | none => simp [hs] at h
    | some s =>
      obtain ⟨ret, m1, called⟩ := s
      simp only [hs, Option.some.injEq] at h
      rw [← h, (flush_tables_step_fields c env ret m1 called).2]
      exact flush_freeze_step_keeps_is_freezing c env fuel m recycle_log_ts need_freeze _ hs

/-- A guard that acquires the flag of a free manager and releases it on a manager left
busy, a guard that fails on a busy manager, the same for a tenant freezer, and a `flush`
that freezes. -/
theorem freeze_guard_releases_flag_witness :
    ((TxDataMemtableMgrFreezeGuard.new.init false fresh_mgr).2.2.is_freezing_ = true ∧
      ((TxDataMemtableMgrFreezeGuard.new.init false fresh_mgr).2.1.reset busy_mgr).2.is_freezing_
        = false) ∧
    ((TxDataMemtableMgrFreezeGuard.new.init false busy_mgr).2.1.reset busy_mgr).2 = busy_mgr ∧
    ((ObTenantTxDataFreezeGuard.new.init false { is_freezing_tx_data_ := false }).2.2.is_freezing_tx_data_
        = true ∧
      ((ObTenantTxDataFreezeGuard.new.init false { is_freezing_tx_data_ := false }).2.1.reset
        { is_freezing_tx_data_ := true }).2.is_freezing_tx_data_ = false) ∧
    ((ObTenantTxDataFreezeGuard.new.init false { is_freezing_tx_data_ := true }).2.1.reset
        { is_freezing_tx_data_ := true }).2 = { is_freezing_tx_data_ := true } ∧
    (∃ r, flush sample_consts (ok_flush (raw_table 8 3) 40) 1 one_table_mgr 100 true = some r ∧
      r.freeze_called = true ∧ r.mgr.is_freezing_ = one_table_mgr.is_freezing_) :=
  ⟨(freeze_guard_releases_flag.1 TxDataMemtableMgrFreezeGuard.new false fresh_mgr busy_mgr).1
      (by decide),
   (freeze_guard_releases_flag.1 TxDataMemtableMgrFreezeGuard.new false busy_mgr busy_mgr).2
      (by decide),
   (freeze_guard_releases_flag.2.1 ObTenantTxDataFreezeGuard.new false
      { is_freezing_tx_data_ := false } { is_freezing_tx_data_ := true }).1 (by decide),
   (freeze_guard_releases_flag.2.1 ObTenantTxDataFreezeGuard.new false
      { is_freezing_tx_data_ := true } { is_freezing_tx_data_ := true }).2 (by decide),
   ⟨_, rfl, rfl,
    freeze_guard_releases_flag.2.2 sample_consts (ok_flush (raw_table 8 3) 40) 1 one_table_mgr
      100 true _ rfl⟩⟩

/-! ## C24 -/

/-- C24: when `flush` is called with `need_freeze = true`, the recycle point lies beyond
`get_rec_log_ts()`, no other freeze holds the manager and the `freeze()` it then calls
returns an error, `flush` returns that error, has called `freeze()`, calls `flush()` on no
memtable and does not update the memtables cache; the manager is the one the failed
freeze left, with the freeze flag released. -/
theorem flush_returns_freeze_error (c : Consts) (env : FlushEnv) (fuel : Nat)
    (m : ObTxDataMemtableMgr) (recycle_log_ts : Int) (fr : ObRet × ObTxDataMemtableMgr)
    (hrec : get_rec_log_ts c env.table m < recycle_log_ts)
    (hfree : m.is_freezing_ = false)
    (hfreeze : freeze c env.freeze fuel { m with is_freezing_ := true } = some fr)
    (hfail : fr.1 ≠ ObRet.OB_SUCCESS) :
    flush c env fuel m recycle_log_ts true
      = some { ret := fr.1, mgr := { fr.2 with is_freezing_ := false }, freeze_called := true,
               flushed := [], cache_updated := false } := by
  have hnot : ¬ get_rec_log_ts c env.table m ≥ recycle_log_ts := by omega
  have hf : OB_FAIL fr.1 = true := (OB_FAIL_iff _).2 hfail
  have hstep : flush_freeze_step c env fuel m recycle_log_ts true
      = some (fr.1, { fr.2 with is_freezing_ := false }, true) := by
    unfold flush_freeze_step
    simp only [if_true]
    rw [if_neg hnot, new_guard_init_free m hfree]
    simp [OB_FAIL, TxDataMemtableMgrFreezeGuard.can_freeze, hfreeze,
      TxDataMemtableMgrFreezeGuard.reset]
  unfold flush
  rw [hstep]
  simp [flush_tables_step, hf]

/-- With two tables held (`MAX_TX_DATA_MEMTABLE_CNT = 2`) the freeze answers `OB_EAGAIN`
and the frozen table 7, which a `flush` without freeze does flush, is not flushed; with an
empty active table the freeze answers `OB_STATE_NOT_MATCH`. -/
theorem flush_returns_freeze_error_witness :
    (flush sample_consts (ready_flush (raw_table 9 3) 50) 1 two_table_mgr 100 true).map
        (fun r => (r.ret, r.freeze_called, r.flushed))
      = some (ObRet.OB_EAGAIN, true, []) ∧
    (flush sample_consts (ready_flush (raw_table 9 3) 50) 1 empty_active_mgr 100 true).map
        (fun r => (r.ret, r.freeze_called, r.flushed))
      = some (ObRet.OB_STATE_NOT_MATCH, true, []) ∧
    (flush sample_consts (ready_flush (raw_table 9 3) 50) 1 two_table_mgr 100 false).map
        (fun r => (r.ret, r.freeze_called, r.flushed.map (fun t => t.addr)))
      = some (ObRet.OB_SUCCESS, false, [7]) :=
  ⟨congrArg (Option.map (fun r => (r.ret, r.freeze_called, r.flushed)))
      (flush_returns_freeze_error sample_consts (ready_flush (raw_table 9 3) 50) 1
        two_table_mgr 100 (ObRet.OB_EAGAIN, { two_table_mgr with is_freezing_ := true })
        (by decide) rfl rfl (by decide)),
   congrArg (Option.map (fun r => (r.ret, r.freeze_called, r.flushed)))
      (flush_returns_freeze_error sample_consts (ready_flush (raw_table 9 3) 50) 1
        empty_active_mgr 100
        (ObRet.OB_STATE_NOT_MATCH, { empty_active_mgr with is_freezing_ := true })
        (by decide) rfl rfl (by decide)),
   by decide⟩

/-! ## C25 -/

/-- C25: `is_flushing()` is true if and only if the table count
`memtable_tail_ - memtable_head_` differs from 1; it is true for a manager that holds no
table and false for one that holds its active table only. -/
theorem is_flushing_spec (m : ObTxDataMemtableMgr) :
    (is_flushing m = true ↔ get_memtable_count_ m ≠ 1) ∧
    (is_flushing m = false ↔ get_memtable_count_ m = 1) ∧
    is_flushing fresh_mgr = true ∧
    is_flushing one_table_mgr = false ∧
    is_flushing two_table_mgr = true := by
  have h1 : is_flushing m = true ↔ get_memtable_count_ m ≠ 1 := by
    unfold is_flushing get_memtable_count_
    rw [bne_iff_ne]
    constructor <;> intro h <;> omega
  refine ⟨h1, ?_, by decide, by decide, by decide⟩
  rw [← Bool.not_eq_true, h1]
  exact not_not

/-! ## C26 -/

/-- The call on a manager whose head slot holds the table whose address is passed. -/
theorem release_head_memtable__of_head (c : Consts) (m : ObTxDataMemtableMgr)
    (t : ObTxDataMemtable) (hpos : 0 < get_memtable_count_ m)
    (hslot : table_at c m m.memtable_head_ = some t) :
    release_head_memtable_ c m (some t.addr)
      = (ObRet.OB_SUCCESS, release_head_memtable c m,
          some { t with state_ := State.RELEASED }) := by
  unfold table_at at hslot
  simp [release_head_memtable_, hpos, hslot]

/-- The call on a manager that holds a table, with an address that is not the one of the
table in the head slot. -/
theorem release_head_memtable__of_other (c : Consts) (m : ObTxDataMemtableMgr)
    (imemtable : Option Nat) (hpos : 0 < get_memtable_count_ m)
    (hno : ¬ ∃ t, table_at c m m.memtable_head_ = some t ∧ imemtable = some t.addr) :
    release_head_memtable_ c m imemtable = (ObRet.OB_INVALID_ARGUMENT, m, none) := by
  unfold table_at at hno
  unfold release_head_memtable_
  rw [if_pos hpos]
  cases hslot : m.tables_ (get_memtable_idx c m.memtable_head_) with
  | none => rfl
  | some t0 =>
    have haddr : ¬ imemtable = some t0.addr := fun ha => hno ⟨t0, hslot, ha⟩
    simp [haddr]

/-- C26: on a manager that holds a table, `release_head_memtable_(m)` returns
`OB_SUCCESS` exactly when the head slot holds a table and `m` is its address; then that
table is set to RELEASED whatever its state was, the head moves on by one and the tail
and every other slot stay; otherwise it returns `OB_INVALID_ARGUMENT`, writes to no table
and leaves the manager as it was. On a manager that holds no table it returns
`OB_SUCCESS` and changes nothing. -/
theorem release_head_memtable__spec (c : Consts) (m : ObTxDataMemtableMgr)
    (imemtable : Option Nat) :
    (0 < get_memtable_count_ m →
      ((release_head_memtable_ c m imemtable).1 = ObRet.OB_SUCCESS ↔
        ∃ t, table_at c m m.memtable_head_ = some t ∧ imemtable = some t.addr) ∧
      (∀ t, table_at c m m.memtable_head_ = some t → imemtable = some t.addr →
        (release_head_memtable_ c m imemtable).2.2 = some { t with state_ := State.RELEASED } ∧
        (release_head_memtable_ c m imemtable).2.1.memtable_head_ = m.memtable_head_ + 1 ∧
        (release_head_memtable_ c m imemtable).2.1.memtable_tail_ = m.memtable_tail_ ∧
        ∀ i, i ≠ get_memtable_idx c m.memtable_head_ →
          (release_head_memtable_ c m imemtable).2.1.tables_ i = m.tables_ i) ∧
      ((¬ ∃ t, table_at c m m.memtable_head_ = some t ∧ imemtable = some t.addr) →
        release_head_memtable_ c m imemtable = (ObRet.OB_INVALID_ARGUMENT, m, none))) ∧
    (get_memtable_count_ m ≤ 0 →
      release_head_memtable_ c m imemtable = (ObRet.OB_SUCCESS, m, none)) := by
  refine ⟨fun hpos => ⟨?_, ?_, release_head_memtable__of_other c m imemtable hpos⟩,
    fun hle => ?_⟩
  · constructor
    · intro hok
      by_contra hno
      rw [release_head_memtable__of_other c m imemtable hpos hno] at hok
      cases hok
    · rintro ⟨t, ht, ha⟩
      rw [ha, release_head_memtable__of_head c m t hpos ht]
  · intro t ht ha
    rw [ha, release_head_memtable__of_head c m t hpos ht]
    refine ⟨rfl, rfl, rfl, ?_⟩
    intro i hi
    simp [release_head_memtable, Function.update, hi]
  · unfold release_head_memtable_
    rw [if_neg (by omega)]

/-- The single ACTIVE table 7 of `one_table_mgr` is released through its address; the
address of the tail table 8 of `two_table_mgr` is refused; a manager with no table
answers `OB_SUCCESS` and stays as it is. -/
theorem release_head_memtable__spec_witness :
    0 < get_memtable_count_ one_table_mgr ∧
    (table_at sample_consts one_table_mgr one_table_mgr.memtable_head_).map
        (fun t => (t.addr, t.state_)) = some (7, State.ACTIVE) ∧
    (release_head_memtable_ sample_consts one_table_mgr (some 7)).1 = ObRet.OB_SUCCESS ∧
    (release_head_memtable_ sample_consts one_table_mgr (some 7)).2.2.map
        (fun t => (t.addr, t.state_)) = some (7, State.RELEASED) ∧
    (release_head_memtable_ sample_consts one_table_mgr (some 7)).2.1.memtable_head_ = 1 ∧
    release_head_memtable_ sample_consts two_table_mgr (some 8)
      = (ObRet.OB_INVALID_ARGUMENT, two_table_mgr, none) ∧
    release_head_memtable_ sample_consts fresh_mgr (some 7)
      = (ObRet.OB_SUCCESS, fresh_mgr, none) := by
  have hno : ¬ ∃ t, table_at sample_consts two_table_mgr two_table_mgr.memtable_head_ = some t ∧
      (some 8 : Option Nat) = some t.addr := by
    rintro ⟨t, ht, ha⟩
    have h7 : (table_at sample_consts two_table_mgr two_table_mgr.memtable_head_).map
        (fun t => t.addr) = some 7 := by decide
    rw [ht] at h7
    simp at h7 ha
    omega
  exact ⟨by decide, by decide,
    ((release_head_memtable__spec sample_consts one_table_mgr (some 7)).1 (by decide)).1.2
      ⟨_, rfl, rfl⟩,
    by decide, by decide,
    ((release_head_memtable__spec sample_consts two_table_mgr (some 8)).1 (by decide)).2.2 hno,
    (release_head_memtable__spec sample_consts fresh_mgr (some 7)).2 (by decide)⟩

end TxData

namespace Compaction

/-! ## C11 -/

/-- C11: `ObMergeParameter::init` returns `OB_INVALID_ARGUMENT` and leaves the parameter
object as it was whenever the context is invalid, `idx < 0` or
`idx >= get_concurrent_cnt()`; for a valid context and `0 <= idx < get_concurrent_cnt()`
the index check does not reject: the code returned is the one of `get_merge_range`. -/
theorem merge_parameter_init_index_check (k : MergeKinds) (p : ObMergeParameter)
    (merge_ctx : ObTabletMergeCtx) (idx : Int) :
    ((merge_ctx.valid = false ∨ idx < 0 ∨ idx ≥ merge_ctx.concurrent_cnt) →
      ObMergeParameter.init k p merge_ctx idx = (ObRet.OB_INVALID_ARGUMENT, p)) ∧
    (merge_ctx.valid = true → 0 ≤ idx → idx < merge_ctx.concurrent_cnt →
      (ObMergeParameter.init k p merge_ctx idx).1 = (merge_ctx.merge_range idx).1) := by
  constructor
  · intro h
    have hc : (!merge_ctx.valid || decide (idx < 0) || decide (idx ≥ merge_ctx.concurrent_cnt))
        = true := by
      rcases h with h | h | h
      · simp [h]
      · simp [h]
      · simp [h]
    simp only [ObMergeParameter.init, hc, if_true]
  · intro hv h0 h1
    have hc : (!merge_ctx.valid || decide (idx < 0) || decide (idx ≥ merge_ctx.concurrent_cnt))
        = false := by
      simp [hv]
      omega
    simp only [ObMergeParameter.init, hc]
    by_cases hf : OB_FAIL (merge_ctx.merge_range idx).1 = true
    · simp [hf]
    · simp only [hf]
      simp [OB_FAIL] at hf
      simp [hf]

/-- An index equal to the concurrency degree is rejected, the last valid index is not. -/
theorem merge_parameter_init_index_check_witness :
    ObMergeParameter.init spec_kinds blank_param (sample_ctx ObMergeType.MAJOR_MERGE 4) 4
      = (ObRet.OB_INVALID_ARGUMENT, blank_param) ∧
    (ObMergeParameter.init spec_kinds blank_param (sample_ctx ObMergeType.MAJOR_MERGE 4) 3).1
      = ((sample_ctx ObMergeType.MAJOR_MERGE 4).merge_range 3).1 :=
  ⟨(merge_parameter_init_index_check spec_kinds blank_param
      (sample_ctx ObMergeType.MAJOR_MERGE 4) 4).1 (Or.inr (Or.inr (by decide))),
   (merge_parameter_init_index_check spec_kinds blank_param
      (sample_ctx ObMergeType.MAJOR_MERGE 4) 3).2 (by decide) (by decide) (by decide)⟩

/-! ## C12 -/

theorem merge_parameter_init_version_range (k : MergeKinds) (p : ObMergeParameter)
    (merge_ctx : ObTabletMergeCtx) (idx : Int)
    (h : (ObMergeParameter.init k p merge_ctx idx).1 = ObRet.OB_SUCCESS) :
    (ObMergeParameter.init k p merge_ctx idx).2.version_range_ =
      adjust_version_range k merge_ctx.param_.merge_type_ merge_ctx.read_base_version_
        merge_ctx.sstable_version_range_ := by
  unfold ObMergeParameter.init at h ⊢
  by_cases hc : (!merge_ctx.valid || decide (idx < 0) ||
      decide (idx ≥ merge_ctx.concurrent_cnt)) = true
  · simp only [hc, if_true] at h
    exact absurd h (by decide)
  · simp only [hc] at h ⊢
    by_cases hf : OB_FAIL (merge_ctx.merge_range idx).1 = true
    · simp only [hf, if_true] at h
      simp [OB_FAIL] at hf
      exact absurd h hf
    · simp [hf]

/-- C12: after a successful `ObMergeParameter::init`, `version_range_` is the context's
`sstable_version_range_` adjusted by merge type: for a major merge `base_version_` is the
maximum of `read_base_version_` and the context's base version; otherwise for a buffer
minor merge `multi_version_start_` is the snapshot version; otherwise for a multi-version
minor merge `base_version_` is 0 and `snapshot_version_` is `INT64_MAX - 2`; for any
other merge type the range is copied. In each case the other fields are those of the
context. -/
theorem merge_parameter_init_version_range_by_type (k : MergeKinds) (p : ObMergeParameter)
    (merge_ctx : ObTabletMergeCtx) (idx : Int)
    (h : (ObMergeParameter.init k p merge_ctx idx).1 = ObRet.OB_SUCCESS) :
    (k.is_major_merge merge_ctx.param_.merge_type_ = true →
      (ObMergeParameter.init k p merge_ctx idx).2.version_range_ =
        { multi_version_start_ := merge_ctx.sstable_version_range_.multi_version_start_
          base_version_ :=
            max merge_ctx.read_base_version_ merge_ctx.sstable_version_range_.base_version_
          snapshot_version_ := merge_ctx.sstable_version_range_.snapshot_version_ }) ∧
    (k.is_major_merge merge_ctx.param_.merge_type_ = false →
     k.is_buf_minor_merge merge_ctx.param_.merge_type_ = true →
      (ObMergeParameter.init k p merge_ctx idx).2.version_range_ =
        { multi_version_start_ := merge_ctx.sstable_version_range_.snapshot_version_
          base_version_ := merge_ctx.sstable_version_range_.base_version_
          snapshot_version_ := merge_ctx.sstable_version_range_.snapshot_version_ }) ∧
    (k.is_major_merge merge_ctx.param_.merge_type_ = false →
     k.is_buf_minor_merge merge_ctx.param_.merge_type_ = false →
     k.is_multi_version_minor_merge merge_ctx.param_.merge_type_ = true →
      (ObMergeParameter.init k p merge_ctx idx).2.version_range_ =
        { multi_version_start_ := merge_ctx.sstable_version_range_.multi_version_start_
          base_version_ := 0
          snapshot_version_ := INT64_MAX - 2 }) ∧
    (k.is_major_merge merge_ctx.param_.merge_type_ = false →
     k.is_buf_minor_merge merge_ctx.param_.merge_type_ = false →
     k.is_multi_version_minor_merge merge_ctx.param_.merge_type_ = false →
      (ObMergeParameter.init k p merge_ctx idx).2.version_range_ =
        merge_ctx.sstable_version_range_) := by
  rw [merge_parameter_init_version_range k p merge_ctx idx h]
  refine ⟨?_, ?_, ?_, ?_⟩
  · intro h1
    simp [adjust_version_range, h1]
  · intro h1 h2
    simp [adjust_version_range, h1, h2]
  · intro h1 h2 h3
    simp [adjust_version_range, h1, h2, h3]
  · intro h1 h2 h3
    simp [adjust_version_range, h1, h2, h3]

/-- The four cases on the sample context (`read_base_version_ = 4`, range
`[3, 2, 5]`): major, buffer minor, minor, backfill. -/
theorem merge_parameter_init_version_range_by_type_witness :
    (ObMergeParameter.init spec_kinds blank_param (sample_ctx ObMergeType.MAJOR_MERGE 4) 0).2.version_range_
      = { multi_version_start_ := 3, base_version_ := 4, snapshot_version_ := 5 } ∧
    (ObMergeParameter.init spec_kinds blank_param
        (sample_ctx ObMergeType.BUF_MINOR_MERGE 4) 0).2.version_range_
      = { multi_version_start_ := 5, base_version_ := 2, snapshot_version_ := 5 } ∧
    (ObMergeParameter.init spec_kinds blank_param
        (sample_ctx ObMergeType.MINOR_MERGE 4) 0).2.version_range_
      = { multi_version_start_ := 3, base_version_ := 0, snapshot_version_ := INT64_MAX - 2 } ∧
    (ObMergeParameter.init spec_kinds blank_param
        (sample_ctx ObMergeType.BACKFILL_TX_MERGE 4) 0).2.version_range_
      = { multi_version_start_ := 3, base_version_ := 2, snapshot_version_ := 5 } :=
  ⟨(merge_parameter_init_version_range_by_type spec_kinds blank_param
      (sample_ctx ObMergeType.MAJOR_MERGE 4) 0 (by decide)).1 (by decide),
   (merge_parameter_init_version_range_by_type spec_kinds blank_param
      (sample_ctx ObMergeType.BUF_MINOR_MERGE 4) 0 (by decide)).2.1 (by decide) (by decide),
   (merge_parameter_init_version_range_by_type spec_kinds blank_param
      (sample_ctx ObMergeType.MINOR_MERGE 4) 0 (by decide)).2.2.1 (by decide) (by decide)
      (by decide),
   (merge_parameter_init_version_range_by_type spec_kinds blank_param
      (sample_ctx ObMergeType.BACKFILL_TX_MERGE 4) 0 (by decide)).2.2.2 (by decide) (by decide)
      (by decide)⟩

/-! ## C13 -/

/-- C13 (as the code has it): `is_schema_valid()` is false whenever `merge_schema_` is
null, whatever the merge type; with a non-null `merge_schema_`, it is the validity of the
merge schema for multi-version minor and backfill merges, and for every other merge type
it is true exactly when `table_schema_` is non-null and valid. -/
theorem is_schema_valid_spec (k : MergeKinds) (p : ObMergeParameter) :
    (p.merge_schema_ = none → p.is_schema_valid k = false) ∧
    (∀ ms, p.merge_schema_ = some ms →
      (k.is_multi_version_minor_merge p.merge_type_ = true ∨
        k.is_backfill_tx_merge p.merge_type_ = true) →
      p.is_schema_valid k = ms.valid) ∧
    (∀ ms, p.merge_schema_ = some ms →
      k.is_multi_version_minor_merge p.merge_type_ = false →
      k.is_backfill_tx_merge p.merge_type_ = false →
      (p.is_schema_valid k = true ↔ ∃ ts, p.table_schema_ = some ts ∧ ts.valid = true)) := by
  refine ⟨?_, ?_, ?_⟩
  · intro h
    simp [ObMergeParameter.is_schema_valid, h]
  · intro ms h hk
    rcases hk with hk | hk <;> simp [ObMergeParameter.is_schema_valid, h, hk]
  · intro ms h h1 h2
    cases hts : p.table_schema_ with
    | none => simp [ObMergeParameter.is_schema_valid, h, h1, h2, hts]
    | some ts => simp [ObMergeParameter.is_schema_valid, h, h1, h2, hts]

/-- A major merge parameter without merge schema, one minor merge parameter with a valid
merge schema and no table schema, and a major one with both schemas. -/
theorem is_schema_valid_spec_witness :
    (param_with_schemas ObMergeType.MAJOR_MERGE none (some { valid := true })).is_schema_valid
        spec_kinds = false ∧
    (param_with_schemas ObMergeType.MINOR_MERGE (some { valid := true }) none).is_schema_valid
        spec_kinds = true ∧
    ((param_with_schemas ObMergeType.MAJOR_MERGE (some { valid := true })
        (some { valid := true })).is_schema_valid spec_kinds = true ↔
      ∃ ts, (param_with_schemas ObMergeType.MAJOR_MERGE (some { valid := true })
        (some { valid := true })).table_schema_ = some ts ∧ ts.valid = true) :=
  ⟨(is_schema_valid_spec spec_kinds
      (param_with_schemas ObMergeType.MAJOR_MERGE none (some { valid := true }))).1 rfl,
   (is_schema_valid_spec spec_kinds
      (param_with_schemas ObMergeType.MINOR_MERGE (some { valid := true }) none)).2.1
      { valid := true } rfl (Or.inl (by decide)),
   (is_schema_valid_spec spec_kinds
      (param_with_schemas ObMergeType.MAJOR_MERGE (some { valid := true })
        (some { valid := true }))).2.2 { valid := true } rfl (by decide) (by decide)⟩

/-- C13, as stated, fails: for a major merge (neither multi-version minor nor backfill)
whose `table_schema_` is non-null and valid but whose `merge_schema_` is null,
`is_schema_valid()` is false. -/
theorem is_schema_valid_needs_merge_schema :
    spec_kinds.is_multi_version_minor_merge ObMergeType.MAJOR_MERGE = false ∧
    spec_kinds.is_backfill_tx_merge ObMergeType.MAJOR_MERGE = false ∧
    (param_with_schemas ObMergeType.MAJOR_MERGE none (some { valid := true })).table_schema_
      = some { valid := true } ∧
    (param_with_schemas ObMergeType.MAJOR_MERGE none (some { valid := true })).is_schema_valid
        spec_kinds = false := by
  refine ⟨by decide, by decide, rfl, by decide⟩

/-! ## C14 -/

/-- The two equality tests on distinct objects, spelled out. -/
theorem merge_dag_equality_cases (k : MergeKinds) (a b : ObTabletMergeDag)
    (h : a.addr ≠ b.addr) :
    (ObBasicTabletMergeDag.eq a b = true ↔
      a.type_ = b.type_ ∧ a.merge_type_ = b.merge_type_ ∧ a.ls_id_ = b.ls_id_ ∧
        a.tablet_id_ = b.tablet_id_) ∧
    (ObTabletMinorMergeDag.eq k a b = true ↔
      a.type_ = b.type_ ∧ k.is_mini_minor_merge a.merge_type_ = true ∧
        k.is_mini_minor_merge b.merge_type_ = true ∧ a.ls_id_ = b.ls_id_ ∧
        a.tablet_id_ = b.tablet_id_) := by
  constructor
  · simp only [ObBasicTabletMergeDag.eq, h, if_false]
    by_cases ht : a.type_ = b.type_
    · by_cases h1 : a.merge_type_ = b.merge_type_ <;>
        by_cases h2 : a.ls_id_ = b.ls_id_ <;>
        by_cases h3 : a.tablet_id_ = b.tablet_id_ <;> simp [ht, h1, h2, h3]
    · simp [ht]
  · simp only [ObTabletMinorMergeDag.eq, h, if_false]
    by_cases ht : a.type_ = b.type_
    · by_cases h1 : k.is_mini_minor_merge a.merge_type_ = true <;>
        by_cases h1' : k.is_mini_minor_merge b.merge_type_ = true <;>
        by_cases h2 : a.ls_id_ = b.ls_id_ <;>
        by_cases h3 : a.tablet_id_ = b.tablet_id_ <;> simp [ht, h1, h1', h2, h3]
    · simp [ht]

/-- C14 (as the code has it): a tablet merge Dag equals itself; two distinct Dags compare
equal under `ObBasicTabletMergeDag::operator ==` exactly when they have the same dag
type, the same `merge_type_`, the same `ls_id_` and the same `tablet_id_`, and under
`ObTabletMinorMergeDag::operator ==` exactly when they have the same dag type, both
merge types are mini minor merges (`is_mini_minor_merge`), and `ls_id_` and `tablet_id_`
are the same. -/
theorem merge_dag_equality_spec (k : MergeKinds) (a b : ObTabletMergeDag) :
    (a.addr = b.addr →
      ObBasicTabletMergeDag.eq a b = true ∧ ObTabletMinorMergeDag.eq k a b = true) ∧
    (a.addr ≠ b.addr →
      (ObBasicTabletMergeDag.eq a b = true ↔
        a.type_ = b.type_ ∧ a.merge_type_ = b.merge_type_ ∧ a.ls_id_ = b.ls_id_ ∧
          a.tablet_id_ = b.tablet_id_) ∧
      (ObTabletMinorMergeDag.eq k a b = true ↔
        a.type_ = b.type_ ∧ k.is_mini_minor_merge a.merge_type_ = true ∧
          k.is_mini_minor_merge b.merge_type_ = true ∧ a.ls_id_ = b.ls_id_ ∧
          a.tablet_id_ = b.tablet_id_)) := by
  constructor
  · intro h
    simp [ObBasicTabletMergeDag.eq, ObTabletMinorMergeDag.eq, h]
  · intro h
    exact merge_dag_equality_cases k a b h

/-- Two distinct minor merge Dags of the same tablet with a mini minor merge type, and
one Dag compared with itself. -/
theorem merge_dag_equality_spec_witness :
    (ObBasicTabletMergeDag.eq (sample_minor_dag 1 ObMergeType.BUF_MINOR_MERGE)
        (sample_minor_dag 1 ObMergeType.BUF_MINOR_MERGE) = true ∧
      ObTabletMinorMergeDag.eq spec_kinds (sample_minor_dag 1 ObMergeType.BUF_MINOR_MERGE)
        (sample_minor_dag 1 ObMergeType.BUF_MINOR_MERGE) = true) ∧
    ObTabletMinorMergeDag.eq spec_kinds (sample_minor_dag 1 ObMergeType.MINI_MINOR_MERGE)
        (sample_minor_dag 2 ObMergeType.MINI_MINOR_MERGE) = true :=
  ⟨(merge_dag_equality_spec spec_kinds (sample_minor_dag 1 ObMergeType.BUF_MINOR_MERGE)
      (sample_minor_dag 1 ObMergeType.BUF_MINOR_MERGE)).1 rfl,
   ((merge_dag_equality_spec spec_kinds (sample_minor_dag 1 ObMergeType.MINI_MINOR_MERGE)
      (sample_minor_dag 2 ObMergeType.MINI_MINOR_MERGE)).2 (by decide)).2.2
      (by decide)⟩

/-- C14, as stated, fails: two `ObTabletMinorMergeDag` objects that `init_by_param`
accepts with a buffer minor merge type, with the same dag type, `ls_id_` and
`tablet_id_`, do not compare equal, because a buffer minor merge is not a mini minor
merge. -/
theorem buf_minor_dags_not_equal :
    (ObTabletMinorMergeDag.init_by_param spec_kinds sample_dag_env ObRet.OB_SUCCESS
      (ObTabletMinorMergeDag.new 1 0)
      (some (sample_dag_param ObMergeType.BUF_MINOR_MERGE))).1 = ObRet.OB_SUCCESS ∧
    (ObTabletMinorMergeDag.init_by_param spec_kinds sample_dag_env ObRet.OB_SUCCESS
      (ObTabletMinorMergeDag.new 2 0)
      (some (sample_dag_param ObMergeType.BUF_MINOR_MERGE))).1 = ObRet.OB_SUCCESS ∧
    (sample_minor_dag 1 ObMergeType.BUF_MINOR_MERGE).type_
      = (sample_minor_dag 2 ObMergeType.BUF_MINOR_MERGE).type_ ∧
    (sample_minor_dag 1 ObMergeType.BUF_MINOR_MERGE).ls_id_
      = (sample_minor_dag 2 ObMergeType.BUF_MINOR_MERGE).ls_id_ ∧
    (sample_minor_dag 1 ObMergeType.BUF_MINOR_MERGE).tablet_id_
      = (sample_minor_dag 2 ObMergeType.BUF_MINOR_MERGE).tablet_id_ ∧
    ObTabletMinorMergeDag.eq spec_kinds (sample_minor_dag 1 ObMergeType.BUF_MINOR_MERGE)
      (sample_minor_dag 2 ObMergeType.BUF_MINOR_MERGE) = false := by
  refine ⟨by decide, by decide, by decide, by decide, by decide, by decide⟩

/-! ## C15 -/

/-- C16: for an initialised `ObTabletMergeTask` (its `ctx_` is set) of a major merge,
`process()` returns `OB_CANCELED` without calling `merge_partition` when
`could_major_merge_start()` is false; for a merge that is not a major merge
`could_major_merge_start()` is not called and its answer does not change the result. -/
theorem merge_task_process_pause_check (k : MergeKinds)
    (merge_partition : MergerKind → ObTabletMergeCtx → Int → ObRet × List Row)
    (t : ObTabletMergeTask) (ctx : ObTabletMergeCtx)
    (hinit : t.is_inited_ = true) (hctx : t.ctx_ = some ctx) :
    (k.is_major_merge ctx.param_.merge_type_ = true →
      (t.process k false merge_partition).ret = ObRet.OB_CANCELED ∧
      (t.process k false merge_partition).merge_partition_called = false) ∧
    (k.is_major_merge ctx.param_.merge_type_ = false →
      ∀ b : Bool, (t.process k b merge_partition).could_major_merge_start_called = false ∧
        t.process k b merge_partition = t.process k (!b) merge_partition) := by
  constructor
  · intro hm
    simp [ObTabletMergeTask.process, hinit, hctx, hm]
  · intro hm b
    constructor
    · simp only [ObTabletMergeTask.process, hinit, hctx, hm, ObTabletMergeTask.run_merger]
      cases t.merger_ <;> simp
    · simp [ObTabletMergeTask.process, hinit, hctx, hm]

/-- A paused major merge task and a minor merge task of the sample context. -/
theorem merge_task_process_pause_check_witness :
    ((sample_merge_task ObDagTypeEnum.DAG_TYPE_MAJOR_MERGE ObMergeType.MAJOR_MERGE 4 0).process
        spec_kinds false idle_merge_partition).ret = ObRet.OB_CANCELED ∧
    ((sample_merge_task ObDagTypeEnum.DAG_TYPE_MAJOR_MERGE ObMergeType.MAJOR_MERGE 4 0).process
        spec_kinds false idle_merge_partition).merge_partition_called = false ∧
    ((sample_merge_task ObDagTypeEnum.DAG_TYPE_MINOR_MERGE ObMergeType.MINOR_MERGE 4 0).process
        spec_kinds false idle_merge_partition).could_major_merge_start_called = false ∧
    (sample_merge_task ObDagTypeEnum.DAG_TYPE_MINOR_MERGE ObMergeType.MINOR_MERGE 4 0).process
        spec_kinds false idle_merge_partition
      = (sample_merge_task ObDagTypeEnum.DAG_TYPE_MINOR_MERGE ObMergeType.MINOR_MERGE 4 0).process
        spec_kinds (!false) idle_merge_partition :=
  ⟨((merge_task_process_pause_check spec_kinds idle_merge_partition
      (sample_merge_task ObDagTypeEnum.DAG_TYPE_MAJOR_MERGE ObMergeType.MAJOR_MERGE 4 0)
      (sample_ctx ObMergeType.MAJOR_MERGE 4) rfl rfl).1 (by decide)).1,
   ((merge_task_process_pause_check spec_kinds idle_merge_partition
      (sample_merge_task ObDagTypeEnum.DAG_TYPE_MAJOR_MERGE ObMergeType.MAJOR_MERGE 4 0)
      (sample_ctx ObMergeType.MAJOR_MERGE 4) rfl rfl).1 (by decide)).2,
   ((merge_task_process_pause_check spec_kinds idle_merge_partition
      (sample_merge_task ObDagTypeEnum.DAG_TYPE_MINOR_MERGE ObMergeType.MINOR_MERGE 4 0)
      (sample_ctx ObMergeType.MINOR_MERGE 4) rfl rfl).2 (by decide) false).1,
   ((merge_task_process_pause_check spec_kinds idle_merge_partition
      (sample_merge_task ObDagTypeEnum.DAG_TYPE_MINOR_MERGE ObMergeType.MINOR_MERGE 4 0)
      (sample_ctx ObMergeType.MINOR_MERGE 4) rfl rfl).2 (by decide) false).2⟩

/-! ## C20 -/

/-- An `init` of a fresh task with a valid context, a non-negative index and memory for
the merger succeeds and stores the index and the context. -/
theorem merge_task_init_fresh (k : MergeKinds) (dag_type : ObDagTypeEnum) (idx : Int)
    (ctx : ObTabletMergeCtx) (hvalid : ctx.valid = true) (hidx : 0 ≤ idx) :
    ((ObTabletMergeTask.new dag_type).init k true idx ctx).1 = ObRet.OB_SUCCESS ∧
    ((ObTabletMergeTask.new dag_type).init k true idx ctx).2.idx_ = idx ∧
    ((ObTabletMergeTask.new dag_type).init k true idx ctx).2.ctx_ = some ctx ∧
    ((ObTabletMergeTask.new dag_type).init k true idx ctx).2.is_inited_ = true ∧
    ((ObTabletMergeTask.new dag_type).init k true idx ctx).2.dag_type_ = dag_type := by
  have h : ¬ idx < 0 := by omega
  unfold ObTabletMergeTask.init
  by_cases hm : (k.is_major_merge ctx.param_.merge_type_ ||
      k.is_buf_minor_merge ctx.param_.merge_type_) = true
  · simp [ObTabletMergeTask.new, hvalid, h, hm]
  · simp [ObTabletMergeTask.new, hvalid, h, hm]

/-- A successful `init` stores the index and the context and marks the task initialised. -/
theorem merge_task_init_success (k : MergeKinds) (alloc_ok : Bool) (t : ObTabletMergeTask)
    (idx : Int) (ctx : ObTabletMergeCtx)
    (h : (t.init k alloc_ok idx ctx).1 = ObRet.OB_SUCCESS) :
    (t.init k alloc_ok idx ctx).2.is_inited_ = true ∧
    (t.init k alloc_ok idx ctx).2.ctx_ = some ctx ∧
    (t.init k alloc_ok idx ctx).2.idx_ = idx := by
  unfold ObTabletMergeTask.init at h ⊢
  split_ifs at h ⊢ <;> simp_all

/-- A task produced by `generate_next_task` is initialised with the context of the task
it was generated from and the next index. -/
theorem generate_next_task_produces (k : MergeKinds) (env : NextTaskEnv)
    (t : ObTabletMergeTask) (ctx : ObTabletMergeCtx) (ret : ObRet) (u : ObTabletMergeTask)
    (hctx : t.ctx_ = some ctx)
    (h : t.generate_next_task k env = some (ret, some u)) :
    u.is_inited_ = true ∧ u.ctx_ = some ctx ∧ u.idx_ = t.idx_ + 1 := by
  unfold ObTabletMergeTask.generate_next_task at h
  rw [hctx] at h
  simp only at h
  split_ifs at h with a1 a2 a3 a4 a5
  all_goals simp only [Option.some.injEq, Prod.mk.injEq, reduceCtorEq, and_false] at h
  obtain ⟨_, h2⟩ := h
  subst h2
  exact merge_task_init_success k env.alloc_ok _ _ ctx (by simpa [OB_FAIL] using a5)

/-- With every collaborator call succeeding, the chain started on a task with `n` splits
after it produces exactly the tasks of these splits, in order, and ends with
`OB_ITER_END`. -/
theorem merge_task_chain_ok (k : MergeKinds) (env : Int → NextTaskEnv)
    (henv : ∀ i, (env i).alloc_task_ret = ObRet.OB_SUCCESS ∧ (env i).alloc_ok = true)
    (ctx : ObTabletMergeCtx) (hvalid : ctx.valid = true) (n : Nat) :
    ∀ (t : ObTabletMergeTask) (fuel : Nat), t.is_inited_ = true → t.ctx_ = some ctx →
      is_merge_dag t.dag_type_ = true → 0 ≤ t.idx_ → t.idx_ + 1 + n = ctx.concurrent_cnt →
      n + 1 ≤ fuel →
      ∃ tasks, merge_task_chain k env fuel t = some (tasks, ObRet.OB_ITER_END) ∧
        tasks.map (fun u => u.idx_) =
          (List.range n).map (fun (j : Nat) => t.idx_ + 1 + (j : Int)) := by
  induction n with
  | zero =>
    intro t fuel hinit hctx _ _ hcnt hfuel
    obtain ⟨f, rfl⟩ : ∃ f, fuel = f + 1 := ⟨fuel - 1, by omega⟩
    have hc : t.idx_ + 1 = ctx.concurrent_cnt := by omega
    exact ⟨[], by simp [merge_task_chain, ObTabletMergeTask.generate_next_task, hinit, hctx, hc],
      by simp⟩
  | succ n ih =>
    intro t fuel hinit hctx hdag hidx hcnt hfuel
    obtain ⟨f, rfl⟩ : ∃ f, fuel = f + 1 := ⟨fuel - 1, by omega⟩
    have hc : ¬ t.idx_ + 1 = ctx.concurrent_cnt := by omega
    obtain ⟨h1, h2, h3, h4, h5⟩ :=
      merge_task_init_fresh k t.dag_type_ (t.idx_ + 1) ctx hvalid (by omega)
    have hgen : t.generate_next_task k (env t.idx_) =
        some (ObRet.OB_SUCCESS,
          some ((ObTabletMergeTask.new t.dag_type_).init k true (t.idx_ + 1) ctx).2) := by
      simp [ObTabletMergeTask.generate_next_task, hinit, hctx, hc, hdag, (henv t.idx_).1,
        (henv t.idx_).2, h1, OB_FAIL]
    obtain ⟨tasks, hch, hmap⟩ :=
      ih ((ObTabletMergeTask.new t.dag_type_).init k true (t.idx_ + 1) ctx).2 f h4 h3
        (by rw [h5]; exact hdag) (by rw [h2]; omega) (by rw [h2]; omega) (by omega)
    refine ⟨((ObTabletMergeTask.new t.dag_type_).init k true (t.idx_ + 1) ctx).2 :: tasks, ?_, ?_⟩
    · simp [merge_task_chain, hgen, hch]
    · rw [List.map_cons, hmap, h2, List.range_succ_eq_map, List.map_cons, List.map_map]
      simp only [Nat.cast_zero, add_zero, List.cons.injEq, true_and]
      apply List.map_congr_left
      intro j _
      simp only [Function.comp, Nat.succ_eq_add_one]
      push_cast
      omega

/-- Whatever the collaborator calls answer, the chain started on a task with `n` splits
after it ends within `n + 1` calls and produces at most `n` tasks. -/
theorem merge_task_chain_terminates (k : MergeKinds) (env : Int → NextTaskEnv)
    (ctx : ObTabletMergeCtx) (n : Nat) :
    ∀ (t : ObTabletMergeTask) (fuel : Nat), t.is_inited_ = true → t.ctx_ = some ctx →
      t.idx_ + 1 + n = ctx.concurrent_cnt → n + 1 ≤ fuel →
      ∃ r, merge_task_chain k env fuel t = some r ∧ r.1.length ≤ n := by
  induction n with
  | zero =>
    intro t fuel hinit hctx hcnt hfuel
    obtain ⟨f, rfl⟩ : ∃ f, fuel = f + 1 := ⟨fuel - 1, by omega⟩
    have hc : t.idx_ + 1 = ctx.concurrent_cnt := by omega
    exact ⟨([], ObRet.OB_ITER_END),
      by simp [merge_task_chain, ObTabletMergeTask.generate_next_task, hinit, hctx, hc], by simp⟩
  | succ n ih =>
    intro t fuel hinit hctx hcnt hfuel
    obtain ⟨f, rfl⟩ : ∃ f, fuel = f + 1 := ⟨fuel - 1, by omega⟩
    have hc : ¬ t.idx_ + 1 = ctx.concurrent_cnt := by omega
    cases hg : t.generate_next_task k (env t.idx_) with
    | none => simp [ObTabletMergeTask.generate_next_task, hinit, hctx, hc] at hg; split_ifs at hg
    | some g =>
      obtain ⟨ret, next⟩ := g
      cases next with
      | none => exact ⟨([], ret), by simp [merge_task_chain, hg], by simp⟩
      | some u =>
        have hu := generate_next_task_produces k (env t.idx_) t ctx ret u hctx hg
        obtain ⟨r, hr, hlen⟩ := ih u f hu.1 hu.2.1 (by rw [hu.2.2]; omega) (by omega)
        exact ⟨(u :: r.1, r.2), by simp [merge_task_chain, hg, hr], by simp; omega⟩

/-- C20: for a valid merge context with concurrency degree `n >= 1` in a merge Dag, the
chain of `generate_next_task` calls started on the merge task with `idx_ = 0` produces,
when the task allocations succeed, the tasks with `idx_ = 1, 2, ..., n - 1` in that order
and then ends with `OB_ITER_END`; and whatever the allocations answer, the chain ends
within `n` calls and produces at most `n - 1` tasks. -/
theorem merge_task_chain_spec (k : MergeKinds) (ctx : ObTabletMergeCtx)
    (dag_type : ObDagTypeEnum) (t0 : ObTabletMergeTask)
    (hvalid : ctx.valid = true) (hn : 1 ≤ ctx.concurrent_cnt)
    (hdag : is_merge_dag dag_type = true)
    (h0 : (ObTabletMergeTask.new dag_type).init k true 0 ctx = (ObRet.OB_SUCCESS, t0)) :
    (∀ (env : Int → NextTaskEnv) (fuel : Nat),
      (∀ i, (env i).alloc_task_ret = ObRet.OB_SUCCESS ∧ (env i).alloc_ok = true) →
      ctx.concurrent_cnt.toNat ≤ fuel →
      ∃ tasks, merge_task_chain k env fuel t0 = some (tasks, ObRet.OB_ITER_END) ∧
        tasks.map (fun u => u.idx_) =
          (List.range (ctx.concurrent_cnt.toNat - 1)).map (fun (j : Nat) => 1 + (j : Int))) ∧
    (∀ (env : Int → NextTaskEnv) (fuel : Nat), ctx.concurrent_cnt.toNat ≤ fuel →
      ∃ r, merge_task_chain k env fuel t0 = some r ∧
        r.1.length + 1 ≤ ctx.concurrent_cnt.toNat) := by
  obtain ⟨_, h2, h3, h4, h5⟩ := merge_task_init_fresh k dag_type 0 ctx hvalid (le_refl 0)
  rw [h0] at h2 h3 h4 h5
  simp only at h2 h3 h4 h5
  have hcnt : t0.idx_ + 1 + ((ctx.concurrent_cnt.toNat - 1 : Nat) : Int) = ctx.concurrent_cnt := by
    rw [h2]; omega
  constructor
  · intro env fuel henv hfuel
    obtain ⟨tasks, hch, hmap⟩ :=
      merge_task_chain_ok k env henv ctx hvalid (ctx.concurrent_cnt.toNat - 1) t0 fuel h4 h3
        (by rw [h5]; exact hdag) (by rw [h2]) hcnt (by omega)
    refine ⟨tasks, hch, ?_⟩
    rw [hmap, h2]
    simp
  · intro env fuel hfuel
    obtain ⟨r, hr, hlen⟩ :=
      merge_task_chain_terminates k env ctx (ctx.concurrent_cnt.toNat - 1) t0 fuel h4 h3 hcnt
        (by omega)
    exact ⟨r, hr, by omega⟩

/-- The chain of the sample context with four splits in a minor merge Dag: the tasks of
the splits 1, 2, 3, then `OB_ITER_END`. -/
theorem merge_task_chain_spec_witness :
    (∃ tasks, merge_task_chain spec_kinds ok_next_task 4
        (sample_merge_task ObDagTypeEnum.DAG_TYPE_MINOR_MERGE ObMergeType.MINOR_MERGE 4 0)
        = some (tasks, ObRet.OB_ITER_END) ∧
      tasks.map (fun u => u.idx_) =
        (List.range ((sample_ctx ObMergeType.MINOR_MERGE 4).concurrent_cnt.toNat - 1)).map
          (fun (j : Nat) => 1 + (j : Int))) ∧
    (List.range ((sample_ctx ObMergeType.MINOR_MERGE 4).concurrent_cnt.toNat - 1)).map
          (fun (j : Nat) => 1 + (j : Int)) = [1, 2, 3] ∧
    (∃ r, merge_task_chain spec_kinds
        (fun _ => { alloc_task_ret := ObRet.OB_ALLOCATE_MEMORY_FAILED, alloc_ok := true }) 4
        (sample_merge_task ObDagTypeEnum.DAG_TYPE_MINOR_MERGE ObMergeType.MINOR_MERGE 4 0)
        = some r ∧
      r.1.length + 1 ≤ (sample_ctx ObMergeType.MINOR_MERGE 4).concurrent_cnt.toNat) :=
  ⟨(merge_task_chain_spec spec_kinds (sample_ctx ObMergeType.MINOR_MERGE 4)
      ObDagTypeEnum.DAG_TYPE_MINOR_MERGE
      (sample_merge_task ObDagTypeEnum.DAG_TYPE_MINOR_MERGE ObMergeType.MINOR_MERGE 4 0)
      rfl (by decide) (by decide) rfl).1 ok_next_task 4 (fun _ => ⟨rfl, rfl⟩) (by decide),
   by decide,
   (merge_task_chain_spec spec_kinds (sample_ctx ObMergeType.MINOR_MERGE 4)
      ObDagTypeEnum.DAG_TYPE_MINOR_MERGE
      (sample_merge_task ObDagTypeEnum.DAG_TYPE_MINOR_MERGE ObMergeType.MINOR_MERGE 4 0)
      rfl (by decide) (by decide) rfl).2
      (fun _ => { alloc_task_ret := ObRet.OB_ALLOCATE_MEMORY_FAILED, alloc_ok := true }) 4
      (by decide)⟩

/-! ## C19 -/

theorem newest_visible_none (snapshot : Int) (key : Int) (rows : List Row)
    (h : newest_visible snapshot key rows = none) :
    ∀ r' ∈ rows, r'.key = key → r'.version ≤ snapshot → False := by
  induction rows with
  | nil => intro r' hr'; cases hr'
  | cons x rest ih =>
    simp only [newest_visible] at h
    cases hrest : newest_visible snapshot key rest with
    | none =>
      rw [hrest] at h
      simp only at h
      split_ifs at h with hc
      intro r' hr' hk hv
      rcases List.mem_cons.1 hr' with he | he
      · subst he; exact hc ⟨hk, hv⟩
      · exact ih hrest r' he hk hv
    | some best =>
      rw [hrest] at h
      simp only at h
      split_ifs at h

theorem newest_visible_spec (snapshot : Int) (key : Int) (rows : List Row) (r : Row)
    (h : newest_visible snapshot key rows = some r) :
    r ∈ rows ∧ r.key = key ∧ r.version ≤ snapshot ∧
    ∀ r' ∈ rows, r'.key = key → r'.version ≤ snapshot → r'.version ≤ r.version := by
  induction rows generalizing r with
  | nil => simp [newest_visible] at h
  | cons x rest ih =>
    simp only [newest_visible] at h
    cases hrest : newest_visible snapshot key rest with
    | none =>
      have hnone : ∀ r' ∈ rest, r'.key = key → r'.version ≤ snapshot → False := by
        intro r' hr' hk hv
        exact newest_visible_none snapshot key rest hrest r' hr' hk hv
      rw [hrest] at h
      simp only at h
      split_ifs at h with hc
      simp only [Option.some.injEq] at h
      subst h
      refine ⟨List.mem_cons_self _ _, hc.1, hc.2, ?_⟩
      intro r' hr' hk hv
      rcases List.mem_cons.1 hr' with he | he
      · rw [he]
      · exact (hnone r' he hk hv).elim
    | some best =>
      rw [hrest] at h
      simp only at h
      obtain ⟨b1, b2, b3, b4⟩ := ih best hrest
      split_ifs at h with hc
      · simp only [Option.some.injEq] at h
        subst h
        refine ⟨List.mem_cons_self _ _, hc.1, hc.2.1, ?_⟩
        intro r' hr' hk hv
        rcases List.mem_cons.1 hr' with he | he
        · rw [he]
        · have := b4 r' he hk hv
          omega
      · simp only [Option.some.injEq] at h
        subst h
        refine ⟨List.mem_cons_of_mem _ b1, b2, b3, ?_⟩
        intro r' hr' hk hv
        rcases List.mem_cons.1 hr' with he | he
        · subst he
          by_contra hlt
          exact hc ⟨hk, hv, by omega⟩
        · exact b4 r' he hk hv

theorem filterMap_keys_sublist (f : Int → Option Row)
    (hf : ∀ key r, f key = some r → r.key = key) (keys : List Int) :
    ((keys.filterMap f).map (fun r => r.key)).Sublist keys := by
  induction keys with
  | nil => simp
  | cons key rest ih =>
    cases hk : f key with
    | none =>
      rw [List.filterMap_cons_none hk]
      exact List.Sublist.cons _ ih
    | some r =>
      rw [List.filterMap_cons_some hk, List.map_cons, hf key r hk]
      exact List.Sublist.cons₂ _ ih

/-- What the major merge of one split writes: every row written is a row of the input
that is not a delete marker, lies in the key range of the split and is the newest version
of its key not above the snapshot; a key whose versions from some delete marker on (up to
the snapshot) are all delete markers gets no row; and no key gets two rows. -/
theorem major_merge_rows_spec (tables : List (List Row)) (snapshot : Int)
    (range : ObDatumRange) :
    (∀ r ∈ major_merge_rows tables snapshot range,
      r ∈ tables.flatten ∧ r.value.isSome = true ∧ r.version ≤ snapshot ∧
      (range.start_key_ ≤ r.key ∧ r.key < range.end_key_) ∧
      ∀ r' ∈ tables.flatten, r'.key = r.key → r'.version ≤ snapshot →
        r'.version ≤ r.version) ∧
    (∀ d ∈ tables.flatten, d.value = none → d.version ≤ snapshot →
      (∀ r' ∈ tables.flatten, r'.key = d.key → r'.version ≤ snapshot →
        d.version ≤ r'.version → r'.value = none) →
      ∀ r ∈ major_merge_rows tables snapshot range, r.key ≠ d.key) ∧
    ((major_merge_rows tables snapshot range).map (fun r => r.key)).Nodup := by
  have hmem : ∀ r ∈ major_merge_rows tables snapshot range,
      (range.start_key_ ≤ r.key ∧ r.key < range.end_key_) ∧
      newest_visible snapshot r.key tables.flatten = some r ∧ r.value.isSome = true := by
    intro r hr
    simp only [major_merge_rows, List.mem_filterMap, List.mem_filter] at hr
    obtain ⟨key, ⟨_, hrange⟩, hf⟩ := hr
    cases hv : newest_visible snapshot key tables.flatten with
    | none => simp [hv] at hf
    | some x =>
      simp only [hv] at hf
      split_ifs at hf with hsome
      simp only [Option.some.injEq] at hf
      subst hf
      have hk := (newest_visible_spec snapshot key tables.flatten x hv).2.1
      rw [hk]
      exact ⟨by simpa using hrange, hv, hsome⟩
  refine ⟨?_, ?_, ?_⟩
  · intro r hr
    obtain ⟨hrange, hv, hsome⟩ := hmem r hr
    obtain ⟨h1, _, h3, h4⟩ := newest_visible_spec snapshot r.key tables.flatten r hv
    exact ⟨h1, hsome, h3, hrange, h4⟩
  · intro d hd hdel hdv hall r hr hkey
    obtain ⟨_, hv, hsome⟩ := hmem r hr
    obtain ⟨h1, _, h3, h4⟩ := newest_visible_spec snapshot r.key tables.flatten r hv
    have hge : d.version ≤ r.version := h4 d hd hkey.symm hdv
    have := hall r h1 hkey h3 hge
    rw [this] at hsome
    simp at hsome
  · apply List.Nodup.sublist (filterMap_keys_sublist _ _ _)
    · apply List.Nodup.filter
      exact (List.perm_insertionSort _ _).nodup_iff.2 (List.nodup_dedup _)
    · intro key r hf
      cases hv : newest_visible snapshot key tables.flatten with
      | none => simp [hv] at hf
      | some x =>
        simp only [hv] at hf
        split_ifs at hf
        simp only [Option.some.injEq] at hf
        subst hf
        exact (newest_visible_spec snapshot key tables.flatten x hv).2.1

theorem merge_parameter_init_tables (k : MergeKinds) (p : ObMergeParameter)
    (merge_ctx : ObTabletMergeCtx) (idx : Int)
    (h : (ObMergeParameter.init k p merge_ctx idx).1 = ObRet.OB_SUCCESS) :
    (ObMergeParameter.init k p merge_ctx idx).2.tables_handle_ = some merge_ctx.tables_handle_ := by
  unfold ObMergeParameter.init at h ⊢
  by_cases hc : (!merge_ctx.valid || decide (idx < 0) ||
      decide (idx ≥ merge_ctx.concurrent_cnt)) = true
  · simp only [hc, if_true] at h
    exact absurd h (by decide)
  · simp only [hc] at h ⊢
    by_cases hf : OB_FAIL (merge_ctx.merge_range idx).1 = true
    · simp only [hf, if_true] at h
      simp [OB_FAIL] at hf
      exact absurd h hf
    · simp [hf]

/-- The rows the spec-modelled major merger writes for a major merge are none, or the
major merge of the tables of the context at its snapshot version. -/
theorem spec_merge_partition_major (k : MergeKinds) (ctx : ObTabletMergeCtx) (idx : Int)
    (hmajor : k.is_major_merge ctx.param_.merge_type_ = true) :
    (spec_merge_partition k MergerKind.major ctx idx).2 = [] ∨
    ∃ range, (spec_merge_partition k MergerKind.major ctx idx).2 =
      major_merge_rows ctx.tables_handle_ ctx.sstable_version_range_.snapshot_version_ range := by
  unfold spec_merge_partition
  by_cases hf : OB_FAIL (ObMergeParameter.init k blank_param ctx idx).1 = true
  · left; simp [hf]
  · have hs : (ObMergeParameter.init k blank_param ctx idx).1 = ObRet.OB_SUCCESS := by
      simpa [OB_FAIL] using hf
    right
    refine ⟨(ObMergeParameter.init k blank_param ctx idx).2.merge_range_, ?_⟩
    simp only [hf, merge_parameter_init_tables k blank_param ctx idx hs,
      merge_parameter_init_version_range k blank_param ctx idx hs]
    simp [adjust_version_range, hmajor]

/-- C19: a merge task initialised for a major merge owns the major merger, and when the
merge is not paused its `process()` runs `merge_partition` of that merger. Its output
holds, for every key, at most one row, which is the newest version of the key not above
`snapshot_version` and is not a delete marker; a key whose newest version up to the
snapshot is a delete marker gets no row. For the tables `{k1@v1=A, k1@v3=B,
k1@v5=deleted}` and snapshot 5 the output therefore holds no row for `k1`. -/
theorem major_merge_task_output (k : MergeKinds) (ctx : ObTabletMergeCtx)
    (dag_type : ObDagTypeEnum) (idx : Int) (t : ObTabletMergeTask)
    (hmajor : k.is_major_merge ctx.param_.merge_type_ = true)
    (ht : (ObTabletMergeTask.new dag_type).init k true idx ctx = (ObRet.OB_SUCCESS, t)) :
    t.merger_ = some MergerKind.major ∧
    (t.process k true (spec_merge_partition k)).merge_partition_called = true ∧
    (∀ r ∈ (t.process k true (spec_merge_partition k)).output,
      r ∈ ctx.tables_handle_.flatten ∧ r.value.isSome = true ∧
      r.version ≤ ctx.sstable_version_range_.snapshot_version_ ∧
      ∀ r' ∈ ctx.tables_handle_.flatten, r'.key = r.key →
        r'.version ≤ ctx.sstable_version_range_.snapshot_version_ → r'.version ≤ r.version) ∧
    (∀ d ∈ ctx.tables_handle_.flatten, d.value = none →
      d.version ≤ ctx.sstable_version_range_.snapshot_version_ →
      (∀ r' ∈ ctx.tables_handle_.flatten, r'.key = d.key →
        r'.version ≤ ctx.sstable_version_range_.snapshot_version_ →
        d.version ≤ r'.version → r'.value = none) →
      ∀ r ∈ (t.process k true (spec_merge_partition k)).output, r.key ≠ d.key) ∧
    ((t.process k true (spec_merge_partition k)).output.map (fun r => r.key)).Nodup := by
  have hfields : t.is_inited_ = true ∧ t.ctx_ = some ctx ∧ t.idx_ = idx ∧
      t.merger_ = some MergerKind.major := by
    unfold ObTabletMergeTask.init at ht
    simp only [ObTabletMergeTask.new, hmajor, Bool.true_or, if_true] at ht
    split_ifs at ht <;> simp only [Prod.mk.injEq, reduceCtorEq, false_and] at ht
    all_goals
      obtain ⟨_, ht2⟩ := ht
      subst ht2
      exact ⟨rfl, rfl, rfl, rfl⟩
  obtain ⟨h1, h2, h3, h4⟩ := hfields
  have hout : (t.process k true (spec_merge_partition k)).merge_partition_called = true ∧
      (t.process k true (spec_merge_partition k)).output =
        (spec_merge_partition k MergerKind.major ctx idx).2 := by
    simp [ObTabletMergeTask.process, ObTabletMergeTask.run_merger, h1, h2, h3, h4, hmajor]
  refine ⟨h4, hout.1, ?_⟩
  rw [hout.2]
  rcases spec_merge_partition_major k ctx idx hmajor with he | ⟨range, he⟩
  · rw [he]
    simp
  · rw [he]
    obtain ⟨p1, p2, p3⟩ := major_merge_rows_spec ctx.tables_handle_
      ctx.sstable_version_range_.snapshot_version_ range
    refine ⟨?_, p2, p3⟩
    intro r hr
    obtain ⟨a, b, c, _, e⟩ := p1 r hr
    exact ⟨a, b, c, e⟩

/-- The major merge of the tables `{k1@v1=A, k1@v3=B, k1@v5=deleted}` at snapshot 5, run
by the merge task of the split that covers `k1`: no row for `k1`, no row at all; at
snapshot 4, before the delete, the merge keeps `k1@v3=B` alone. -/
theorem major_merge_task_output_witness :
    (sample_merge_task ObDagTypeEnum.DAG_TYPE_MAJOR_MERGE ObMergeType.MAJOR_MERGE 2 1).merger_
      = some MergerKind.major ∧
    ((sample_merge_task ObDagTypeEnum.DAG_TYPE_MAJOR_MERGE ObMergeType.MAJOR_MERGE 2 1).process
        spec_kinds true (spec_merge_partition spec_kinds)).merge_partition_called = true ∧
    (∀ r ∈ ((sample_merge_task ObDagTypeEnum.DAG_TYPE_MAJOR_MERGE ObMergeType.MAJOR_MERGE 2
        1).process spec_kinds true (spec_merge_partition spec_kinds)).output, r.key ≠ 1) ∧
    ((sample_merge_task ObDagTypeEnum.DAG_TYPE_MAJOR_MERGE ObMergeType.MAJOR_MERGE 2 1).process
        spec_kinds true (spec_merge_partition spec_kinds)).output = [] ∧
    major_merge_rows (sample_ctx ObMergeType.MAJOR_MERGE 2).tables_handle_ 4
        { start_key_ := 1, end_key_ := 2 }
      = [{ key := 1, version := 3, value := some 20 }] :=
  ⟨(major_merge_task_output spec_kinds (sample_ctx ObMergeType.MAJOR_MERGE 2)
      ObDagTypeEnum.DAG_TYPE_MAJOR_MERGE 1
      (sample_merge_task ObDagTypeEnum.DAG_TYPE_MAJOR_MERGE ObMergeType.MAJOR_MERGE 2 1)
      (by decide) rfl).1,
   (major_merge_task_output spec_kinds (sample_ctx ObMergeType.MAJOR_MERGE 2)
      ObDagTypeEnum.DAG_TYPE_MAJOR_MERGE 1
      (sample_merge_task ObDagTypeEnum.DAG_TYPE_MAJOR_MERGE ObMergeType.MAJOR_MERGE 2 1)
      (by decide) rfl).2.1,
   (major_merge_task_output spec_kinds (sample_ctx ObMergeType.MAJOR_MERGE 2)
      ObDagTypeEnum.DAG_TYPE_MAJOR_MERGE 1
      (sample_merge_task ObDagTypeEnum.DAG_TYPE_MAJOR_MERGE ObMergeType.MAJOR_MERGE 2 1)
      (by decide) rfl).2.2.2.1 { key := 1, version := 5, value := none }
      (by decide) rfl (by decide) (by decide),
   by decide,
   by decide⟩

/-! ## C17 -/

/-- C17: when the prepare task is initialised, the merge is not paused, `get_tablet`
succeeds and `build_merge_ctx` reports `OB_NO_NEED_MERGE`, `process()` returns
`OB_NO_NEED_MERGE` without calling `generate_merge_task`, and the Dag is as before the
call: no merge task and no finish task has been added. -/
theorem prepare_process_no_need_merge (k : MergeKinds) (e : DagEnv) (env : PrepareEnv)
    (this_id : Nat) (d : DagState) (ctx : ObTabletMergeCtx)
    (hrun : (k.is_major_merge ctx.param_.merge_type_ && !env.could_major_merge_start) = false)
    (htablet : env.get_tablet_ret = ObRet.OB_SUCCESS)
    (hbuild : (build_merge_ctx k e env true ctx).1 = ObRet.OB_NO_NEED_MERGE) :
    (ObTabletMergePrepareTask.process k e env this_id true d ctx).ret = ObRet.OB_NO_NEED_MERGE ∧
    (ObTabletMergePrepareTask.process k e env this_id true d ctx).generate_merge_task_called
      = false ∧
    (ObTabletMergePrepareTask.process k e env this_id true d ctx).dag = d := by
  have hb : prepare_process_build k e env true ctx = build_merge_ctx k e env true ctx := by
    simp [prepare_process_build, hrun, htablet, hbuild, OB_FAIL]
  simp [ObTabletMergePrepareTask.process, hb, hbuild, OB_FAIL]

/-- A minor merge whose `inner_init_for_minor` finds nothing to merge, in a Dag that
holds its prepare task only. -/
theorem prepare_process_no_need_merge_witness :
    (build_merge_ctx spec_kinds sample_dag_env (prepare_env ObRet.OB_NO_NEED_MERGE) true
        (sample_ctx ObMergeType.MINOR_MERGE 4)).1 = ObRet.OB_NO_NEED_MERGE ∧
    (ObTabletMergePrepareTask.process spec_kinds sample_dag_env
        (prepare_env ObRet.OB_NO_NEED_MERGE) 0 true
        (dag_with_prepare ObDagTypeEnum.DAG_TYPE_MINOR_MERGE)
        (sample_ctx ObMergeType.MINOR_MERGE 4)).ret = ObRet.OB_NO_NEED_MERGE ∧
    (ObTabletMergePrepareTask.process spec_kinds sample_dag_env
        (prepare_env ObRet.OB_NO_NEED_MERGE) 0 true
        (dag_with_prepare ObDagTypeEnum.DAG_TYPE_MINOR_MERGE)
        (sample_ctx ObMergeType.MINOR_MERGE 4)).generate_merge_task_called = false ∧
    (ObTabletMergePrepareTask.process spec_kinds sample_dag_env
        (prepare_env ObRet.OB_NO_NEED_MERGE) 0 true
        (dag_with_prepare ObDagTypeEnum.DAG_TYPE_MINOR_MERGE)
        (sample_ctx ObMergeType.MINOR_MERGE 4)).dag
      = dag_with_prepare ObDagTypeEnum.DAG_TYPE_MINOR_MERGE ∧
    (ObTabletMergePrepareTask.process spec_kinds sample_dag_env
        (prepare_env ObRet.OB_SUCCESS) 0 true
        (dag_with_prepare ObDagTypeEnum.DAG_TYPE_MINOR_MERGE)
        (sample_ctx ObMergeType.MINOR_MERGE 4)).dag.task_list_ = [0, 1, 2] :=
  ⟨by decide,
   (prepare_process_no_need_merge spec_kinds sample_dag_env (prepare_env ObRet.OB_NO_NEED_MERGE)
      0 (dag_with_prepare ObDagTypeEnum.DAG_TYPE_MINOR_MERGE)
      (sample_ctx ObMergeType.MINOR_MERGE 4) (by decide) (by decide) (by decide)).1,
   (prepare_process_no_need_merge spec_kinds sample_dag_env (prepare_env ObRet.OB_NO_NEED_MERGE)
      0 (dag_with_prepare ObDagTypeEnum.DAG_TYPE_MINOR_MERGE)
      (sample_ctx ObMergeType.MINOR_MERGE 4) (by decide) (by decide) (by decide)).2.1,
   (prepare_process_no_need_merge spec_kinds sample_dag_env (prepare_env ObRet.OB_NO_NEED_MERGE)
      0 (dag_with_prepare ObDagTypeEnum.DAG_TYPE_MINOR_MERGE)
      (sample_ctx ObMergeType.MINOR_MERGE 4) (by decide) (by decide) (by decide)).2.2,
   by decide⟩

/-! ## C21 -/

/-- The outcomes of the first part of `generate_merge_task`: it fails before a merge
task exists, or it fails with the merge task allocated but not in the task list, or it
succeeds with the merge task initialised, linked under the prepare task and added. -/
theorem generate_merge_task_merge_cases (k : MergeKinds) (env : GenTaskEnv) (this_id : Nat)
    (is_inited : Bool) (d : DagState) (ctx : ObTabletMergeCtx) :
    (OB_FAIL (generate_merge_task_merge k env this_id is_inited d ctx).1 = true ∧
      (generate_merge_task_merge k env this_id is_inited d ctx).2.2 = none ∧
      (generate_merge_task_merge k env this_id is_inited d ctx).2.1 = d) ∨
    (OB_FAIL (generate_merge_task_merge k env this_id is_inited d ctx).1 = true ∧
      (generate_merge_task_merge k env this_id is_inited d ctx).2.2 = some d.next_id ∧
      (generate_merge_task_merge k env this_id is_inited d ctx).2.1.task_list_ = d.task_list_ ∧
      (generate_merge_task_merge k env this_id is_inited d ctx).2.1.next_id = d.next_id + 1 ∧
      ∀ i, i ≠ this_id → i ≠ d.next_id →
        (generate_merge_task_merge k env this_id is_inited d ctx).2.1.nodes i = d.nodes i) ∨
    ((generate_merge_task_merge k env this_id is_inited d ctx).1 = ObRet.OB_SUCCESS ∧
      (generate_merge_task_merge k env this_id is_inited d ctx).2.2 = some d.next_id ∧
      (generate_merge_task_merge k env this_id is_inited d ctx).2.1
        = (((d.alloc_task TaskKind.merge).2.set_inited d.next_id 0).add_child
            this_id d.next_id).add_task d.next_id) := by
  unfold generate_merge_task_merge
  dsimp only
  split_ifs with h1 h2 h3 h4 h5 h6
  · left; simp [OB_FAIL]
  · left; exact ⟨h2, rfl, rfl⟩
  · left; exact ⟨h3, rfl, rfl⟩
  · right; left
    refine ⟨h4, rfl, rfl, rfl, ?_⟩
    intro i _ hi
    simp [DagState.alloc_task, Function.update, hi]
  · right; left
    refine ⟨h5, rfl, rfl, rfl, ?_⟩
    intro i _ hi
    simp [DagState.alloc_task, DagState.set_inited, Function.update, hi]
  · right; left
    refine ⟨h6, rfl, rfl, rfl, ?_⟩
    intro i hi1 hi
    simp [DagState.alloc_task, DagState.set_inited, DagState.add_child, Function.update, hi,
      hi1]
  · right; right; exact ⟨rfl, rfl, rfl⟩

/-- The second part of `generate_merge_task` does nothing when the first has failed. -/
theorem generate_merge_task_finish_of_fail (env : GenTaskEnv) (this_id : Nat) (ret : ObRet)
    (d : DagState) (ctx : ObTabletMergeCtx) (merge_task : Option Nat)
    (h : OB_FAIL ret = true) :
    generate_merge_task_finish env this_id ret d ctx merge_task = (ret, d, none) := by
  simp [generate_merge_task_finish, h]

/-- The outcomes of the second part of `generate_merge_task` after a first part that
succeeded with the merge task `m`. -/
theorem generate_merge_task_finish_cases (env : GenTaskEnv) (this_id : Nat)
    (d : DagState) (ctx : ObTabletMergeCtx) (m : Nat) :
    (OB_FAIL (generate_merge_task_finish env this_id ObRet.OB_SUCCESS d ctx (some m)).1 = true ∧
      (generate_merge_task_finish env this_id ObRet.OB_SUCCESS d ctx (some m)).2.2 = none ∧
      (generate_merge_task_finish env this_id ObRet.OB_SUCCESS d ctx (some m)).2.1 = d) ∨
    (OB_FAIL (generate_merge_task_finish env this_id ObRet.OB_SUCCESS d ctx (some m)).1 = true ∧
      (generate_merge_task_finish env this_id ObRet.OB_SUCCESS d ctx (some m)).2.2
        = some d.next_id ∧
      (generate_merge_task_finish env this_id ObRet.OB_SUCCESS d ctx (some m)).2.1.task_list_
        = d.task_list_ ∧
      ∀ i, i ≠ m → i ≠ d.next_id →
        (generate_merge_task_finish env this_id ObRet.OB_SUCCESS d ctx (some m)).2.1.nodes i
          = d.nodes i) ∨
    ((generate_merge_task_finish env this_id ObRet.OB_SUCCESS d ctx (some m)).1
        = ObRet.OB_SUCCESS ∧
      (generate_merge_task_finish env this_id ObRet.OB_SUCCESS d ctx (some m)).2.2
        = some d.next_id ∧
      (generate_merge_task_finish env this_id ObRet.OB_SUCCESS d ctx (some m)).2.1
        = (((d.alloc_task TaskKind.finish).2.set_inited d.next_id 0).add_child
            m d.next_id).add_task d.next_id) := by
  unfold generate_merge_task_finish
  dsimp only
  have h0 : OB_FAIL ObRet.OB_SUCCESS = false := rfl
  rw [if_neg (by simp [h0])]
  split_ifs with h3 h4 h5 h6
  · left; exact ⟨h3, rfl, rfl⟩
  · right; left
    refine ⟨h4, rfl, rfl, ?_⟩
    intro i _ hi
    simp [DagState.alloc_task, Function.update, hi]
  · right; left
    refine ⟨h5, rfl, rfl, ?_⟩
    intro i _ hi
    simp [DagState.alloc_task, DagState.set_inited, Function.update, hi]
  · right; left
    refine ⟨h6, rfl, rfl, ?_⟩
    intro i hi1 hi
    simp [DagState.alloc_task, DagState.set_inited, DagState.add_child, Function.update, hi,
      hi1]
  · right; right; exact ⟨rfl, rfl, rfl⟩

/-- The Dag after a `generate_merge_task` whose first part failed before the merge task
existed. -/
theorem generate_merge_task_of_early_fail (k : MergeKinds) (env : GenTaskEnv) (this_id : Nat)
    (is_inited : Bool) (d : DagState) (ctx : ObTabletMergeCtx)
    (h1 : OB_FAIL (generate_merge_task_merge k env this_id is_inited d ctx).1 = true)
    (h2 : (generate_merge_task_merge k env this_id is_inited d ctx).2.2 = none) :
    generate_merge_task k env this_id is_inited d ctx
      = ((generate_merge_task_merge k env this_id is_inited d ctx).1,
         (generate_merge_task_merge k env this_id is_inited d ctx).2.1) := by
  unfold generate_merge_task
  dsimp only
  rw [generate_merge_task_finish_of_fail _ _ _ _ _ _ h1]
  simp only [h1, h2, if_true]

/-- The Dag after a `generate_merge_task` whose first part failed with the merge task
allocated: the merge task is removed. -/
theorem generate_merge_task_of_merge_fail (k : MergeKinds) (env : GenTaskEnv) (this_id : Nat)
    (is_inited : Bool) (d : DagState) (ctx : ObTabletMergeCtx) (m : Nat)
    (h1 : OB_FAIL (generate_merge_task_merge k env this_id is_inited d ctx).1 = true)
    (h2 : (generate_merge_task_merge k env this_id is_inited d ctx).2.2 = some m) :
    generate_merge_task k env this_id is_inited d ctx
      = ((generate_merge_task_merge k env this_id is_inited d ctx).1,
         (generate_merge_task_merge k env this_id is_inited d ctx).2.1.remove_task m) := by
  unfold generate_merge_task
  dsimp only
  rw [generate_merge_task_finish_of_fail _ _ _ _ _ _ h1]
  simp only [h1, h2, if_true]

/-- The Dag after a `generate_merge_task` whose first part succeeded with the merge task
`m` in the Dag `d1`: the result is decided by the second part run on `d1`. -/
theorem generate_merge_task_of_merge_ok (k : MergeKinds) (env : GenTaskEnv) (this_id : Nat)
    (is_inited : Bool) (d d1 : DagState) (ctx : ObTabletMergeCtx) (m : Nat)
    (h1 : (generate_merge_task_merge k env this_id is_inited d ctx).1 = ObRet.OB_SUCCESS)
    (h2 : (generate_merge_task_merge k env this_id is_inited d ctx).2.2 = some m)
    (h3 : (generate_merge_task_merge k env this_id is_inited d ctx).2.1 = d1) :
    generate_merge_task k env this_id is_inited d ctx
      = if OB_FAIL (generate_merge_task_finish env this_id ObRet.OB_SUCCESS d1 ctx (some m)).1
        then
          ((generate_merge_task_finish env this_id ObRet.OB_SUCCESS d1 ctx (some m)).1,
            match (generate_merge_task_finish env this_id ObRet.OB_SUCCESS d1 ctx (some m)).2.2
            with
            | some finish_task =>
              ((generate_merge_task_finish env this_id ObRet.OB_SUCCESS d1 ctx
                (some m)).2.1.remove_task m).remove_task finish_task
            | none =>
              (generate_merge_task_finish env this_id ObRet.OB_SUCCESS d1 ctx
                (some m)).2.1.remove_task m)
        else
          ((generate_merge_task_finish env this_id ObRet.OB_SUCCESS d1 ctx (some m)).1,
            (generate_merge_task_finish env this_id ObRet.OB_SUCCESS d1 ctx (some m)).2.1) := by
  unfold generate_merge_task
  dsimp only
  simp only [h1, h2, h3]

/-- C21: for an initialised prepare task `this_id` of a Dag whose task list and task
objects lie below the allocation mark, a `generate_merge_task` that succeeds leaves a
merge task with `idx_ = 0` that is a child of the prepare task and has as its only child
one finish task, both appended to the task list, every other task being as before; a
`generate_merge_task` that fails leaves the task list as it was and neither task object
in the Dag. -/
theorem generate_merge_task_spec (k : MergeKinds) (env : GenTaskEnv) (this_id : Nat)
    (is_inited : Bool) (d : DagState) (ctx : ObTabletMergeCtx) (p : TaskNode)
    (hlist : ∀ i ∈ d.task_list_, i < d.next_id)
    (hfresh : ∀ i, d.next_id ≤ i → d.nodes i = none)
    (hthis : d.nodes this_id = some p) :
    ((generate_merge_task k env this_id is_inited d ctx).1 = ObRet.OB_SUCCESS →
      (generate_merge_task k env this_id is_inited d ctx).2.nodes d.next_id
        = some { kind := TaskKind.merge, idx_ := 0, is_inited_ := true,
                 children := [d.next_id + 1] } ∧
      (generate_merge_task k env this_id is_inited d ctx).2.nodes (d.next_id + 1)
        = some { kind := TaskKind.finish, idx_ := 0, is_inited_ := true, children := [] } ∧
      (generate_merge_task k env this_id is_inited d ctx).2.nodes this_id
        = some { p with children := p.children ++ [d.next_id] } ∧
      (generate_merge_task k env this_id is_inited d ctx).2.task_list_
        = d.task_list_ ++ [d.next_id, d.next_id + 1] ∧
      ∀ i, i ≠ this_id → i ≠ d.next_id → i ≠ d.next_id + 1 →
        (generate_merge_task k env this_id is_inited d ctx).2.nodes i = d.nodes i) ∧
    ((generate_merge_task k env this_id is_inited d ctx).1 ≠ ObRet.OB_SUCCESS →
      (generate_merge_task k env this_id is_inited d ctx).2.task_list_ = d.task_list_ ∧
      (generate_merge_task k env this_id is_inited d ctx).2.nodes d.next_id = none ∧
      (generate_merge_task k env this_id is_inited d ctx).2.nodes (d.next_id + 1) = none ∧
      ∀ i, i ≠ this_id →
        (generate_merge_task k env this_id is_inited d ctx).2.nodes i = d.nodes i) := by
  have hlt : this_id < d.next_id := by
    by_contra hc
    rw [hfresh this_id (by omega)] at hthis
    cases hthis
  have hne : this_id ≠ d.next_id := by omega
  have hne1 : this_id ≠ d.next_id + 1 := by omega
  have hmem : d.next_id ∉ d.task_list_ := fun h => by have := hlist _ h; omega
  have hmem1 : d.next_id + 1 ∉ d.task_list_ := fun h => by have := hlist _ h; omega
  have hn0 : d.nodes d.next_id = none := hfresh _ (le_refl _)
  have hn1 : d.nodes (d.next_id + 1) = none := hfresh _ (by omega)
  rcases generate_merge_task_merge_cases k env this_id is_inited d ctx with
    ⟨h1, h2, h3⟩ | ⟨h1, h2, h3, _, h5⟩ | ⟨h1, h2, h3⟩
  · rw [generate_merge_task_of_early_fail k env this_id is_inited d ctx h1 h2, h3]
    have hf : (generate_merge_task_merge k env this_id is_inited d ctx).1 ≠ ObRet.OB_SUCCESS :=
      (TxData.OB_FAIL_iff _).1 h1
    exact ⟨fun h => absurd h hf, fun _ => ⟨rfl, hn0, hn1, fun _ _ => rfl⟩⟩
  · rw [generate_merge_task_of_merge_fail k env this_id is_inited d ctx _ h1 h2]
    have hf : (generate_merge_task_merge k env this_id is_inited d ctx).1 ≠ ObRet.OB_SUCCESS :=
      (TxData.OB_FAIL_iff _).1 h1
    refine ⟨fun h => absurd h hf, fun _ => ⟨?_, ?_, ?_, ?_⟩⟩
    · simp [DagState.remove_task, h3, List.erase_of_not_mem hmem]
    · simp [DagState.remove_task]
    · simp only [DagState.remove_task]
      rw [Function.update_noteq (by omega), h5 _ (by omega) (by omega), hn1]
    · intro i hi
      simp only [DagState.remove_task]
      by_cases hi0 : i = d.next_id
      · subst hi0; simp [hn0]
      · rw [Function.update_noteq hi0, h5 _ hi hi0]
  · rw [generate_merge_task_of_merge_ok k env this_id is_inited d _ ctx _ h1 h2 h3]
    have hd1 : (((d.alloc_task TaskKind.merge).2.set_inited d.next_id 0).add_child
        this_id d.next_id).add_task d.next_id
        = { type_ := d.type_
            nodes := Function.update (Function.update d.nodes d.next_id
              (some { kind := TaskKind.merge, idx_ := 0, is_inited_ := true, children := [] }))
              this_id (some { p with children := p.children ++ [d.next_id] })
            task_list_ := d.task_list_ ++ [d.next_id]
            next_id := d.next_id + 1 } := by
      simp [DagState.alloc_task, DagState.set_inited, DagState.add_child, DagState.add_task,
        Function.update, hne, hthis]
    obtain ⟨D, hD, hDn, hDl, hDnodes⟩ : ∃ D : DagState,
        (((d.alloc_task TaskKind.merge).2.set_inited d.next_id 0).add_child
          this_id d.next_id).add_task d.next_id = D ∧
        D.next_id = d.next_id + 1 ∧ D.task_list_ = d.task_list_ ++ [d.next_id] ∧
        D.nodes = Function.update (Function.update d.nodes d.next_id
          (some { kind := TaskKind.merge, idx_ := 0, is_inited_ := true, children := [] }))
          this_id (some { p with children := p.children ++ [d.next_id] }) :=
      ⟨_, hd1, rfl, rfl, rfl⟩
    rw [hD]
    have herase : (d.task_list_ ++ [d.next_id]).erase d.next_id = d.task_list_ := by
      rw [List.erase_append_right _ hmem]; simp
    rcases generate_merge_task_finish_cases env this_id D ctx d.next_id with
      ⟨f1, f2, f3⟩ | ⟨f1, f2, f3, f4⟩ | ⟨f1, f2, f3⟩
    · rw [if_pos f1, f2, f3]
      have hf := (TxData.OB_FAIL_iff _).1 f1
      refine ⟨fun h => absurd h hf, fun _ => ⟨?_, ?_, ?_, ?_⟩⟩
      · simp [DagState.remove_task, hDl, herase]
      · simp [DagState.remove_task]
      · simp only [DagState.remove_task, hDnodes]
        rw [Function.update_noteq (by omega), Function.update_noteq (Ne.symm hne1),
          Function.update_noteq (by omega), hn1]
      · intro i hi
        simp only [DagState.remove_task, hDnodes]
        by_cases hi0 : i = d.next_id
        · subst hi0; simp [hn0]
        · rw [Function.update_noteq hi0, Function.update_noteq hi, Function.update_noteq hi0]
    · rw [if_pos f1, f2, hDn]
      have hf := (TxData.OB_FAIL_iff _).1 f1
      refine ⟨fun h => absurd h hf, fun _ => ⟨?_, ?_, ?_, ?_⟩⟩
      · simp only [DagState.remove_task, f3, hDl, herase]
        exact List.erase_of_not_mem hmem1
      · simp only [DagState.remove_task]
        rw [Function.update_noteq (by omega), Function.update_same]
      · simp only [DagState.remove_task]
        rw [Function.update_same]
      · intro i hi
        simp only [DagState.remove_task]
        by_cases hi1 : i = d.next_id + 1
        · subst hi1; simp [hn1]
        · rw [Function.update_noteq hi1]
          by_cases hi0 : i = d.next_id
          · subst hi0; simp [hn0]
          · rw [Function.update_noteq hi0, f4 i hi0 (by rw [hDn]; exact hi1), hDnodes,
              Function.update_noteq hi, Function.update_noteq hi0]
    · have f1b : OB_FAIL (generate_merge_task_finish env this_id ObRet.OB_SUCCESS D ctx
          (some d.next_id)).1 = false := (TxData.OB_FAIL_false_iff _).2 f1
      rw [if_neg (by simp [f1b]), f3]
      refine ⟨fun _ => ?_, fun h => absurd f1 h⟩
      simp only [DagState.alloc_task, DagState.set_inited, DagState.add_child,
        DagState.add_task, hDn, hDl, hDnodes]
      refine ⟨?_, ?_, ?_, ?_, ?_⟩
      · simp [Function.update, hne, Ne.symm hne]
      · simp [Function.update, hne1, Ne.symm hne1]
      · simp [Function.update, hne, hne1]
      · simp
      · intro i hi hi0 hi1
        simp [Function.update, hi, hi0, hi1]

/-- A Dag that holds its prepare task only: with every call succeeding the tasks 1 (merge)
and 2 (finish) are added; when the last `add_task` fails both are removed again. -/
theorem generate_merge_task_spec_witness :
    (∀ i ∈ (dag_with_prepare ObDagTypeEnum.DAG_TYPE_MINOR_MERGE).task_list_,
      i < (dag_with_prepare ObDagTypeEnum.DAG_TYPE_MINOR_MERGE).next_id) ∧
    (∀ i, (dag_with_prepare ObDagTypeEnum.DAG_TYPE_MINOR_MERGE).next_id ≤ i →
      (dag_with_prepare ObDagTypeEnum.DAG_TYPE_MINOR_MERGE).nodes i = none) ∧
    (generate_merge_task spec_kinds ok_gen_task 0 true
      (dag_with_prepare ObDagTypeEnum.DAG_TYPE_MINOR_MERGE)
      (sample_ctx ObMergeType.MINOR_MERGE 4)).1 = ObRet.OB_SUCCESS ∧
    (generate_merge_task spec_kinds ok_gen_task 0 true
      (dag_with_prepare ObDagTypeEnum.DAG_TYPE_MINOR_MERGE)
      (sample_ctx ObMergeType.MINOR_MERGE 4)).2.nodes 1
      = some { kind := TaskKind.merge, idx_ := 0, is_inited_ := true, children := [2] } ∧
    (generate_merge_task spec_kinds ok_gen_task 0 true
      (dag_with_prepare ObDagTypeEnum.DAG_TYPE_MINOR_MERGE)
      (sample_ctx ObMergeType.MINOR_MERGE 4)).2.nodes 2
      = some { kind := TaskKind.finish, idx_ := 0, is_inited_ := true, children := [] } ∧
    (generate_merge_task spec_kinds ok_gen_task 0 true
      (dag_with_prepare ObDagTypeEnum.DAG_TYPE_MINOR_MERGE)
      (sample_ctx ObMergeType.MINOR_MERGE 4)).2.nodes 0
      = some { kind := TaskKind.prepare, idx_ := 0, is_inited_ := true, children := [1] } ∧
    (generate_merge_task spec_kinds ok_gen_task 0 true
      (dag_with_prepare ObDagTypeEnum.DAG_TYPE_MINOR_MERGE)
      (sample_ctx ObMergeType.MINOR_MERGE 4)).2.task_list_ = [0, 1, 2] ∧
    (generate_merge_task spec_kinds last_add_fails_gen_task 0 true
      (dag_with_prepare ObDagTypeEnum.DAG_TYPE_MINOR_MERGE)
      (sample_ctx ObMergeType.MINOR_MERGE 4)).1 = ObRet.OB_ALLOCATE_MEMORY_FAILED ∧
    (generate_merge_task spec_kinds last_add_fails_gen_task 0 true
      (dag_with_prepare ObDagTypeEnum.DAG_TYPE_MINOR_MERGE)
      (sample_ctx ObMergeType.MINOR_MERGE 4)).2.task_list_ = [0] ∧
    (generate_merge_task spec_kinds last_add_fails_gen_task 0 true
      (dag_with_prepare ObDagTypeEnum.DAG_TYPE_MINOR_MERGE)
      (sample_ctx ObMergeType.MINOR_MERGE 4)).2.nodes 1 = none ∧
    (generate_merge_task spec_kinds last_add_fails_gen_task 0 true
      (dag_with_prepare ObDagTypeEnum.DAG_TYPE_MINOR_MERGE)
      (sample_ctx ObMergeType.MINOR_MERGE 4)).2.nodes 2 = none :=
  have hl : ∀ i ∈ (dag_with_prepare ObDagTypeEnum.DAG_TYPE_MINOR_MERGE).task_list_,
      i < (dag_with_prepare ObDagTypeEnum.DAG_TYPE_MINOR_MERGE).next_id := by decide
  have hf : ∀ i, (dag_with_prepare ObDagTypeEnum.DAG_TYPE_MINOR_MERGE).next_id ≤ i →
      (dag_with_prepare ObDagTypeEnum.DAG_TYPE_MINOR_MERGE).nodes i = none := by
    intro i hi
    have h1 : 1 ≤ i := hi
    have h0 : i ≠ 0 := by omega
    simp [dag_with_prepare, h0]
  have hs := (generate_merge_task_spec spec_kinds ok_gen_task 0 true
    (dag_with_prepare ObDagTypeEnum.DAG_TYPE_MINOR_MERGE)
    (sample_ctx ObMergeType.MINOR_MERGE 4) _ hl hf rfl).1 (by decide)
  have hx := (generate_merge_task_spec spec_kinds last_add_fails_gen_task 0 true
    (dag_with_prepare ObDagTypeEnum.DAG_TYPE_MINOR_MERGE)
    (sample_ctx ObMergeType.MINOR_MERGE 4) _ hl hf rfl).2 (by decide)
  ⟨hl, hf, by decide, hs.1, hs.2.1, hs.2.2.1, hs.2.2.2.1, by decide, hx.1, hx.2.1, hx.2.2.1⟩

/-! ## C22 and C28 -/

/-- The calls of `try_schedule_compaction_after_mini` are scheduling calls. -/
theorem try_schedule_calls_are_schedule (env : ScheduleEnv) (ctx : ObTabletMergeCtx) :
    (ObTabletMergeFinishTask.try_schedule_compaction_after_mini env ctx).2.filter
        FinishCall.is_schedule
      = (ObTabletMergeFinishTask.try_schedule_compaction_after_mini env ctx).2 ∧
    (ObTabletMergeFinishTask.try_schedule_compaction_after_mini env ctx).2 ≠ [] := by
  unfold ObTabletMergeFinishTask.try_schedule_compaction_after_mini
  dsimp only
  split_ifs <;> simp [FinishCall.is_schedule]

/-- The scheduling calls of `add_sstable_for_merge` are those of its scheduling step,
and the code returned is not changed by that step. -/
theorem add_sstable_for_merge_schedule_calls (k : MergeKinds) (env : FinishEnv)
    (ctx : ObTabletMergeCtx) :
    (ObTabletMergeFinishTask.add_sstable_for_merge k env ctx).2.filter FinishCall.is_schedule
      = (if OB_SUCC (add_sstable_for_merge_schema k env ctx).1 then
          (add_sstable_for_merge_schedule k env ctx
            (add_sstable_for_merge_update k env ctx).1).filter FinishCall.is_schedule
         else []) := by
  unfold ObTabletMergeFinishTask.add_sstable_for_merge
  dsimp only
  split_ifs with h
  · have hs : (add_sstable_for_merge_schema k env ctx).2.filter FinishCall.is_schedule = [] := by
      unfold add_sstable_for_merge_schema
      split_ifs <;> simp [FinishCall.is_schedule]
    have hu : (add_sstable_for_merge_update k env ctx).2.filter FinishCall.is_schedule = [] := by
      unfold add_sstable_for_merge_update
      split_ifs <;> simp [FinishCall.is_schedule]
    simp only [List.filter_append, hs, hu, List.nil_append]
  · unfold add_sstable_for_merge_schema
    split_ifs <;> simp [FinishCall.is_schedule]

/-- C22: `add_sstable_for_merge` makes a follow-on scheduling call only when the merge is
a mini merge, `update_tablet_table_store` and `release_memtables` succeeded and the call
returns `OB_SUCCESS`; for a merge that is not a mini merge it makes none. When it does
schedule, the calls are those of `try_schedule_compaction_after_mini` for an ordinary
tablet and the single `schedule_tx_table_merge` for a special tablet. -/
theorem add_sstable_for_merge_schedules_after_mini_only (k : MergeKinds) (env : FinishEnv)
    (ctx : ObTabletMergeCtx) :
    ((ObTabletMergeFinishTask.add_sstable_for_merge k env ctx).2.filter
        FinishCall.is_schedule ≠ [] →
      k.is_mini_merge ctx.param_.merge_type_ = true ∧
      env.update_tablet_table_store_ret = ObRet.OB_SUCCESS ∧
      env.release_memtables_ret = ObRet.OB_SUCCESS ∧
      (ObTabletMergeFinishTask.add_sstable_for_merge k env ctx).1 = ObRet.OB_SUCCESS ∧
      (ObTabletMergeFinishTask.add_sstable_for_merge k env ctx).2.filter FinishCall.is_schedule
        = (if env.is_special_merge_tablet then [FinishCall.schedule_tx_table_merge]
           else (ObTabletMergeFinishTask.try_schedule_compaction_after_mini
                  env.schedule ctx).2)) ∧
    (k.is_mini_merge ctx.param_.merge_type_ = false →
      (ObTabletMergeFinishTask.add_sstable_for_merge k env ctx).2.filter
        FinishCall.is_schedule = []) ∧
    ((ObTabletMergeFinishTask.add_sstable_for_merge k env ctx).1 = ObRet.OB_SUCCESS →
      k.is_mini_merge ctx.param_.merge_type_ = true → env.new_tablet_handle_valid = true →
      (ObTabletMergeFinishTask.add_sstable_for_merge k env ctx).2.filter
        FinishCall.is_schedule ≠ []) := by
  rw [add_sstable_for_merge_schedule_calls]
  have ht := try_schedule_calls_are_schedule env.schedule ctx
  refine ⟨?_, ?_, ?_⟩
  · intro hne
    unfold ObTabletMergeFinishTask.add_sstable_for_merge
    dsimp only
    by_cases hs : OB_SUCC (add_sstable_for_merge_schema k env ctx).1 = true
    · rw [if_pos hs] at hne
      simp only [hs, if_true]
      unfold add_sstable_for_merge_schedule at hne ⊢
      by_cases hm : k.is_mini_merge ctx.param_.merge_type_ = true
      · by_cases hu : env.update_tablet_table_store_ret = ObRet.OB_SUCCESS
        · have hu1 : (add_sstable_for_merge_update k env ctx).1 = env.release_memtables_ret := by
            simp [add_sstable_for_merge_update, hu, hm, OB_FAIL]
          rw [hu1] at hne ⊢
          by_cases hr : env.release_memtables_ret = ObRet.OB_SUCCESS
          · by_cases hv : env.new_tablet_handle_valid = true
            · by_cases hsp : env.is_special_merge_tablet = true
              · simp [hm, hu, hr, hv, hsp, OB_SUCC, FinishCall.is_schedule]
              · simp [hm, hu, hr, hv, hsp, OB_SUCC, ht.1]
            · simp [hv] at hne
          · simp [hr, OB_SUCC] at hne
        · have hu1 : (add_sstable_for_merge_update k env ctx).1
              = env.update_tablet_table_store_ret := by
            simp [add_sstable_for_merge_update, hu, OB_FAIL]
          rw [hu1] at hne
          simp [hu, OB_SUCC] at hne
      · simp [hm] at hne
    · rw [if_neg hs] at hne
      exact absurd rfl hne
  · intro hm
    unfold add_sstable_for_merge_schedule
    simp [hm]
  · intro hok hm hv
    unfold ObTabletMergeFinishTask.add_sstable_for_merge at hok
    dsimp only at hok
    by_cases hs : OB_SUCC (add_sstable_for_merge_schema k env ctx).1 = true
    · rw [if_pos hs] at hok ⊢
      simp only at hok
      unfold add_sstable_for_merge_schedule
      rw [hok]
      by_cases hsp : env.is_special_merge_tablet = true
      · simp [hm, hv, hsp, OB_SUCC, FinishCall.is_schedule]
      · simp [hm, hv, hsp, OB_SUCC, ht.1, ht.2]
    · rw [if_neg hs] at hok
      simp [OB_SUCC, hok] at hs

/-- A mini merge of an ordinary tablet with `schedule_major_` set schedules the minor and
the major merge after the table-store update and the memtable release; a mini merge of a
special tablet schedules the tx-table merge; a major merge schedules nothing. -/
theorem add_sstable_for_merge_schedules_after_mini_only_witness :
    (ObTabletMergeFinishTask.add_sstable_for_merge spec_kinds (ok_finish false)
      (sample_ctx_major ObMergeType.MINI_MERGE true)).2
      = [FinishCall.update_tablet_table_store, FinishCall.release_memtables,
         FinishCall.schedule_tablet_minor_merge, FinishCall.schedule_tablet_major_merge] ∧
    (spec_kinds.is_mini_merge (sample_ctx_major ObMergeType.MINI_MERGE true).param_.merge_type_
        = true ∧
      (ok_finish true).update_tablet_table_store_ret = ObRet.OB_SUCCESS ∧
      (ok_finish true).release_memtables_ret = ObRet.OB_SUCCESS ∧
      (ObTabletMergeFinishTask.add_sstable_for_merge spec_kinds (ok_finish true)
        (sample_ctx_major ObMergeType.MINI_MERGE true)).1 = ObRet.OB_SUCCESS ∧
      (ObTabletMergeFinishTask.add_sstable_for_merge spec_kinds (ok_finish true)
        (sample_ctx_major ObMergeType.MINI_MERGE true)).2.filter FinishCall.is_schedule
        = [FinishCall.schedule_tx_table_merge]) ∧
    (ObTabletMergeFinishTask.add_sstable_for_merge spec_kinds (ok_finish false)
      (sample_ctx_major ObMergeType.MAJOR_MERGE true)).2.filter FinishCall.is_schedule = [] ∧
    (ObTabletMergeFinishTask.add_sstable_for_merge spec_kinds (ok_finish false)
      (sample_ctx_major ObMergeType.MINI_MERGE true)).2.filter FinishCall.is_schedule ≠ [] :=
  ⟨by decide,
   (add_sstable_for_merge_schedules_after_mini_only spec_kinds (ok_finish true)
      (sample_ctx_major ObMergeType.MINI_MERGE true)).1 (by decide),
   (add_sstable_for_merge_schedules_after_mini_only spec_kinds (ok_finish false)
      (sample_ctx_major ObMergeType.MAJOR_MERGE true)).2.1 (by decide),
   (add_sstable_for_merge_schedules_after_mini_only spec_kinds (ok_finish false)
      (sample_ctx_major ObMergeType.MINI_MERGE true)).2.2 (by decide) (by decide) (by decide)⟩

/-- C28: `try_schedule_compaction_after_mini` calls the minor scheduling first in every
run; when `schedule_major_` is set and `could_major_merge_start()` holds it then calls the
major scheduling whatever the minor call returned and returns the code of the major call;
otherwise the minor call is the only one and its code is returned. -/
theorem try_schedule_compaction_after_mini_spec (env : ScheduleEnv) (ctx : ObTabletMergeCtx) :
    (ObTabletMergeFinishTask.try_schedule_compaction_after_mini env ctx).2.head?
      = some FinishCall.schedule_tablet_minor_merge ∧
    (ctx.schedule_major_ = true ∧ env.could_major_merge_start = true →
      (ObTabletMergeFinishTask.try_schedule_compaction_after_mini env ctx).2
        = [FinishCall.schedule_tablet_minor_merge, FinishCall.schedule_tablet_major_merge] ∧
      (ObTabletMergeFinishTask.try_schedule_compaction_after_mini env ctx).1
        = env.schedule_tablet_major_merge_ret) ∧
    (¬(ctx.schedule_major_ = true ∧ env.could_major_merge_start = true) →
      (ObTabletMergeFinishTask.try_schedule_compaction_after_mini env ctx).2
        = [FinishCall.schedule_tablet_minor_merge] ∧
      (ObTabletMergeFinishTask.try_schedule_compaction_after_mini env ctx).1
        = env.schedule_tablet_minor_merge_ret) := by
  unfold ObTabletMergeFinishTask.try_schedule_compaction_after_mini
  dsimp only
  by_cases h : ctx.schedule_major_ = true ∧ env.could_major_merge_start = true
  · have h2 : (ctx.schedule_major_ && env.could_major_merge_start) = true := by
      simp [h.1, h.2]
    rw [if_pos h2]
    exact ⟨rfl, fun _ => ⟨rfl, rfl⟩, fun hn => absurd h hn⟩
  · have h2 : ¬ (ctx.schedule_major_ && env.could_major_merge_start) = true := by
      simpa using h
    rw [if_neg h2]
    exact ⟨rfl, fun hp => absurd hp h, fun _ => ⟨rfl, rfl⟩⟩

/-- With the minor scheduling failing with `OB_SIZE_OVERFLOW`: when the major scheduling
is attempted and succeeds the call returns `OB_SUCCESS`, the minor error being dropped;
when it is not attempted the call returns `OB_SIZE_OVERFLOW`. -/
theorem try_schedule_compaction_after_mini_spec_witness :
    ((ObTabletMergeFinishTask.try_schedule_compaction_after_mini
        (minor_overflow_schedule true ObRet.OB_SUCCESS)
        (sample_ctx_major ObMergeType.MINI_MERGE true)).2
        = [FinishCall.schedule_tablet_minor_merge, FinishCall.schedule_tablet_major_merge] ∧
      (ObTabletMergeFinishTask.try_schedule_compaction_after_mini
        (minor_overflow_schedule true ObRet.OB_SUCCESS)
        (sample_ctx_major ObMergeType.MINI_MERGE true)).1 = ObRet.OB_SUCCESS) ∧
    ((ObTabletMergeFinishTask.try_schedule_compaction_after_mini
        (minor_overflow_schedule false ObRet.OB_SUCCESS)
        (sample_ctx_major ObMergeType.MINI_MERGE true)).2
        = [FinishCall.schedule_tablet_minor_merge] ∧
      (ObTabletMergeFinishTask.try_schedule_compaction_after_mini
        (minor_overflow_schedule false ObRet.OB_SUCCESS)
        (sample_ctx_major ObMergeType.MINI_MERGE true)).1 = ObRet.OB_SIZE_OVERFLOW) :=
  ⟨(try_schedule_compaction_after_mini_spec (minor_overflow_schedule true ObRet.OB_SUCCESS)
      (sample_ctx_major ObMergeType.MINI_MERGE true)).2.1 ⟨rfl, rfl⟩,
   (try_schedule_compaction_after_mini_spec (minor_overflow_schedule false ObRet.OB_SUCCESS)
      (sample_ctx_major ObMergeType.MINI_MERGE true)).2.2 (by decide)⟩

/-! ## C27 -/

/-- What `reset` does: every field gets its default-constructed value except
`full_read_info_`, which keeps the value it had. -/
theorem merge_parameter_reset_fields (dflt : MemberDefaults) (p : ObMergeParameter) :
    p.reset dflt = { ObMergeParameter.new dflt with full_read_info_ := p.full_read_info_ } := by
  rfl

/-- After `reset`, `is_valid()` is false. -/
theorem merge_parameter_reset_not_valid (k : MergeKinds) (e : DagEnv) (dflt : MemberDefaults)
    (p : ObMergeParameter) : (p.reset dflt).is_valid k e = false := by
  simp [ObMergeParameter.is_valid, ObMergeParameter.reset]

/-- C27: `reset()` does not return the object to its default-constructed state. It
restores every field but `full_read_info_`, which keeps its value, and `is_valid()` is
false afterwards; a parameter object initialised from the sample context of a major merge
and then reset still holds the address 77 of the full read info, where the
default-constructed object holds `nullptr`. -/
theorem merge_parameter_reset_keeps_full_read_info (k : MergeKinds) (e : DagEnv)
    (dflt : MemberDefaults) (p : ObMergeParameter) :
    (p.reset dflt).full_read_info_ = p.full_read_info_ ∧
    p.reset dflt = { ObMergeParameter.new dflt with full_read_info_ := p.full_read_info_ } ∧
    (p.reset dflt).is_valid k e = false ∧
    (ObMergeParameter.init spec_kinds (ObMergeParameter.new sample_defaults)
      (sample_ctx ObMergeType.MAJOR_MERGE 4) 0).1 = ObRet.OB_SUCCESS ∧
    ((ObMergeParameter.init spec_kinds (ObMergeParameter.new sample_defaults)
      (sample_ctx ObMergeType.MAJOR_MERGE 4) 0).2.reset sample_defaults).full_read_info_
      = some 77 ∧
    (ObMergeParameter.new sample_defaults).full_read_info_ = none ∧
    (ObMergeParameter.init spec_kinds (ObMergeParameter.new sample_defaults)
      (sample_ctx ObMergeType.MAJOR_MERGE 4) 0).2.reset sample_defaults
      ≠ ObMergeParameter.new sample_defaults :=
  ⟨rfl, merge_parameter_reset_fields dflt p, merge_parameter_reset_not_valid k e dflt p,
   by decide, by decide, rfl, by decide⟩

end Compaction



namespace IoStruct

/-! ## C30 -/

/-- An `int64_t` value is its own wrap-around. -/
theorem wrap_int64_of_range (x : Int) (h0 : 0 ≤ x) (h1 : x ≤ INT64_MAX) :
    Compaction.wrap_int64 x = x := by
  unfold Compaction.wrap_int64
  unfold INT64_MAX at h1
  rw [Int.emod_eq_of_lt (by omega) (by omega)]
  omega

/-- Rounding down gives a multiple of `align` within `align` below the input. -/
theorem lower_align_spec (input align : Int) (ha : 0 < align) :
    lower_align input align % align = 0 ∧ lower_align input align ≤ input ∧
    input < lower_align input align + align := by
  unfold lower_align
  have h1 := Int.emod_nonneg input (ne_of_gt ha)
  have h2 := Int.emod_lt_of_pos input ha
  refine ⟨?_, by omega, by omega⟩
  have h3 : input - input % align = align * (input / align) := by
    have := Int.emod_add_ediv input align
    omega
  rw [h3, Int.mul_emod_right]

/-- C30: for `DIO_READ_ALIGN_SIZE > 0`, `offset >= 0` and `size >= 0` with
`offset + size + DIO_READ_ALIGN_SIZE` within `int64_t`, the outputs of `align_offset_size`
are multiples of `DIO_READ_ALIGN_SIZE`, `align_offset <= offset < align_offset +
DIO_READ_ALIGN_SIZE`, and `offset + size <= align_offset + align_size < offset + size +
DIO_READ_ALIGN_SIZE`; `is_io_aligned` holds for both outputs. -/
theorem align_offset_size_spec (DIO_READ_ALIGN_SIZE offset size : Int)
    (ha : 0 < DIO_READ_ALIGN_SIZE) (ho : 0 ≤ offset) (hs : 0 ≤ size)
    (hmax : offset + size + DIO_READ_ALIGN_SIZE ≤ INT64_MAX) :
    (align_offset_size DIO_READ_ALIGN_SIZE offset size).1 % DIO_READ_ALIGN_SIZE = 0 ∧
    (align_offset_size DIO_READ_ALIGN_SIZE offset size).2 % DIO_READ_ALIGN_SIZE = 0 ∧
    (align_offset_size DIO_READ_ALIGN_SIZE offset size).1 ≤ offset ∧
    offset < (align_offset_size DIO_READ_ALIGN_SIZE offset size).1 + DIO_READ_ALIGN_SIZE ∧
    offset + size ≤ (align_offset_size DIO_READ_ALIGN_SIZE offset size).1
      + (align_offset_size DIO_READ_ALIGN_SIZE offset size).2 ∧
    (align_offset_size DIO_READ_ALIGN_SIZE offset size).1
      + (align_offset_size DIO_READ_ALIGN_SIZE offset size).2
      < offset + size + DIO_READ_ALIGN_SIZE ∧
    is_io_aligned DIO_READ_ALIGN_SIZE
      (align_offset_size DIO_READ_ALIGN_SIZE offset size).1 = true ∧
    is_io_aligned DIO_READ_ALIGN_SIZE
      (align_offset_size DIO_READ_ALIGN_SIZE offset size).2 = true := by
  obtain ⟨l1, l2, l3⟩ := lower_align_spec offset DIO_READ_ALIGN_SIZE ha
  have l0 : 0 ≤ lower_align offset DIO_READ_ALIGN_SIZE := by
    unfold lower_align
    have := Int.emod_add_ediv offset DIO_READ_ALIGN_SIZE
    have hd : 0 ≤ offset / DIO_READ_ALIGN_SIZE := Int.ediv_nonneg ho (le_of_lt ha)
    have hm : 0 ≤ DIO_READ_ALIGN_SIZE * (offset / DIO_READ_ALIGN_SIZE) :=
      Int.mul_nonneg (le_of_lt ha) hd
    omega
  have w1 : Compaction.wrap_int64 (size + offset) = size + offset :=
    wrap_int64_of_range _ (by omega) (by omega)
  have w2 : Compaction.wrap_int64 (size + offset - lower_align offset DIO_READ_ALIGN_SIZE)
      = size + offset - lower_align offset DIO_READ_ALIGN_SIZE :=
    wrap_int64_of_range _ (by omega) (by omega)
  have w3 : Compaction.wrap_int64
      (size + offset - lower_align offset DIO_READ_ALIGN_SIZE + DIO_READ_ALIGN_SIZE - 1)
      = size + offset - lower_align offset DIO_READ_ALIGN_SIZE + DIO_READ_ALIGN_SIZE - 1 :=
    wrap_int64_of_range _ (by omega) (by omega)
  obtain ⟨u1, u2, u3⟩ := lower_align_spec
    (size + offset - lower_align offset DIO_READ_ALIGN_SIZE + DIO_READ_ALIGN_SIZE - 1)
    DIO_READ_ALIGN_SIZE ha
  have hfst : (align_offset_size DIO_READ_ALIGN_SIZE offset size).1
      = lower_align offset DIO_READ_ALIGN_SIZE := rfl
  have hsnd : (align_offset_size DIO_READ_ALIGN_SIZE offset size).2
      = lower_align
          (size + offset - lower_align offset DIO_READ_ALIGN_SIZE + DIO_READ_ALIGN_SIZE - 1)
          DIO_READ_ALIGN_SIZE := by
    simp only [align_offset_size, upper_align, w1, w2, w3]
  have s0 : 0 ≤ lower_align
      (size + offset - lower_align offset DIO_READ_ALIGN_SIZE + DIO_READ_ALIGN_SIZE - 1)
      DIO_READ_ALIGN_SIZE := by omega
  rw [hfst, hsnd]
  refine ⟨l1, u1, l2, l3, by omega, by omega, ?_, ?_⟩
  · simp [is_io_aligned, Int.tmod_eq_emod l0 (le_of_lt ha), l1]
  · simp [is_io_aligned, Int.tmod_eq_emod s0 (le_of_lt ha), u1]

/-- With the alignment 4096: the range `[5000, 5000 + 10000)` is covered by
`[4096, 4096 + 12288)`. -/
theorem align_offset_size_spec_witness :
    align_offset_size 4096 5000 10000 = (4096, 12288) ∧
    (align_offset_size 4096 5000 10000).1 % 4096 = 0 ∧
    (align_offset_size 4096 5000 10000).2 % 4096 = 0 ∧
    (align_offset_size 4096 5000 10000).1 ≤ 5000 ∧
    5000 < (align_offset_size 4096 5000 10000).1 + 4096 ∧
    5000 + 10000 ≤ (align_offset_size 4096 5000 10000).1
      + (align_offset_size 4096 5000 10000).2 ∧
    (align_offset_size 4096 5000 10000).1 + (align_offset_size 4096 5000 10000).2
      < 5000 + 10000 + 4096 ∧
    is_io_aligned 4096 (align_offset_size 4096 5000 10000).1 = true ∧
    is_io_aligned 4096 (align_offset_size 4096 5000 10000).2 = true :=
  ⟨by decide,
   align_offset_size_spec 4096 5000 10000 (by decide) (by decide) (by decide) (by decide)⟩

end IoStruct


namespace LSMap

/-! ## C29 -/

/-- Replacing one bucket changes the number of linked log streams by the change of that
bucket. -/
theorem sum_lengths_update (f : Nat → List ObLS) (pos : Nat) (l : List ObLS) :
    ∀ n, pos < n →
      ((List.range n).map (fun i => (Function.update f pos l i).length)).sum + (f pos).length
        = ((List.range n).map (fun i => (f i).length)).sum + l.length := by
  intro n
  induction n with
  | zero => intro h; omega
  | succ n ih =>
    intro h
    rw [List.range_succ, List.map_append, List.map_append, List.sum_append, List.sum_append]
    by_cases hp : pos < n
    · have hne : n ≠ pos := by omega
      have := ih hp
      simp only [List.map_cons, List.map_nil, List.sum_cons, List.sum_nil,
        Function.update_noteq hne]
      omega
    · have hpn : pos = n := by omega
      subst hpn
      have hsame : (List.range pos).map (fun i => (Function.update f pos l i).length)
          = (List.range pos).map (fun i => (f i).length) := by
        apply List.map_congr_left
        intro i hi
        have hi2 : i ≠ pos := by
          have := List.mem_range.1 hi
          omega
        rw [Function.update_noteq hi2]
      rw [hsame]
      simp only [List.map_cons, List.map_nil, List.sum_cons, List.sum_nil,
        Function.update_same]
      omega

theorem length_linked (c : MapConsts) (m : ObLSMap) :
    (linked c m).length
      = ((List.range c.BUCKETS_CNT).map (fun i => (m.ls_buckets_ i).length)).sum := by
  simp [linked, List.flatMap, List.length_flatten, List.map_map, Function.comp_def]

/-- The effect of replacing the bucket `pos` on the number of linked log streams. -/
theorem length_linked_update (c : MapConsts) (m : ObLSMap) (pos : Nat) (l : List ObLS)
    (cnt : Int) (hpos : pos < c.BUCKETS_CNT) :
    (linked c { m with ls_cnt_ := cnt, ls_buckets_ := Function.update m.ls_buckets_ pos l }).length
        + (m.ls_buckets_ pos).length
      = (linked c m).length + l.length := by
  rw [length_linked, length_linked]
  exact sum_lengths_update m.ls_buckets_ pos l c.BUCKETS_CNT hpos

theorem find_ls_none_iff (ls_id : Int) (bucket : List ObLS) :
    find_ls ls_id bucket = none ↔ ls_id ∉ bucket.map (fun ls => ls.ls_id_) := by
  unfold find_ls
  rw [List.find?_eq_none]
  simp only [List.mem_map, not_exists, not_and, beq_iff_eq]

/-- A linked id is found in the bucket of its hash. -/
theorem mem_linked_ids_iff (c : MapConsts) (m : ObLSMap) (hn : 0 < c.BUCKETS_CNT)
    (hinv : MapInv c m) (ls_id : Int) :
    ls_id ∈ linked_ids c m ↔
      ls_id ∈ (m.ls_buckets_ (c.hash ls_id % c.BUCKETS_CNT)).map (fun ls => ls.ls_id_) := by
  obtain ⟨_, h1, _, _⟩ := hinv
  simp only [linked_ids, linked, List.mem_map, List.mem_flatMap, List.mem_range]
  constructor
  · rintro ⟨ls, ⟨i, _, hls⟩, hid⟩
    have := h1 i ls hls
    rw [hid] at this
    rw [this]
    exact ⟨ls, hls, hid⟩
  · rintro ⟨ls, hls, hid⟩
    exact ⟨ls, ⟨_, Nat.mod_lt _ hn, hls⟩, hid⟩

/-- In a map that satisfies the invariant no two linked log streams have the same id. -/
theorem linked_ids_nodup (c : MapConsts) (m : ObLSMap) (hinv : MapInv c m) :
    (linked_ids c m).Nodup := by
  obtain ⟨_, h1, h2, _⟩ := hinv
  unfold linked_ids linked
  rw [List.map_flatMap, List.nodup_flatMap]
  refine ⟨fun i _ => h2 i, ?_⟩
  apply List.Nodup.pairwise_of_forall_ne (List.nodup_range _)
  intro i _ j _ hij
  intro x hxi hxj
  rw [List.mem_map] at hxi hxj
  obtain ⟨a, ha, hax⟩ := hxi
  obtain ⟨b, hb, hbx⟩ := hxj
  have e1 := h1 i a ha
  have e2 := h1 j b hb
  rw [hax] at e1
  rw [hbx] at e2
  exact hij (e1.symm.trans e2)

theorem MapInv_inited (c : MapConsts) : MapInv c inited_map := by
  refine ⟨rfl, ?_, ?_, ?_⟩
  · intro i ls hls
    simp [inited_map, ObLSMap.init, ObLSMap.reset, OB_FAIL] at hls
  · intro i
    simp [inited_map, ObLSMap.init, ObLSMap.reset, OB_FAIL]
  · rw [length_linked]
    simp [inited_map, ObLSMap.init, ObLSMap.reset, OB_FAIL]

end LSMap


namespace LSMap

/-- Incrementing and decrementing `ls_cnt_` leaves the map as it was. -/
theorem ls_cnt_inc_dec (m : ObLSMap) : { m with ls_cnt_ := m.ls_cnt_ + 1 - 1 } = m := by
  cases m
  simp

/-- The outcomes of `add_ls` on an initialised map. -/
theorem add_ls_cases (c : MapConsts) (m : ObLSMap) (ls : ObLS) (inc_ret : ObRet)
    (hinit : m.is_inited_ = true) :
    (ls.ls_id_ ∈ (m.ls_buckets_ (c.hash ls.ls_id_ % c.BUCKETS_CNT)).map (fun x => x.ls_id_) ∧
      add_ls c m ls inc_ret = (ObRet.OB_ENTRY_EXIST, m)) ∨
    (ls.ls_id_ ∉ (m.ls_buckets_ (c.hash ls.ls_id_ % c.BUCKETS_CNT)).map (fun x => x.ls_id_) ∧
      m.ls_cnt_ ≥ c.OB_MAX_LS_NUM_PER_TENANT_PER_SERVER ∧
      add_ls c m ls inc_ret = (ObRet.OB_TOO_MANY_TENANT_LS, m)) ∨
    (ls.ls_id_ ∉ (m.ls_buckets_ (c.hash ls.ls_id_ % c.BUCKETS_CNT)).map (fun x => x.ls_id_) ∧
      m.ls_cnt_ < c.OB_MAX_LS_NUM_PER_TENANT_PER_SERVER ∧ inc_ret ≠ ObRet.OB_SUCCESS ∧
      add_ls c m ls inc_ret = (inc_ret, m)) ∨
    (ls.ls_id_ ∉ (m.ls_buckets_ (c.hash ls.ls_id_ % c.BUCKETS_CNT)).map (fun x => x.ls_id_) ∧
      m.ls_cnt_ < c.OB_MAX_LS_NUM_PER_TENANT_PER_SERVER ∧ inc_ret = ObRet.OB_SUCCESS ∧
      add_ls c m ls inc_ret
        = (ObRet.OB_SUCCESS,
            { m with
              ls_cnt_ := m.ls_cnt_ + 1
              ls_buckets_ := Function.update m.ls_buckets_
                (c.hash ls.ls_id_ % c.BUCKETS_CNT)
                (ls :: m.ls_buckets_ (c.hash ls.ls_id_ % c.BUCKETS_CNT)) })) := by
  unfold add_ls
  rw [if_neg (by simp [hinit])]
  dsimp only
  cases hfind : find_ls ls.ls_id_ (m.ls_buckets_ (c.hash ls.ls_id_ % c.BUCKETS_CNT)) with
  | some x =>
    left
    refine ⟨?_, rfl⟩
    by_contra hno
    rw [(find_ls_none_iff _ _).2 hno] at hfind
    cases hfind
  | none =>
    right
    have hno := (find_ls_none_iff _ _).1 hfind
    by_cases hmax : m.ls_cnt_ + 1 > c.OB_MAX_LS_NUM_PER_TENANT_PER_SERVER
    · left
      refine ⟨hno, by omega, ?_⟩
      dsimp only
      simp only [hmax, if_true, ls_cnt_inc_dec]
    · right
      by_cases hinc : inc_ret = ObRet.OB_SUCCESS
      · right
        refine ⟨hno, by omega, hinc, ?_⟩
        dsimp only
        simp only [hmax, if_false, hinc, OB_FAIL]
        rfl
      · left
        refine ⟨hno, by omega, hinc, ?_⟩
        have hf : OB_FAIL inc_ret = true := by simp [OB_FAIL, hinc]
        dsimp only
        simp only [hmax, if_false, hf, if_true, ls_cnt_inc_dec]

/-- The outcomes of `del_ls` on an initialised map. -/
theorem del_ls_cases (c : MapConsts) (m : ObLSMap) (ls_id : Int)
    (hinit : m.is_inited_ = true) :
    (ls_id ∉ (m.ls_buckets_ (c.hash ls_id % c.BUCKETS_CNT)).map (fun x => x.ls_id_) ∧
      del_ls c m ls_id = (ObRet.OB_LS_NOT_EXIST, m)) ∨
    ((∃ x, x ∈ m.ls_buckets_ (c.hash ls_id % c.BUCKETS_CNT) ∧ x.ls_id_ = ls_id) ∧
      del_ls c m ls_id
        = (ObRet.OB_SUCCESS,
            { m with
              ls_buckets_ := Function.update m.ls_buckets_ (c.hash ls_id % c.BUCKETS_CNT)
                ((m.ls_buckets_ (c.hash ls_id % c.BUCKETS_CNT)).eraseP
                  (fun curr => curr.ls_id_ == ls_id))
              ls_cnt_ := m.ls_cnt_ - 1 })) := by
  unfold del_ls
  rw [if_neg (by simp [hinit])]
  dsimp only
  cases hfind : find_ls ls_id (m.ls_buckets_ (c.hash ls_id % c.BUCKETS_CNT)) with
  | none => exact Or.inl ⟨(find_ls_none_iff _ _).1 hfind, rfl⟩
  | some x =>
    right
    refine ⟨⟨x, List.mem_of_find?_eq_some hfind, ?_⟩, rfl⟩
    have := List.find?_some hfind
    simpa using this

/-- `add_ls` keeps the invariant. -/
theorem MapInv_add_ls (c : MapConsts) (m : ObLSMap) (ls : ObLS) (inc_ret : ObRet)
    (hn : 0 < c.BUCKETS_CNT) (hinv : MapInv c m) : MapInv c (add_ls c m ls inc_ret).2 := by
  obtain ⟨h0, h1, h2, h3⟩ := hinv
  rcases add_ls_cases c m ls inc_ret h0 with
    ⟨_, he⟩ | ⟨_, _, he⟩ | ⟨_, _, _, he⟩ | ⟨hno, _, _, he⟩
  · rw [he]; exact ⟨h0, h1, h2, h3⟩
  · rw [he]; exact ⟨h0, h1, h2, h3⟩
  · rw [he]; exact ⟨h0, h1, h2, h3⟩
  · rw [he]
    have hpos : c.hash ls.ls_id_ % c.BUCKETS_CNT < c.BUCKETS_CNT := Nat.mod_lt _ hn
    refine ⟨h0, ?_, ?_, ?_⟩
    · intro i x hx
      by_cases hi : i = c.hash ls.ls_id_ % c.BUCKETS_CNT
      · subst hi
        simp only [Function.update_same, List.mem_cons] at hx
        rcases hx with hx | hx
        · rw [hx]
        · exact h1 _ x hx
      · simp only [Function.update_noteq hi] at hx
        exact h1 i x hx
    · intro i
      by_cases hi : i = c.hash ls.ls_id_ % c.BUCKETS_CNT
      · subst hi
        simp only [Function.update_same, List.map_cons, List.nodup_cons]
        exact ⟨hno, h2 _⟩
      · simp only [Function.update_noteq hi]
        exact h2 i
    · have hl := length_linked_update c m (c.hash ls.ls_id_ % c.BUCKETS_CNT)
        (ls :: m.ls_buckets_ (c.hash ls.ls_id_ % c.BUCKETS_CNT)) (m.ls_cnt_ + 1) hpos
      simp only [List.length_cons] at hl
      simp only
      omega

/-- `del_ls` keeps the invariant. -/
theorem MapInv_del_ls (c : MapConsts) (m : ObLSMap) (ls_id : Int)
    (hn : 0 < c.BUCKETS_CNT) (hinv : MapInv c m) : MapInv c (del_ls c m ls_id).2 := by
  obtain ⟨h0, h1, h2, h3⟩ := hinv
  rcases del_ls_cases c m ls_id h0 with ⟨_, he⟩ | ⟨⟨x, hx, hxid⟩, he⟩
  · rw [he]; exact ⟨h0, h1, h2, h3⟩
  · rw [he]
    have hpos : c.hash ls_id % c.BUCKETS_CNT < c.BUCKETS_CNT := Nat.mod_lt _ hn
    have hsub := List.eraseP_sublist (p := fun curr : ObLS => curr.ls_id_ == ls_id)
      (m.ls_buckets_ (c.hash ls_id % c.BUCKETS_CNT))
    refine ⟨h0, ?_, ?_, ?_⟩
    · intro i y hy
      by_cases hi : i = c.hash ls_id % c.BUCKETS_CNT
      · subst hi
        simp only [Function.update_same] at hy
        exact h1 _ y (hsub.subset hy)
      · simp only [Function.update_noteq hi] at hy
        exact h1 i y hy
    · intro i
      by_cases hi : i = c.hash ls_id % c.BUCKETS_CNT
      · subst hi
        simp only [Function.update_same]
        exact (h2 _).sublist (hsub.map _)
      · simp only [Function.update_noteq hi]
        exact h2 i
    · have hl := length_linked_update c m (c.hash ls_id % c.BUCKETS_CNT)
        ((m.ls_buckets_ (c.hash ls_id % c.BUCKETS_CNT)).eraseP
          (fun curr => curr.ls_id_ == ls_id)) (m.ls_cnt_ - 1) hpos
      have hlen := List.length_eraseP_of_mem (p := fun curr : ObLS => curr.ls_id_ == ls_id) hx
        (by simp [hxid])
      have hpos1 : 0 < (m.ls_buckets_ (c.hash ls_id % c.BUCKETS_CNT)).length :=
        List.length_pos_of_mem hx
      simp only
      omega

/-- Every sequence of calls keeps the invariant. -/
theorem MapInv_run_calls (c : MapConsts) (hn : 0 < c.BUCKETS_CNT) :
    ∀ (calls : List LSMapCall) (m : ObLSMap), MapInv c m → MapInv c (run_calls c calls m) := by
  intro calls
  induction calls with
  | nil => intro m h; exact h
  | cons call rest ih =>
    intro m h
    apply ih
    cases call with
    | add ls inc_ret => exact MapInv_add_ls c m ls inc_ret hn h
    | del ls_id => exact MapInv_del_ls c m ls_id hn h

end LSMap


namespace LSMap

/-- C29: after every sequence of `add_ls` and `del_ls` calls on an initialised map,
`ls_cnt_` is the number of log streams linked in the buckets and no two linked log
streams have the same id; on such a map `add_ls` with an id that is linked returns
`OB_ENTRY_EXIST`, `add_ls` with a new id when `ls_cnt_` has reached
`OB_MAX_LS_NUM_PER_TENANT_PER_SERVER` returns `OB_TOO_MANY_TENANT_LS`, `del_ls` of an id
that is not linked returns `OB_LS_NOT_EXIST`, and each of these calls leaves the map as
it was. -/
theorem ls_map_count_and_unique_ids (c : MapConsts) (calls : List LSMapCall)
    (hn : 0 < c.BUCKETS_CNT) :
    (run_calls c calls inited_map).ls_cnt_
      = (linked c (run_calls c calls inited_map)).length ∧
    (linked_ids c (run_calls c calls inited_map)).Nodup ∧
    (∀ (ls : ObLS) (inc_ret : ObRet),
      ls.ls_id_ ∈ linked_ids c (run_calls c calls inited_map) →
      add_ls c (run_calls c calls inited_map) ls inc_ret
        = (ObRet.OB_ENTRY_EXIST, run_calls c calls inited_map)) ∧
    (∀ (ls : ObLS) (inc_ret : ObRet),
      ls.ls_id_ ∉ linked_ids c (run_calls c calls inited_map) →
      (run_calls c calls inited_map).ls_cnt_ ≥ c.OB_MAX_LS_NUM_PER_TENANT_PER_SERVER →
      add_ls c (run_calls c calls inited_map) ls inc_ret
        = (ObRet.OB_TOO_MANY_TENANT_LS, run_calls c calls inited_map)) ∧
    (∀ (ls_id : Int),
      ls_id ∉ linked_ids c (run_calls c calls inited_map) →
      del_ls c (run_calls c calls inited_map) ls_id
        = (ObRet.OB_LS_NOT_EXIST, run_calls c calls inited_map)) := by
  have hinv := MapInv_run_calls c hn calls inited_map (MapInv_inited c)
  generalize run_calls c calls inited_map = m at hinv ⊢
  have hmem := mem_linked_ids_iff c m hn hinv
  refine ⟨hinv.2.2.2, linked_ids_nodup c m hinv, ?_, ?_, ?_⟩
  · intro ls inc_ret hin
    have hb := (hmem ls.ls_id_).1 hin
    rcases add_ls_cases c m ls inc_ret hinv.1 with
      ⟨_, he⟩ | ⟨hno, _, _⟩ | ⟨hno, _, _, _⟩ | ⟨hno, _, _, _⟩
    · exact he
    · exact absurd hb hno
    · exact absurd hb hno
    · exact absurd hb hno
  · intro ls inc_ret hnot hmax
    have hb : ls.ls_id_ ∉ (m.ls_buckets_ (c.hash ls.ls_id_ % c.BUCKETS_CNT)).map
        (fun x => x.ls_id_) := fun h => hnot ((hmem ls.ls_id_).2 h)
    rcases add_ls_cases c m ls inc_ret hinv.1 with
      ⟨hin, _⟩ | ⟨_, _, he⟩ | ⟨_, hlt, _, _⟩ | ⟨_, hlt, _, _⟩
    · exact absurd hin hb
    · exact he
    · omega
    · omega
  · intro ls_id hnot
    have hb : ls_id ∉ (m.ls_buckets_ (c.hash ls_id % c.BUCKETS_CNT)).map
        (fun x => x.ls_id_) := fun h => hnot ((hmem ls_id).2 h)
    rcases del_ls_cases c m ls_id hinv.1 with ⟨_, he⟩ | ⟨⟨x, hx, hxid⟩, _⟩
    · exact he
    · exact absurd (List.mem_map.2 ⟨x, hx, hxid⟩) hb

/-- With four buckets and at most three log streams: after `sample_calls` the log
streams 2 and 1 are linked and `ls_cnt_` is 2; a further log stream with id 1 is refused,
the deletion of the absent id 9 is refused, and on the full map of `filling_calls` a
fourth log stream is refused. -/
theorem ls_map_count_and_unique_ids_witness :
    (run_calls sample_map_consts sample_calls inited_map).ls_cnt_ = 2 ∧
    linked_ids sample_map_consts (run_calls sample_map_consts sample_calls inited_map)
      = [1, 2] ∧
    (run_calls sample_map_consts sample_calls inited_map).ls_cnt_
      = (linked sample_map_consts (run_calls sample_map_consts sample_calls inited_map)).length ∧
    (linked_ids sample_map_consts
      (run_calls sample_map_consts sample_calls inited_map)).Nodup ∧
    add_ls sample_map_consts (run_calls sample_map_consts sample_calls inited_map)
        { addr := 301, ls_id_ := 1 } ObRet.OB_SUCCESS
      = (ObRet.OB_ENTRY_EXIST, run_calls sample_map_consts sample_calls inited_map) ∧
    add_ls sample_map_consts (run_calls sample_map_consts filling_calls inited_map)
        { addr := 103, ls_id_ := 3 } ObRet.OB_SUCCESS
      = (ObRet.OB_TOO_MANY_TENANT_LS, run_calls sample_map_consts filling_calls inited_map) ∧
    del_ls sample_map_consts (run_calls sample_map_consts sample_calls inited_map) 9
      = (ObRet.OB_LS_NOT_EXIST, run_calls sample_map_consts sample_calls inited_map) :=
  ⟨by decide, by decide,
   (ls_map_count_and_unique_ids sample_map_consts sample_calls (by decide)).1,
   (ls_map_count_and_unique_ids sample_map_consts sample_calls (by decide)).2.1,
   (ls_map_count_and_unique_ids sample_map_consts sample_calls (by decide)).2.2.1
      { addr := 301, ls_id_ := 1 } ObRet.OB_SUCCESS (by decide),
   (ls_map_count_and_unique_ids sample_map_consts filling_calls (by decide)).2.2.2.1
      { addr := 103, ls_id_ := 3 } ObRet.OB_SUCCESS (by decide) (by decide),
   (ls_map_count_and_unique_ids sample_map_consts sample_calls (by decide)).2.2.2.2 9
      (by decide)⟩

end LSMap


namespace Das

/-! ## C23 -/

theorem apply_links_append (a b : List Link) (n : Nat → Option Nat) :
    apply_links (a ++ b) n = apply_links b (apply_links a n) := by
  simp [apply_links, List.foldl_append]

/-- The inner loop appends the links of the two lists, position by position, and applies
them to the pointers; it writes nothing else. -/
theorem link_tablet_locs_spec (table related : Nat) :
    ∀ (ts rs : List Nat) (s : RebuildState),
      link_tablet_locs table related ts rs s
        = { s with
            next_ := apply_links (mk_links table related ts rs) s.next_
            links := s.links ++ mk_links table related ts rs } := by
  intro ts
  induction ts with
  | nil =>
    intro rs s
    cases s
    simp [link_tablet_locs, mk_links, apply_links]
  | cons t ts ih =>
    intro rs s
    cases rs with
    | nil =>
      cases s
      simp [link_tablet_locs, mk_links, apply_links]
    | cons r rs =>
      rw [link_tablet_locs, ih]
      cases s
      simp [mk_links, apply_links]

/-- The body of the related-table loop when the two counts differ. -/
theorem link_related_mismatch (table : Nat) (t : ObDASTableLoc) (related : Nat)
    (r : ObDASTableLoc) (s : RebuildState)
    (h : t.tablet_locs_.length ≠ r.tablet_locs_.length) :
    link_related table t related r s
      = { s with
          rebuild_reference_ := Function.update s.rebuild_reference_ related true
          ret := ObRet.OB_ERR_UNEXPECTED } := by
  simp [link_related, h, OB_SUCC]

/-- The body of the related-table loop when the counts agree and `ret` is
`OB_SUCCESS`. -/
theorem link_related_match (table : Nat) (t : ObDASTableLoc) (related : Nat)
    (r : ObDASTableLoc) (s : RebuildState)
    (h : t.tablet_locs_.length = r.tablet_locs_.length) (hs : s.ret = ObRet.OB_SUCCESS) :
    link_related table t related r s
      = { s with
          rebuild_reference_ := Function.update s.rebuild_reference_ related true
          next_ := apply_links (mk_links table related t.tablet_locs_ r.tablet_locs_) s.next_
          links := s.links ++ mk_links table related t.tablet_locs_ r.tablet_locs_ } := by
  simp [link_related, h, hs, OB_SUCC, link_tablet_locs_spec]

/-- The body of the related-table loop when the counts agree and `ret` is an error. -/
theorem link_related_failed (table : Nat) (t : ObDASTableLoc) (related : Nat)
    (r : ObDASTableLoc) (s : RebuildState)
    (h : t.tablet_locs_.length = r.tablet_locs_.length) (hs : s.ret ≠ ObRet.OB_SUCCESS) :
    link_related table t related r s
      = { s with rebuild_reference_ := Function.update s.rebuild_reference_ related true } := by
  simp [link_related, h, hs, OB_SUCC]

/-- What one pass of the related-table loop does to the state. -/
theorem link_related_facts (table : Nat) (t : ObDASTableLoc) (related : Nat)
    (r : ObDASTableLoc) (s : RebuildState) (n0 : Nat → Option Nat) :
    (s.ret = ObRet.OB_ERR_UNEXPECTED →
      (link_related table t related r s).ret = ObRet.OB_ERR_UNEXPECTED) ∧
    ((s.ret = ObRet.OB_SUCCESS ∨ s.ret = ObRet.OB_ERR_UNEXPECTED) →
      ((link_related table t related r s).ret = ObRet.OB_SUCCESS ∨
        (link_related table t related r s).ret = ObRet.OB_ERR_UNEXPECTED)) ∧
    (t.tablet_locs_.length ≠ r.tablet_locs_.length →
      (link_related table t related r s).ret = ObRet.OB_ERR_UNEXPECTED) ∧
    (link_related table t related r s).rebuild_reference_
      = Function.update s.rebuild_reference_ related true ∧
    (t.tablet_locs_.length = r.tablet_locs_.length → s.ret = ObRet.OB_SUCCESS →
      (link_related table t related r s).ret = ObRet.OB_SUCCESS ∧
      (link_related table t related r s).links
        = s.links ++ mk_links table related t.tablet_locs_ r.tablet_locs_) ∧
    (∀ l ∈ (link_related table t related r s).links,
      l ∈ s.links ∨
        (t.tablet_locs_.length = r.tablet_locs_.length ∧
          l ∈ mk_links table related t.tablet_locs_ r.tablet_locs_)) ∧
    (∀ l ∈ s.links, l ∈ (link_related table t related r s).links) ∧
    (s.next_ = apply_links s.links n0 →
      (link_related table t related r s).next_
        = apply_links (link_related table t related r s).links n0) := by
  by_cases h : t.tablet_locs_.length = r.tablet_locs_.length
  · by_cases hs : s.ret = ObRet.OB_SUCCESS
    · rw [link_related_match table t related r s h hs]
      refine ⟨fun he => ?_, fun _ => Or.inl hs, fun hn => absurd h hn, rfl,
        fun _ _ => ⟨hs, rfl⟩, ?_, ?_, ?_⟩
      · rw [hs] at he; cases he
      · intro l hl
        rcases List.mem_append.1 hl with hl | hl
        · exact Or.inl hl
        · exact Or.inr ⟨h, hl⟩
      · intro l hl
        exact List.mem_append.2 (Or.inl hl)
      · intro hn
        simp only [hn, apply_links_append]
    · rw [link_related_failed table t related r s h hs]
      exact ⟨fun he => he, fun ho => ho, fun hn => absurd h hn, rfl,
        fun _ hs2 => absurd hs2 hs, fun l hl => Or.inl hl, fun l hl => hl, fun hn => hn⟩
  · rw [link_related_mismatch table t related r s h]
    exact ⟨fun _ => rfl, fun _ => Or.inr rfl, fun _ => rfl, rfl,
      fun h2 => absurd h2 h, fun l hl => Or.inl hl, fun l hl => hl, fun hn => hn⟩

end Das


namespace Das

/-- The related-table loop returns when every related id resolves. -/
theorem rebuild_related_loop_total (locs : List ObDASTableLoc) (table : Nat)
    (t : ObDASTableLoc) :
    ∀ (rids : List Nat) (s : RebuildState),
      (∀ rid ∈ rids, (get_table_loc_by_id locs t.table_loc_id_ rid).isSome = true) →
      ∃ s1, rebuild_related_loop locs table t rids s = some s1 := by
  intro rids
  induction rids with
  | nil => intro s _; exact ⟨s, rfl⟩
  | cons rid rest ih =>
    intro s h
    have h1 := h rid (List.mem_cons_self _ _)
    cases hg : get_table_loc_by_id locs t.table_loc_id_ rid with
    | none => rw [hg] at h1; cases h1
    | some p =>
      simp only [rebuild_related_loop, hg]
      exact ih _ (fun r hr => h r (List.mem_cons_of_mem _ hr))

/-- What the related-table loop of one table location does to the state. -/
theorem rebuild_related_loop_facts (locs : List ObDASTableLoc) (table : Nat)
    (t : ObDASTableLoc) (n0 : Nat → Option Nat) :
    ∀ (rids : List Nat) (s s1 : RebuildState),
      rebuild_related_loop locs table t rids s = some s1 →
      (s.ret = ObRet.OB_ERR_UNEXPECTED → s1.ret = ObRet.OB_ERR_UNEXPECTED) ∧
      ((s.ret = ObRet.OB_SUCCESS ∨ s.ret = ObRet.OB_ERR_UNEXPECTED) →
        (s1.ret = ObRet.OB_SUCCESS ∨ s1.ret = ObRet.OB_ERR_UNEXPECTED)) ∧
      ((∃ rid ∈ rids, ∃ p, get_table_loc_by_id locs t.table_loc_id_ rid = some p ∧
          t.tablet_locs_.length ≠ p.2.tablet_locs_.length) →
        s1.ret = ObRet.OB_ERR_UNEXPECTED) ∧
      (∀ j, s1.rebuild_reference_ j = true →
        s.rebuild_reference_ j = true ∨
          ∃ rid ∈ rids, ∃ p, get_table_loc_by_id locs t.table_loc_id_ rid = some p ∧ p.1 = j) ∧
      ((∀ rid ∈ rids, ∀ p, get_table_loc_by_id locs t.table_loc_id_ rid = some p →
          t.tablet_locs_.length = p.2.tablet_locs_.length) →
        s.ret = ObRet.OB_SUCCESS →
        s1.ret = ObRet.OB_SUCCESS ∧
        ∀ rid ∈ rids, ∀ p, get_table_loc_by_id locs t.table_loc_id_ rid = some p →
          ∀ l ∈ mk_links table p.1 t.tablet_locs_ p.2.tablet_locs_, l ∈ s1.links) ∧
      (∀ l ∈ s1.links,
        l ∈ s.links ∨
          ∃ rid ∈ rids, ∃ p, get_table_loc_by_id locs t.table_loc_id_ rid = some p ∧
            t.tablet_locs_.length = p.2.tablet_locs_.length ∧
            l ∈ mk_links table p.1 t.tablet_locs_ p.2.tablet_locs_) ∧
      (∀ l ∈ s.links, l ∈ s1.links) ∧
      (s.next_ = apply_links s.links n0 → s1.next_ = apply_links s1.links n0) := by
  intro rids
  induction rids with
  | nil =>
    intro s s1 h
    simp only [rebuild_related_loop, Option.some.injEq] at h
    subst h
    refine ⟨fun h => h, fun h => h, ?_, fun j hj => Or.inl hj, fun _ hs => ⟨hs, ?_⟩,
      fun l hl => Or.inl hl, fun l hl => hl, fun h => h⟩
    · rintro ⟨rid, hrid, _⟩
      cases hrid
    · intro rid hrid
      cases hrid
  | cons rid rest ih =>
    intro s s1 h
    cases hg : get_table_loc_by_id locs t.table_loc_id_ rid with
    | none => simp [rebuild_related_loop, hg] at h
    | some p =>
      simp only [rebuild_related_loop, hg] at h
      obtain ⟨a1, a2, a3, a4, a5, a6, a7, a8⟩ := link_related_facts table t p.1 p.2 s n0
      obtain ⟨b1, b2, b3, b4, b5, b6, b7, b8⟩ := ih _ s1 h
      refine ⟨fun he => b1 (a1 he), fun ho => b2 (a2 ho), ?_, ?_, ?_, ?_,
        fun l hl => b7 l (a7 l hl), fun hn => b8 (a8 hn)⟩
      · rintro ⟨r, hr, q, hq, hne⟩
        rcases List.mem_cons.1 hr with hr | hr
        · subst hr
          rw [hg] at hq
          cases hq
          exact b1 (a3 hne)
        · exact b3 ⟨r, hr, q, hq, hne⟩
      · intro j hj
        rcases b4 j hj with hj1 | ⟨r, hr, q, hq, hqj⟩
        · rw [a4] at hj1
          by_cases hjp : j = p.1
          · exact Or.inr ⟨rid, List.mem_cons_self _ _, p, hg, hjp.symm⟩
          · rw [Function.update_noteq hjp] at hj1
            exact Or.inl hj1
        · exact Or.inr ⟨r, List.mem_cons_of_mem _ hr, q, hq, hqj⟩
      · intro hall hs
        have hm : t.tablet_locs_.length = p.2.tablet_locs_.length :=
          hall rid (List.mem_cons_self _ _) p hg
        obtain ⟨hs1, hl1⟩ := a5 hm hs
        obtain ⟨hs2, hl2⟩ := b5 (fun r hr q hq => hall r (List.mem_cons_of_mem _ hr) q hq) hs1
        refine ⟨hs2, ?_⟩
        intro r hr q hq l hl
        rcases List.mem_cons.1 hr with hr | hr
        · subst hr
          rw [hg] at hq
          cases hq
          apply b7
          rw [hl1]
          exact List.mem_append.2 (Or.inr hl)
        · exact hl2 r hr q hq l hl
      · intro l hl
        rcases b6 l hl with hl1 | ⟨r, hr, q, hq, hm, hlq⟩
        · rcases a6 l hl1 with hl0 | ⟨hm, hlp⟩
          · exact Or.inl hl0
          · exact Or.inr ⟨rid, List.mem_cons_self _ _, p, hg, hm, hlp⟩
        · exact Or.inr ⟨r, List.mem_cons_of_mem _ hr, q, hq, hm, hlq⟩

end Das


namespace Das

/-- The table location `get_table_loc_by_id` returns sits at the position returned and
has the two ids. -/
theorem get_table_loc_by_id_spec (locs : List ObDASTableLoc) (a b : Nat)
    (p : Nat × ObDASTableLoc) (h : get_table_loc_by_id locs a b = some p) :
    locs[p.1]? = some p.2 ∧ p.2.table_loc_id_ = a ∧ p.2.ref_table_id_ = b := by
  unfold get_table_loc_by_id at h
  have hm := List.mem_of_getLast?_eq_some h
  rw [List.mem_filter] at hm
  obtain ⟨hm1, hm2⟩ := hm
  have hidx : locs[p.1]? = some p.2 := List.mk_mem_enum_iff_getElem?.1 hm1
  simp only [Bool.and_eq_true, beq_iff_eq] at hm2
  exact ⟨hidx, hm2.1, hm2.2⟩

/-- The links of two tablet lists join the tablet locations at equal positions. -/
theorem mem_mk_links (table related : Nat) (ts rs : List Nat) (l : Link) :
    l ∈ mk_links table related ts rs ↔
      l.table = table ∧ l.related = related ∧
        ∃ i : Nat, ts[i]? = some l.tablet_loc ∧ rs[i]? = some l.related_tablet_loc := by
  unfold mk_links
  rw [List.mem_map]
  constructor
  · rintro ⟨p, hp, rfl⟩
    obtain ⟨i, hi⟩ := List.mem_iff_getElem?.1 hp
    exact ⟨rfl, rfl, i, (List.getElem?_zip_eq_some.1 hi).1, (List.getElem?_zip_eq_some.1 hi).2⟩
  · rintro ⟨h1, h2, i, hi1, hi2⟩
    refine ⟨(l.tablet_loc, l.related_tablet_loc), ?_, ?_⟩
    · exact List.mem_iff_getElem?.2 ⟨i, List.getElem?_zip_eq_some.2 ⟨hi1, hi2⟩⟩
    · cases l
      simp only at h1 h2
      subst h1 h2
      rfl

/-- The two ways a table location is passed by the outer loop. -/
theorem rebuild_table_cases (locs : List ObDASTableLoc) (table : Nat) (t : ObDASTableLoc)
    (s s1 : RebuildState) (h : rebuild_table locs table t s = some s1) :
    (s.rebuild_reference_ table = true ∧ s1 = s) ∨
    (s.rebuild_reference_ table = false ∧
      rebuild_related_loop locs table t t.related_table_ids_
        { s with
          rebuild_reference_ := Function.update s.rebuild_reference_ table true
          visited := s.visited ++ [table] }
        = some s1) := by
  unfold rebuild_table at h
  by_cases hf : s.rebuild_reference_ table = true
  · rw [if_pos hf] at h
    exact Or.inl ⟨hf, (Option.some.inj h).symm⟩
  · rw [if_neg hf] at h
    exact Or.inr ⟨by simpa using hf, h⟩

/-- The outer loop returns when every related id resolves. -/
theorem rebuild_loop_total (locs : List ObDASTableLoc) (hres : Resolves locs) :
    ∀ (l : List (Nat × ObDASTableLoc)) (s : RebuildState),
      (∀ p ∈ l, p ∈ locs.enum) → ∃ s1, rebuild_loop locs l s = some s1 := by
  intro l
  induction l with
  | nil => intro s _; exact ⟨s, rfl⟩
  | cons p rest ih =>
    intro s hl
    unfold rebuild_loop
    by_cases hs : OB_SUCC s.ret = true
    · rw [if_pos hs]
      have hp : p.2 ∈ locs := List.getElem?_mem
        (List.mk_mem_enum_iff_getElem?.1 (hl p (List.mem_cons_self _ _)))
      have ht : ∃ s1, rebuild_table locs p.1 p.2 s = some s1 := by
        unfold rebuild_table
        by_cases hf : s.rebuild_reference_ p.1 = true
        · rw [if_pos hf]; exact ⟨s, rfl⟩
        · rw [if_neg hf]
          exact rebuild_related_loop_total locs p.1 p.2 _ _ (hres p.2 hp)
      obtain ⟨s1, hs1⟩ := ht
      rw [hs1]
      exact ih s1 (fun q hq => hl q (List.mem_cons_of_mem _ hq))
    · rw [if_neg hs]
      exact ⟨s, rfl⟩

end Das


namespace Das

theorem OB_SUCC_iff (r : ObRet) : OB_SUCC r = true ↔ r = ObRet.OB_SUCCESS := by
  simp [OB_SUCC]

/-- What the outer loop does to the state. -/
theorem rebuild_loop_facts (locs : List ObDASTableLoc) (n0 : Nat → Option Nat) :
    ∀ (l : List (Nat × ObDASTableLoc)) (s s1 : RebuildState),
      (∀ p ∈ l, p ∈ locs.enum) → rebuild_loop locs l s = some s1 →
      (s.ret = ObRet.OB_ERR_UNEXPECTED → s1.ret = ObRet.OB_ERR_UNEXPECTED) ∧
      ((s.ret = ObRet.OB_SUCCESS ∨ s.ret = ObRet.OB_ERR_UNEXPECTED) →
        (s1.ret = ObRet.OB_SUCCESS ∨ s1.ret = ObRet.OB_ERR_UNEXPECTED)) ∧
      (∀ lk ∈ s1.links, lk ∈ s.links ∨ LinkSound locs lk) ∧
      (∀ lk ∈ s.links, lk ∈ s1.links) ∧
      (s.next_ = apply_links s.links n0 → s1.next_ = apply_links s1.links n0) ∧
      (AllMatch locs → s.ret = ObRet.OB_SUCCESS → s1.ret = ObRet.OB_SUCCESS) := by
  intro l
  induction l with
  | nil =>
    intro s s1 _ h
    simp only [rebuild_loop, Option.some.injEq] at h
    subst h
    exact ⟨fun h => h, fun h => h, fun lk hl => Or.inl hl, fun lk hl => hl, fun h => h,
      fun _ h => h⟩
  | cons q rest ih =>
    intro s s1 hall h
    unfold rebuild_loop at h
    by_cases hs : OB_SUCC s.ret = true
    · rw [if_pos hs] at h
      have hsucc : s.ret = ObRet.OB_SUCCESS := (OB_SUCC_iff _).1 hs
      cases ht : rebuild_table locs q.1 q.2 s with
      | none => rw [ht] at h; cases h
      | some s2 =>
        rw [ht] at h
        simp only at h
        obtain ⟨b1, b2, b3, b4, b5, b6⟩ :=
          ih s2 s1 (fun p hp => hall p (List.mem_cons_of_mem _ hp)) h
        have hq : locs[q.1]? = some q.2 :=
          List.mk_mem_enum_iff_getElem?.1 (hall q (List.mem_cons_self _ _))
        have hqmem : q.2 ∈ locs := List.getElem?_mem hq
        rcases rebuild_table_cases locs q.1 q.2 s s2 ht with ⟨_, he⟩ | ⟨_, hloop⟩
        · subst he
          exact ⟨b1, b2, b3, b4, b5, b6⟩
        · obtain ⟨a1, a2, _, _, a5, a6, a7, a8⟩ :=
            rebuild_related_loop_facts locs q.1 q.2 n0 _ _ s2 hloop
          refine ⟨fun he => b1 (a1 he), fun ho => b2 (a2 ho), ?_,
            fun lk hl => b4 lk (a7 lk hl), fun hn => b5 (a8 hn), ?_⟩
          · intro lk hl
            rcases b3 lk hl with hl2 | hsound
            · rcases a6 lk hl2 with hl0 | ⟨rid, hrid, p, hg, hm, hlp⟩
              · exact Or.inl hl0
              · right
                obtain ⟨e1, e2, i, hi1, hi2⟩ := (mem_mk_links _ _ _ _ _).1 hlp
                have hp := get_table_loc_by_id_spec locs _ _ p hg
                refine ⟨q.2, rid, p.2, ?_, ?_, hrid, ?_, hm, i, hi1, hi2⟩
                · rw [e1]; exact hq
                · rw [e2]; exact hp.1
                · rw [e2]; exact hg
            · exact Or.inr hsound
          · intro hmatch hs0
            exact b6 hmatch (a5 (fun rid hrid p hg => hmatch q.2 hqmem rid hrid p hg) hs0).1
    · rw [if_neg hs] at h
      have he : s1 = s := (Option.some.inj h).symm
      subst he
      exact ⟨fun h => h, fun h => h, fun lk hl => Or.inl hl, fun lk hl => hl, fun h => h,
        fun _ h => h⟩

/-- What one pass of the related-table loop leaves as it is: the table locations found
not yet rebuilt and the flags that are set; and where an `OB_ERR_UNEXPECTED` comes
from. -/
theorem link_related_more (table : Nat) (t : ObDASTableLoc) (related : Nat)
    (r : ObDASTableLoc) (s : RebuildState) :
    (link_related table t related r s).visited = s.visited ∧
    (∀ j, s.rebuild_reference_ j = true →
      (link_related table t related r s).rebuild_reference_ j = true) ∧
    ((link_related table t related r s).ret = ObRet.OB_ERR_UNEXPECTED →
      s.ret = ObRet.OB_ERR_UNEXPECTED ∨
        t.tablet_locs_.length ≠ r.tablet_locs_.length) := by
  have hflag : ∀ j, s.rebuild_reference_ j = true →
      Function.update s.rebuild_reference_ related true j = true := by
    intro j hj
    by_cases hjr : j = related
    · subst hjr
      exact Function.update_same _ _ _
    · rw [Function.update_noteq hjr]
      exact hj
  by_cases h : t.tablet_locs_.length = r.tablet_locs_.length
  · by_cases hs : s.ret = ObRet.OB_SUCCESS
    · rw [link_related_match table t related r s h hs]
      refine ⟨rfl, hflag, fun he => ?_⟩
      have he2 : s.ret = ObRet.OB_ERR_UNEXPECTED := he
      rw [hs] at he2
      cases he2
    · rw [link_related_failed table t related r s h hs]
      exact ⟨rfl, hflag, fun he => Or.inl he⟩
  · rw [link_related_mismatch table t related r s h]
    exact ⟨rfl, hflag, fun _ => Or.inr h⟩

/-- What the related-table loop of one table location leaves as it is, and where an
`OB_ERR_UNEXPECTED` comes from. -/
theorem rebuild_related_loop_more (locs : List ObDASTableLoc) (table : Nat)
    (t : ObDASTableLoc) :
    ∀ (rids : List Nat) (s s1 : RebuildState),
      rebuild_related_loop locs table t rids s = some s1 →
      s1.visited = s.visited ∧
      (∀ j, s.rebuild_reference_ j = true → s1.rebuild_reference_ j = true) ∧
      (s1.ret = ObRet.OB_ERR_UNEXPECTED →
        s.ret = ObRet.OB_ERR_UNEXPECTED ∨
          ∃ rid ∈ rids, ∃ p, get_table_loc_by_id locs t.table_loc_id_ rid = some p ∧
            t.tablet_locs_.length ≠ p.2.tablet_locs_.length) := by
  intro rids
  induction rids with
  | nil =>
    intro s s1 h
    simp only [rebuild_related_loop, Option.some.injEq] at h
    subst h
    exact ⟨rfl, fun _ hj => hj, fun he => Or.inl he⟩
  | cons rid rest ih =>
    intro s s1 h
    cases hg : get_table_loc_by_id locs t.table_loc_id_ rid with
    | none => simp [rebuild_related_loop, hg] at h
    | some p =>
      simp only [rebuild_related_loop, hg] at h
      obtain ⟨a1, a2, a3⟩ := link_related_more table t p.1 p.2 s
      obtain ⟨b1, b2, b3⟩ := ih _ s1 h
      refine ⟨b1.trans a1, fun j hj => b2 j (a2 j hj), fun he => ?_⟩
      rcases b3 he with h1 | ⟨r, hr, q, hq, hne⟩
      · rcases a3 h1 with h0 | hne
        · exact Or.inl h0
        · exact Or.inr ⟨rid, List.mem_cons_self _ _, p, hg, hne⟩
      · exact Or.inr ⟨r, List.mem_cons_of_mem _ hr, q, hq, hne⟩

/-- The table locations the outer loop finds not yet rebuilt: they are found with their
flag unset, a mismatch at one of them gives `OB_ERR_UNEXPECTED`, with `OB_SUCCESS` all
their tablet locations are linked, and `OB_ERR_UNEXPECTED` comes from a mismatch at one
of them. -/
theorem rebuild_loop_visited (locs : List ObDASTableLoc) :
    ∀ (l : List (Nat × ObDASTableLoc)) (s s1 : RebuildState),
      (∀ p ∈ l, p ∈ locs.enum) → rebuild_loop locs l s = some s1 →
      (s.ret = ObRet.OB_SUCCESS ∨ s.ret = ObRet.OB_ERR_UNEXPECTED) →
      (∀ ti ∈ s.visited, ti ∈ s1.visited) ∧
      (∀ ti ∈ s1.visited,
        ti ∈ s.visited ∨ (s.rebuild_reference_ ti = false ∧ ∃ t, (ti, t) ∈ l)) ∧
      (∀ j, s.rebuild_reference_ j = true → s1.rebuild_reference_ j = true) ∧
      (∀ ti ∈ s1.visited,
        ti ∈ s.visited ∨
          ((HasMismatch locs ti → s1.ret = ObRet.OB_ERR_UNEXPECTED) ∧
            (s1.ret = ObRet.OB_SUCCESS → LinkedAll locs ti s1.links))) ∧
      (s1.ret = ObRet.OB_ERR_UNEXPECTED →
        s.ret = ObRet.OB_ERR_UNEXPECTED ∨ ∃ ti ∈ s1.visited, HasMismatch locs ti) ∧
      (∀ q rest, l = q :: rest → s.ret = ObRet.OB_SUCCESS →
        s.rebuild_reference_ q.1 = false → q.1 ∈ s1.visited) := by
  intro l
  induction l with
  | nil =>
    intro s s1 _ h _
    simp only [rebuild_loop, Option.some.injEq] at h
    subst h
    exact ⟨fun _ h => h, fun _ h => Or.inl h, fun _ h => h, fun _ h => Or.inl h,
      fun h => Or.inl h, fun q rest hl => by cases hl⟩
  | cons q rest ih =>
    intro s s1 hall h hret
    unfold rebuild_loop at h
    by_cases hs : OB_SUCC s.ret = true
    · rw [if_pos hs] at h
      have hsucc : s.ret = ObRet.OB_SUCCESS := (OB_SUCC_iff _).1 hs
      have hrest : ∀ p ∈ rest, p ∈ locs.enum :=
        fun p hp => hall p (List.mem_cons_of_mem _ hp)
      cases ht : rebuild_table locs q.1 q.2 s with
      | none => rw [ht] at h; cases h
      | some s2 =>
        rw [ht] at h
        simp only at h
        obtain ⟨r1, _, _, r4, _, _⟩ :=
          rebuild_loop_facts locs (fun _ => none) rest s2 s1 hrest h
        have hq : locs[q.1]? = some q.2 :=
          List.mk_mem_enum_iff_getElem?.1 (hall q (List.mem_cons_self _ _))
        rcases rebuild_table_cases locs q.1 q.2 s s2 ht with ⟨hf, he⟩ | ⟨hf, hloop⟩
        · subst he
          obtain ⟨i1, i2, i3, i4, i5, _⟩ := ih s2 s1 hrest h hret
          refine ⟨i1, ?_, i3, i4, i5, ?_⟩
          · intro ti hti
            rcases i2 ti hti with h0 | ⟨h1, t, ht2⟩
            · exact Or.inl h0
            · exact Or.inr ⟨h1, t, List.mem_cons_of_mem _ ht2⟩
          · intro q2 rest2 hl _ hflag
            have hq2 : q = q2 := (List.cons.inj hl).1
            subst hq2
            rw [hf] at hflag
            cases hflag
        · obtain ⟨a1, a2, a3, _, a5, _, _, _⟩ :=
            rebuild_related_loop_facts locs q.1 q.2 (fun _ => none) _ _ s2 hloop
          obtain ⟨m1, m2, m3⟩ := rebuild_related_loop_more locs q.1 q.2 _ _ s2 hloop
          have hs2 : s2.ret = ObRet.OB_SUCCESS ∨ s2.ret = ObRet.OB_ERR_UNEXPECTED :=
            a2 (Or.inl hsucc)
          obtain ⟨i1, i2, i3, i4, i5, _⟩ := ih s2 s1 hrest h hs2
          have hv2 : ∀ ti, ti ∈ s2.visited ↔ ti ∈ s.visited ∨ ti = q.1 := by
            intro ti
            rw [m1]
            simp only [List.mem_append, List.mem_singleton]
          have hq1 : q.1 ∈ s1.visited := i1 q.1 ((hv2 q.1).2 (Or.inr rfl))
          have hPq : (HasMismatch locs q.1 → s1.ret = ObRet.OB_ERR_UNEXPECTED) ∧
              (s1.ret = ObRet.OB_SUCCESS → LinkedAll locs q.1 s1.links) := by
            constructor
            · rintro ⟨t, rid, p, ht2, hrid, hg, hne⟩
              rw [hq] at ht2
              cases ht2
              exact r1 (a3 ⟨rid, hrid, p, hg, hne⟩)
            · intro hs1
              have hs2s : s2.ret = ObRet.OB_SUCCESS := by
                rcases hs2 with h2 | h2
                · exact h2
                · have h3 := r1 h2
                  rw [hs1] at h3
                  cases h3
              have hmatch : ∀ rid ∈ q.2.related_table_ids_, ∀ p,
                  get_table_loc_by_id locs q.2.table_loc_id_ rid = some p →
                  q.2.tablet_locs_.length = p.2.tablet_locs_.length := by
                intro rid hrid p hg
                by_contra hne
                have h3 := a3 ⟨rid, hrid, p, hg, hne⟩
                rw [hs2s] at h3
                cases h3
              obtain ⟨_, hl⟩ := a5 hmatch hsucc
              intro t rid p ht2 hrid hg i a b ha hb
              rw [hq] at ht2
              cases ht2
              exact r4 _ (hl rid hrid p hg _
                ((mem_mk_links _ _ _ _ _).2 ⟨rfl, rfl, i, ha, hb⟩))
          refine ⟨fun ti hti => i1 ti ((hv2 ti).2 (Or.inl hti)), ?_, ?_, ?_, ?_, ?_⟩
          · intro ti hti
            rcases i2 ti hti with h0 | ⟨h1, t, ht2⟩
            · rcases (hv2 ti).1 h0 with h00 | h01
              · exact Or.inl h00
              · right
                rw [h01]
                exact ⟨hf, q.2, List.mem_cons_self _ _⟩
            · right
              refine ⟨?_, t, List.mem_cons_of_mem _ ht2⟩
              by_contra hc
              have hc2 : s.rebuild_reference_ ti = true := by simpa using hc
              have hc3 : Function.update s.rebuild_reference_ q.1 true ti = true := by
                by_cases htq : ti = q.1
                · rw [htq]
                  exact Function.update_same _ _ _
                · rw [Function.update_noteq htq]
                  exact hc2
              have hc4 := m2 ti hc3
              rw [h1] at hc4
              cases hc4
          · intro j hj
            have hj2 : Function.update s.rebuild_reference_ q.1 true j = true := by
              by_cases hjq : j = q.1
              · rw [hjq]
                exact Function.update_same _ _ _
              · rw [Function.update_noteq hjq]
                exact hj
            exact i3 j (m2 j hj2)
          · intro ti hti
            rcases i4 ti hti with h0 | hP
            · rcases (hv2 ti).1 h0 with h00 | h01
              · exact Or.inl h00
              · right
                rw [h01]
                exact hPq
            · exact Or.inr hP
          · intro he
            rcases i5 he with h2 | hex
            · rcases m3 h2 with h0 | ⟨rid, hrid, p, hg, hne⟩
              · exact Or.inl h0
              · exact Or.inr ⟨q.1, hq1, q.2, rid, p, hq, hrid, hg, hne⟩
            · exact Or.inr hex
          · intro q2 rest2 hl _ _
            have hq2 : q = q2 := (List.cons.inj hl).1
            subst hq2
            exact hq1
    · rw [if_neg hs] at h
      have he : s1 = s := (Option.some.inj h).symm
      subst he
      refine ⟨fun _ h => h, fun _ h => Or.inl h, fun _ h => h, fun _ h => Or.inl h,
        fun h => Or.inl h, ?_⟩
      intro q2 rest2 _ hs2 _
      exact absurd ((OB_SUCC_iff _).2 hs2) hs

/-- A table location whose flag is unset is found not yet rebuilt by the outer loop,
unless `ret` has become `OB_ERR_UNEXPECTED` before or an earlier table location that
the loop rebuilt names it as related. -/
theorem rebuild_loop_reaches (locs : List ObDASTableLoc) (table : Nat) (t : ObDASTableLoc) :
    ∀ (pre post : List (Nat × ObDASTableLoc)) (s s1 : RebuildState),
      (∀ p ∈ pre ++ (table, t) :: post, p ∈ locs.enum) →
      (∀ q ∈ pre, q.1 < table) →
      rebuild_loop locs (pre ++ (table, t) :: post) s = some s1 →
      s.ret = ObRet.OB_SUCCESS → s.rebuild_reference_ table = false →
      table ∈ s1.visited ∨ s1.ret = ObRet.OB_ERR_UNEXPECTED ∨
        ∃ j ∈ s1.visited, j < table ∧ NamesRelated locs j table := by
  intro pre
  induction pre with
  | nil =>
    intro post s s1 hall _ h hs hflag
    exact Or.inl ((rebuild_loop_visited locs _ s s1 hall h (Or.inl hs)).2.2.2.2.2
      (table, t) post rfl hs hflag)
  | cons q pre ih =>
    intro post s s1 hall hlt h hs hflag
    have hq : q.1 < table := hlt q (List.mem_cons_self _ _)
    have hrest : ∀ p ∈ pre ++ (table, t) :: post, p ∈ locs.enum :=
      fun p hp => hall p (List.mem_cons_of_mem _ hp)
    have hlt2 : ∀ q2 ∈ pre, q2.1 < table :=
      fun q2 hq2 => hlt q2 (List.mem_cons_of_mem _ hq2)
    have hhead := (rebuild_loop_visited locs _ s s1 hall h (Or.inl hs)).2.2.2.2.2
      q (pre ++ (table, t) :: post) rfl hs
    have hqloc : locs[q.1]? = some q.2 :=
      List.mk_mem_enum_iff_getElem?.1 (hall q (List.mem_cons_self _ _))
    rw [List.cons_append] at h
    unfold rebuild_loop at h
    rw [if_pos ((OB_SUCC_iff _).2 hs)] at h
    cases ht : rebuild_table locs q.1 q.2 s with
    | none => rw [ht] at h; cases h
    | some s2 =>
      rw [ht] at h
      simp only at h
      rcases rebuild_table_cases locs q.1 q.2 s s2 ht with ⟨_, he⟩ | ⟨hqf, hloop⟩
      · subst he
        exact ih post s2 s1 hrest hlt2 h hs hflag
      · obtain ⟨_, a2, _, a4, _, _, _, _⟩ :=
          rebuild_related_loop_facts locs q.1 q.2 (fun _ => none) _ _ s2 hloop
        by_cases hc : s2.rebuild_reference_ table = true
        · rcases a4 table hc with h0 | ⟨rid, hrid, p, hg, hp⟩
          · have h1 : Function.update s.rebuild_reference_ q.1 true table = true := h0
            rw [Function.update_noteq (Nat.ne_of_gt hq), hflag] at h1
            cases h1
          · exact Or.inr (Or.inr ⟨q.1, hhead hqf, hq, q.2, rid, p, hqloc, hrid, hg, hp⟩)
        · have hflag2 : s2.rebuild_reference_ table = false := by simpa using hc
          rcases a2 (Or.inl hs) with hs2 | he2
          · exact ih post s2 s1 hrest hlt2 h hs2 hflag2
          · exact Or.inr (Or.inl
              ((rebuild_loop_facts locs (fun _ => none) _ s2 s1 hrest h).1 he2))

/-- The table locations in front of a position in the enumerated list have smaller
positions. -/
theorem enum_split_lt (locs : List ObDASTableLoc) (table : Nat) (t : ObDASTableLoc)
    (pre post : List (Nat × ObDASTableLoc)) (h : locs.enum = pre ++ (table, t) :: post) :
    ∀ q ∈ pre, q.1 < table := by
  have hp : List.Pairwise (fun a b : Nat => a < b)
      ((pre ++ (table, t) :: post).map Prod.fst) := by
    rw [← h, List.enum_map_fst]
    exact List.pairwise_lt_range _
  rw [List.map_append, List.pairwise_append] at hp
  intro q hq
  exact hp.2.2 q.1 (List.mem_map.2 ⟨q, hq, rfl⟩) table (by simp)

/-- A test that can be evaluated for `AllMatch`. -/
theorem AllMatch_of_lengths (locs : List ObDASTableLoc)
    (h : ∀ t ∈ locs, ∀ rid ∈ t.related_table_ids_,
      (get_table_loc_by_id locs t.table_loc_id_ rid).map (fun p => p.2.tablet_locs_.length)
          = none ∨
        (get_table_loc_by_id locs t.table_loc_id_ rid).map (fun p => p.2.tablet_locs_.length)
          = some t.tablet_locs_.length) :
    AllMatch locs := by
  intro t ht rid hrid p hg
  rcases h t ht rid hrid with h1 | h1
  · rw [hg] at h1
    cases h1
  · rw [hg, Option.map_some', Option.some.injEq] at h1
    exact h1.symm

/-- C23: when every related id resolves, `rebuild_tablet_loc_reference` returns
`OB_SUCCESS` or `OB_ERR_UNEXPECTED`. It returns `OB_ERR_UNEXPECTED` whenever a table
location that the loop finds not yet rebuilt has a related table location with a
different number of tablet locations, and only then. The table locations found not yet
rebuilt have their flag unset at the call. The first table location is found not yet
rebuilt when its flag is unset, and so is every other one with its flag unset, unless
the call has failed or an earlier table location found not yet rebuilt names it as
related. Every link made joins the tablet locations at one position of a table location
and of one of its related table locations with the same number of tablet locations, so
no tablet pair of mismatched tables is linked, and the pointers after the call are the
pointers before it with these links applied in order. When the call returns
`OB_SUCCESS`, which it does when all counts match, each tablet location of every table
location found not yet rebuilt has been linked to the tablet location at the same
position of each of its related table locations. -/
theorem rebuild_tablet_loc_reference_spec (c : ObDASCtx) (hres : Resolves c.table_locs_) :
    ∃ s, rebuild_tablet_loc_reference c = some s ∧
      (s.ret = ObRet.OB_SUCCESS ∨ s.ret = ObRet.OB_ERR_UNEXPECTED) ∧
      (∀ table ∈ s.visited,
        c.rebuild_reference_ table = false ∧ ∃ t, c.table_locs_[table]? = some t) ∧
      (∀ t, c.table_locs_[0]? = some t → c.rebuild_reference_ 0 = false → 0 ∈ s.visited) ∧
      (∀ (table : Nat) (t : ObDASTableLoc),
        c.table_locs_[table]? = some t → c.rebuild_reference_ table = false →
        table ∈ s.visited ∨ s.ret = ObRet.OB_ERR_UNEXPECTED ∨
          ∃ j ∈ s.visited, j < table ∧ NamesRelated c.table_locs_ j table) ∧
      (∀ table ∈ s.visited, HasMismatch c.table_locs_ table →
        s.ret = ObRet.OB_ERR_UNEXPECTED) ∧
      (s.ret = ObRet.OB_ERR_UNEXPECTED →
        ∃ table ∈ s.visited, HasMismatch c.table_locs_ table) ∧
      (∀ lk ∈ s.links, LinkSound c.table_locs_ lk) ∧
      s.next_ = apply_links s.links c.next_ ∧
      (s.ret = ObRet.OB_SUCCESS →
        ∀ table ∈ s.visited, LinkedAll c.table_locs_ table s.links) ∧
      (AllMatch c.table_locs_ → s.ret = ObRet.OB_SUCCESS) := by
  have hall : ∀ p ∈ c.table_locs_.enum, p ∈ c.table_locs_.enum := fun _ h => h
  obtain ⟨s, hs⟩ := rebuild_loop_total c.table_locs_ hres c.table_locs_.enum
    { ret := ObRet.OB_SUCCESS, rebuild_reference_ := c.rebuild_reference_, next_ := c.next_,
      links := [], visited := [] } hall
  obtain ⟨_, f2, f3, _, f5, f6⟩ :=
    rebuild_loop_facts c.table_locs_ c.next_ _ _ s hall hs
  obtain ⟨_, v2, _, v4, v5, v6⟩ :=
    rebuild_loop_visited c.table_locs_ _ _ s hall hs (Or.inl rfl)
  refine ⟨s, hs, f2 (Or.inl rfl), ?_, ?_, ?_, ?_, ?_, ?_, f5 rfl, ?_, fun hm => f6 hm rfl⟩
  · intro table htable
    rcases v2 table htable with h0 | ⟨h1, t, ht⟩
    · cases h0
    · exact ⟨h1, t, List.mk_mem_enum_iff_getElem?.1 ht⟩
  · intro t ht hflag
    cases hlocs : c.table_locs_ with
    | nil => rw [hlocs] at ht; cases ht
    | cons t0 tl =>
      exact v6 (0, t0) (List.enumFrom 1 tl) (by rw [hlocs]; rfl) rfl hflag
  · intro table t ht hflag
    have hmem : (table, t) ∈ c.table_locs_.enum := List.mk_mem_enum_iff_getElem?.2 ht
    obtain ⟨pre, post, hsplit⟩ := List.append_of_mem hmem
    have hlt := enum_split_lt c.table_locs_ table t pre post hsplit
    have hallp : ∀ p ∈ pre ++ (table, t) :: post, p ∈ c.table_locs_.enum := by
      intro p hp
      rw [hsplit]
      exact hp
    rw [hsplit] at hs
    exact rebuild_loop_reaches c.table_locs_ table t pre post _ s hallp hlt hs rfl hflag
  · intro table htable hmis
    rcases v4 table htable with h0 | hP
    · cases h0
    · exact hP.1 hmis
  · intro he
    rcases v5 he with h0 | hex
    · cases h0
    · exact hex
  · intro lk hl
    rcases f3 lk hl with h0 | h1
    · cases h0
    · exact h1
  · intro hsucc table htable
    rcases v4 table htable with h0 | hP
    · cases h0
    · exact hP.2 hsucc

/-- C23 at concrete contexts with no flag set. With two tablet locations on either side
the call succeeds, finds position 0 not yet rebuilt, links 1 to 3 and 2 to 4 and leaves
`next_` of 1 and 2 pointing there. With two against one, position 0 is found not yet
rebuilt and has a mismatch, so the call returns `OB_ERR_UNEXPECTED` and links nothing;
the same holds for two table locations that name each other as related. In a chain
where the first table location names the second and the second names a third of a
different size, the loop finds positions 0 and 2 not yet rebuilt and passes over
position 1, whose flag it has set as the related table location of position 0. -/
theorem rebuild_tablet_loc_reference_spec_witness :
    Resolves (ctx_of matched_locs).table_locs_ ∧
    (∃ s, rebuild_tablet_loc_reference (ctx_of matched_locs) = some s ∧
      s.ret = ObRet.OB_SUCCESS ∧ 0 ∈ s.visited ∧
      Link.mk 0 1 1 3 ∈ s.links ∧ Link.mk 0 1 2 4 ∈ s.links) ∧
    (rebuild_tablet_loc_reference (ctx_of matched_locs)).map
        (fun s => (s.ret, s.links, s.visited, s.next_ 1, s.next_ 2))
      = some (ObRet.OB_SUCCESS, [Link.mk 0 1 1 3, Link.mk 0 1 2 4], [0], some 3, some 4) ∧
    Resolves (ctx_of mismatched_locs).table_locs_ ∧
    HasMismatch (ctx_of mismatched_locs).table_locs_ 0 ∧
    (∃ s, rebuild_tablet_loc_reference (ctx_of mismatched_locs) = some s ∧
      0 ∈ s.visited ∧ s.ret = ObRet.OB_ERR_UNEXPECTED) ∧
    (rebuild_tablet_loc_reference (ctx_of mismatched_locs)).map
        (fun s => (s.ret, s.links, s.visited, s.next_ 1, s.next_ 2))
      = some (ObRet.OB_ERR_UNEXPECTED, [], [0], none, none) ∧
    Resolves (ctx_of mutual_locs).table_locs_ ∧
    HasMismatch (ctx_of mutual_locs).table_locs_ 0 ∧
    (∃ s, rebuild_tablet_loc_reference (ctx_of mutual_locs) = some s ∧
      0 ∈ s.visited ∧ s.ret = ObRet.OB_ERR_UNEXPECTED) ∧
    (rebuild_tablet_loc_reference (ctx_of mutual_locs)).map
        (fun s => (s.ret, s.links, s.visited))
      = some (ObRet.OB_ERR_UNEXPECTED, [], [0]) ∧
    (rebuild_tablet_loc_reference (ctx_of chained_locs)).map
        (fun s => (s.ret, s.links, s.visited, s.rebuild_reference_ 1))
      = some (ObRet.OB_SUCCESS, [Link.mk 0 1 1 2], [0, 2], true) := by
  have hres1 : Resolves (ctx_of matched_locs).table_locs_ := by
    unfold Resolves; decide
  have hres2 : Resolves (ctx_of mismatched_locs).table_locs_ := by
    unfold Resolves; decide
  have hres3 : Resolves (ctx_of mutual_locs).table_locs_ := by
    unfold Resolves; decide
  have hmatch : AllMatch (ctx_of matched_locs).table_locs_ :=
    AllMatch_of_lengths _ (by decide)
  have hmis2 : HasMismatch (ctx_of mismatched_locs).table_locs_ 0 :=
    ⟨main_loc, 11, (1, related_loc [3]), rfl, by decide, by decide, by decide⟩
  have hmis3 : HasMismatch (ctx_of mutual_locs).table_locs_ 0 :=
    ⟨main_loc, 11, (1, back_loc), rfl, by decide, by decide, by decide⟩
  obtain ⟨s1, h1, _, _, h4, _, _, _, _, _, h10, h11⟩ :=
    rebuild_tablet_loc_reference_spec (ctx_of matched_locs) hres1
  obtain ⟨s2, k1, _, _, k4, _, k6, _⟩ :=
    rebuild_tablet_loc_reference_spec (ctx_of mismatched_locs) hres2
  obtain ⟨s3, m1, _, _, m4, _, m6, _⟩ :=
    rebuild_tablet_loc_reference_spec (ctx_of mutual_locs) hres3
  have v1 : 0 ∈ s1.visited := h4 main_loc rfl rfl
  have v2 : 0 ∈ s2.visited := k4 main_loc rfl rfl
  have v3 : 0 ∈ s3.visited := m4 main_loc rfl rfl
  refine ⟨hres1, ⟨s1, h1, h11 hmatch, v1, ?_, ?_⟩, by decide, hres2, hmis2,
    ⟨s2, k1, v2, k6 0 v2 hmis2⟩, by decide, hres3, hmis3, ⟨s3, m1, v3, m6 0 v3 hmis3⟩,
    by decide, by decide⟩
  · exact h10 (h11 hmatch) 0 v1 main_loc 11 (1, related_loc [3, 4]) rfl (by decide)
      (by decide) 0 1 3 rfl rfl
  · exact h10 (h11 hmatch) 0 v1 main_loc 11 (1, related_loc [3, 4]) rfl (by decide)
      (by decide) 1 2 4 rfl rfl

end Das
end OceanBase
